import Mathlib

/-!
Register-level model of the MCAL drivers.

A shallow embedding of `Driver/inc/Clock.c`, `Driver/src/Nvic.c`,
`Driver/inc/Port.c`, `Driver/inc/Gpio.c` and `Driver/src/Systick.c`.

* `unsigned int` values are natural numbers below `2 ^ 32`; every operation
  that can leave that range is followed by an explicit reduction `u32`.
* Memory-mapped registers are the cells of a `Machine`; each volatile access
  is appended to the machine's `trace` in program order.
* The busy-wait loops read values that the hardware supplies; those values are
  a parameter of the function that polls.
* A read through an index outside its register array has no defined result.
  `Port_Init`, whose index is an unchecked `unsigned int`, reads through
  `load_checked` and ends with a `Fault` there.
* A cell of the `Machine` holds the word last stored in it. The NVIC enable
  words are not plain storage: the device sets or clears enable bits on a
  store, and `nvicEnableAfter` follows that response along the trace.
-/

namespace Mcal

/-! ## Machine words -/

/-- Reduction of a natural number to the range of `unsigned int` (32 bits). -/
def u32 (x : Nat) : Nat := x % 2 ^ 32

/-- The C operator `~` on `unsigned int`. -/
def not32 (x : Nat) : Nat := 2 ^ 32 - (u32 x + 1)

/-- Reduction of a natural number to the range of `unsigned char`. -/
def u8 (x : Nat) : Nat := x % 256

/-- The C operator `<<` on `unsigned int`, for a shift count below 32. -/
def shl32 (x n : Nat) : Nat := u32 (x <<< n)

/-- Two's-complement reduction of an integer to the range of `int` (32 bits). -/
def wrap_int (x : Int) : Int := (x + 2 ^ 31) % 2 ^ 32 - 2 ^ 31

/-- The C operator `<<` on `int`, for a shift count below 32, with the
two's-complement result the ARM compilers produce. -/
def shl_int (x : Int) (n : Nat) : Int := wrap_int (x * 2 ^ n)

/-- Conversion of an `int` to `unsigned int`. -/
def int_to_u32 (x : Int) : Nat := (x % 2 ^ 32).toNat

/-! ## Utilitie.h and Clock_Registers.h constants -/

def ENABLEMENT : Nat := 1
def VALUE_CHECK_BIT : Nat := 1
def BIT0 : Nat := 0
def BIT1 : Nat := 1
def BIT6 : Nat := 6
def BIT8 : Nat := 8
def BIT9 : Nat := 9
def BIT10 : Nat := 10
def BIT16 : Nat := 16
def BIT17 : Nat := 17
def BIT18 : Nat := 18
def BIT19 : Nat := 19

/-- The macro `CHECK_BIT(REG, BIT)`, that is `((REG >> BIT) & 0x01)`. -/
def CHECK_BIT (reg bit : Nat) : Nat := (reg >>> bit) &&& 0x01

def PCC_CGC_SHIFT : Nat := 30
def PCC_PCS_SHIFT : Nat := 24

def SCG_RCCR_DIVSLOW_SHIFT : Nat := 0
def SCG_RCCR_DIVBUS_SHIFT : Nat := 4
def SCG_RCCR_DIVCORE_SHIFT : Nat := 16
def SCG_RCCR_SCS_SHIFT : Nat := 24

def SCG_HCCR_DIVSLOW_SHIFT : Nat := 0
def SCG_HCCR_DIVBUS_SHIFT : Nat := 4
def SCG_HCCR_DIVCORE_SHIFT : Nat := 16
def SCG_HCCR_SCS_SHIFT : Nat := 24

def SCG_CSR_LK_SHIFT : Nat := 23
def SCG_CSR_VLD_SHIFT : Nat := 24

def SCG_FIRCDIV_FIRCDIV1_SHIFT : Nat := 0
def SCG_FIRCDIV_FIRCDIV2_SHIFT : Nat := 8
def SCG_SIRCDIV_SIRCDIV1_SHIFT : Nat := 0
def SCG_SIRCDIV_SIRCDIV2_SHIFT : Nat := 8

def SCG_SOSCCFG_RANGE_SHIFT : Nat := 4
def SCG_SOSCCFG_EREFS_SHIFT : Nat := 2
def SCG_SOSCDIV_SOSCDIV1_SHIFT : Nat := 0
def SCG_SOSCDIV_SOSCDIV2_SHIFT : Nat := 8

def SCG_SPLLCFG_SOURCE_SHIFT : Nat := 0
def SCG_SPLLCFG_PREDIV_SHIFT : Nat := 8
def SCG_SPLLCFG_MULT_SHIFT : Nat := 16
def SCG_SPLLDIV_SPLLDIV1_SHIFT : Nat := 0
def SCG_SPLLDIV_SPLLDIV2_SHIFT : Nat := 8

/-! ## Clock.h constants -/

def SCG_SOSCCFG_EREFS_ERC : Nat := 0
def SCG_SOSCCFG_EREFS_IOSC : Nat := 1

/-! ## Registers and machine state -/

/-- The memory-mapped registers the drivers touch: the `PCCn` array of
`PCC_Type`, the members of `SCG_Type`, the NVIC register arrays, the `PCR`
array of the `PORT_Type` at a base address, the members of the `GPIO_Type` at a
base address, and the members of `SYST_Type`. -/
inductive Reg where
  | PCCn (i : Nat)
  | SCG_CSR
  | SCG_RCCR
  | SCG_VCCR
  | SCG_HCCR
  | SCG_CLKOUTCNFG
  | SCG_SOSCCSR
  | SCG_SOSCDIV
  | SCG_SOSCCFG
  | SCG_SIRCCSR
  | SCG_SIRCDIV
  | SCG_SIRCCFG
  | SCG_FIRCCSR
  | SCG_FIRCDIV
  | SCG_FIRCCFG
  | SCG_SPLLCSR
  | SCG_SPLLDIV
  | SCG_SPLLCFG
  | ISER (i : Nat)
  | ICER (i : Nat)
  | ICPR (i : Nat)
  | IPR (i : Nat)
  | PORT_PCR (base : Nat) (i : Nat)
  | GPIO_PDOR (base : Nat)
  | GPIO_PSOR (base : Nat)
  | GPIO_PCOR (base : Nat)
  | GPIO_PTOR (base : Nat)
  | GPIO_PDIR (base : Nat)
  | GPIO_PDDR (base : Nat)
  | GPIO_PIDR (base : Nat)
  | SYST_CSR
  | SYST_RVR
  | SYST_CVR
  | SYST_CALIB
  deriving DecidableEq, Repr

/-- One volatile access to a register. -/
inductive Event where
  | read (r : Reg) (v : Nat)
  | write (r : Reg) (v : Nat)
  deriving DecidableEq, Repr

/-- Register contents together with the accesses performed so far. -/
structure Machine where
  mem : Reg → Nat
  trace : List Event

/-- Volatile read of a register. -/
def load (r : Reg) (s : Machine) : Nat × Machine :=
  (s.mem r, { s with trace := s.trace ++ [Event.read r (s.mem r)] })

/-- Volatile write of a 32-bit value to a register. -/
def store (r : Reg) (v : Nat) (s : Machine) : Machine :=
  { mem := fun x => if x = r then u32 v else s.mem x
    trace := s.trace ++ [Event.write r (u32 v)] }

/-- The values written to register `r` in a list of accesses, in order. -/
def writesTo (r : Reg) : List Event → List Nat
  | [] => []
  | Event.read _ _ :: es => writesTo r es
  | Event.write r' v :: es => if r' = r then v :: writesTo r es else writesTo r es

/-- The registers written in a list of accesses, in order. -/
def writtenRegs : List Event → List Reg
  | [] => []
  | Event.read _ _ :: es => writtenRegs es
  | Event.write r _ :: es => r :: writtenRegs es

/-- The writes in a list of accesses, in order, each with its register and
the value stored. -/
def writesOf : List Event → List (Reg × Nat)
  | [] => []
  | Event.read _ _ :: es => writesOf es
  | Event.write r v :: es => (r, v) :: writesOf es

/-- A machine with every register at zero and no access performed. -/
def Machine.reset : Machine := { mem := fun _ => 0, trace := [] }

/-- Volatile `r &= m`: read the register, write back the conjunction. -/
def and_assign (r : Reg) (m : Nat) (s : Machine) : Machine :=
  let (w, s1) := load r s
  store r (w &&& m) s1

/-- Volatile `r |= m`: read the register, write back the disjunction. -/
def or_assign (r : Reg) (m : Nat) (s : Machine) : Machine :=
  let (w, s1) := load r s
  store r (w ||| m) s1

/-- A busy-wait loop `while (!done(r)) {}`. The hardware supplies the values
the successive reads of `r` return; the loop ends at the first one satisfying
`done`. The flag is `false` when the supplied values end with the loop still
spinning. -/
def poll (r : Reg) (done : Nat → Bool) : List Nat → Machine → Machine × Bool
  | [], s => (s, false)
  | v :: vs, s =>
    let s1 : Machine :=
      { mem := fun x => if x = r then u32 v else s.mem x
        trace := s.trace ++ [Event.read r (u32 v)] }
    if done (u32 v) then (s1, true) else poll r done vs s1

/-- The read accesses `poll` performs on the supplied values. -/
def pollReads (r : Reg) (done : Nat → Bool) : List Nat → List Event
  | [] => []
  | v :: vs =>
    Event.read r (u32 v) :: (if done (u32 v) then [] else pollReads r done vs)

/-! ## Array bounds -/

/-- Whether a register is inside the array it is an element of, for the array
lengths declared in the register headers (`PCCn[122]`, `ISER[8]`, `ICER[8]`,
`ICPR[8]`, `IPR[60]`, `PCR[32]`). -/
def Reg.inBounds : Reg → Bool
  | Reg.PCCn i => decide (i < 122)
  | Reg.ISER i => decide (i < 8)
  | Reg.ICER i => decide (i < 8)
  | Reg.ICPR i => decide (i < 8)
  | Reg.IPR i => decide (i < 60)
  | Reg.PORT_PCR _ i => decide (i < 32)
  | _ => true

/-- The ways a call ends without returning a value. -/
inductive Fault where
  | readOutOfBounds (r : Reg)
  deriving DecidableEq, Repr

/-- Volatile read of an element of a register array through its index. A read
with an index outside the array has no defined result: the call ends there
with `Fault.readOutOfBounds`, the state being the one it had reached. -/
def load_checked (r : Reg) (s : Machine) : Except Fault Nat × Machine :=
  if r.inBounds then (Except.ok (load r s).1, (load r s).2)
  else (Except.error (Fault.readOutOfBounds r), s)

/-! ## Clock.h enumerations and configuration structures -/

inductive system_clock_source_t where
  | SOSC_CLK
  | SIRC_CLK
  | FIRC_CLK
  | SPLL_CLK
  deriving DecidableEq, Repr

def system_clock_source_t.val : system_clock_source_t → Nat
  | SOSC_CLK => 1
  | SIRC_CLK => 2
  | FIRC_CLK => 3
  | SPLL_CLK => 6

inductive core_clock_divide_ratio_t where
  | CORE_CLK_DIV_BY_1
  | CORE_CLK_DIV_BY_2
  | CORE_CLK_DIV_BY_3
  | CORE_CLK_DIV_BY_4
  | CORE_CLK_DIV_BY_5
  | CORE_CLK_DIV_BY_6
  | CORE_CLK_DIV_BY_7
  | CORE_CLK_DIV_BY_8
  | CORE_CLK_DIV_BY_9
  | CORE_CLK_DIV_BY_10
  | CORE_CLK_DIV_BY_11
  | CORE_CLK_DIV_BY_12
  | CORE_CLK_DIV_BY_13
  | CORE_CLK_DIV_BY_14
  | CORE_CLK_DIV_BY_15
  | CORE_CLK_DIV_BY_16
  deriving DecidableEq, Repr

def core_clock_divide_ratio_t.val : core_clock_divide_ratio_t → Nat
  | CORE_CLK_DIV_BY_1 => 0
  | CORE_CLK_DIV_BY_2 => 1
  | CORE_CLK_DIV_BY_3 => 2
  | CORE_CLK_DIV_BY_4 => 3
  | CORE_CLK_DIV_BY_5 => 4
  | CORE_CLK_DIV_BY_6 => 5
  | CORE_CLK_DIV_BY_7 => 6
  | CORE_CLK_DIV_BY_8 => 7
  | CORE_CLK_DIV_BY_9 => 8
  | CORE_CLK_DIV_BY_10 => 9
  | CORE_CLK_DIV_BY_11 => 10
  | CORE_CLK_DIV_BY_12 => 11
  | CORE_CLK_DIV_BY_13 => 12
  | CORE_CLK_DIV_BY_14 => 13
  | CORE_CLK_DIV_BY_15 => 14
  | CORE_CLK_DIV_BY_16 => 15

inductive bus_clock_divide_ratio_t where
  | BUS_CLK_DIV_BY_1
  | BUS_CLK_DIV_BY_2
  | BUS_CLK_DIV_BY_3
  | BUS_CLK_DIV_BY_4
  | BUS_CLK_DIV_BY_5
  | BUS_CLK_DIV_BY_6
  | BUS_CLK_DIV_BY_7
  | BUS_CLK_DIV_BY_8
  | BUS_CLK_DIV_BY_9
  | BUS_CLK_DIV_BY_10
  | BUS_CLK_DIV_BY_11
  | BUS_CLK_DIV_BY_12
  | BUS_CLK_DIV_BY_13
  | BUS_CLK_DIV_BY_14
  | BUS_CLK_DIV_BY_15
  | BUS_CLK_DIV_BY_16
  deriving DecidableEq, Repr

def bus_clock_divide_ratio_t.val : bus_clock_divide_ratio_t → Nat
  | BUS_CLK_DIV_BY_1 => 0
  | BUS_CLK_DIV_BY_2 => 1
  | BUS_CLK_DIV_BY_3 => 2
  | BUS_CLK_DIV_BY_4 => 3
  | BUS_CLK_DIV_BY_5 => 4
  | BUS_CLK_DIV_BY_6 => 5
  | BUS_CLK_DIV_BY_7 => 6
  | BUS_CLK_DIV_BY_8 => 7
  | BUS_CLK_DIV_BY_9 => 8
  | BUS_CLK_DIV_BY_10 => 9
  | BUS_CLK_DIV_BY_11 => 10
  | BUS_CLK_DIV_BY_12 => 11
  | BUS_CLK_DIV_BY_13 => 12
  | BUS_CLK_DIV_BY_14 => 13
  | BUS_CLK_DIV_BY_15 => 14
  | BUS_CLK_DIV_BY_16 => 15

inductive slow_clock_divide_ratio_t where
  | SLOW_CLK_DIV_BY_1
  | SLOW_CLK_DIV_BY_2
  | SLOW_CLK_DIV_BY_3
  | SLOW_CLK_DIV_BY_4
  | SLOW_CLK_DIV_BY_5
  | SLOW_CLK_DIV_BY_6
  | SLOW_CLK_DIV_BY_7
  | SLOW_CLK_DIV_BY_8
  deriving DecidableEq, Repr

def slow_clock_divide_ratio_t.val : slow_clock_divide_ratio_t → Nat
  | SLOW_CLK_DIV_BY_1 => 0
  | SLOW_CLK_DIV_BY_2 => 1
  | SLOW_CLK_DIV_BY_3 => 2
  | SLOW_CLK_DIV_BY_4 => 3
  | SLOW_CLK_DIV_BY_5 => 4
  | SLOW_CLK_DIV_BY_6 => 5
  | SLOW_CLK_DIV_BY_7 => 6
  | SLOW_CLK_DIV_BY_8 => 7

inductive clock_names_t where
  | LPSPI0_CLK
  | LPSPI1_CLK
  | LPSPI2_CLK
  | LPIT0_CLK
  | ADC0_CLK
  | PORTA_CLK
  | PORTB_CLK
  | PORTC_CLK
  | PORTD_CLK
  | PORTE_CLK
  | LPUART0_CLK
  | LPUART1_CLK
  | LPUART2_CLK
  deriving DecidableEq, Repr

def clock_names_t.val : clock_names_t → Nat
  | LPSPI0_CLK => 44
  | LPSPI1_CLK => 45
  | LPSPI2_CLK => 46
  | LPIT0_CLK => 55
  | ADC0_CLK => 59
  | PORTA_CLK => 73
  | PORTB_CLK => 74
  | PORTC_CLK => 75
  | PORTD_CLK => 76
  | PORTE_CLK => 77
  | LPUART0_CLK => 106
  | LPUART1_CLK => 107
  | LPUART2_CLK => 108

inductive peripheral_clock_source_t where
  | CLK_SRC_OFF
  | CLK_SRC_OP_1
  | CLK_SRC_OP_2
  | CLK_SRC_OP_3
  | CLK_SRC_OP_4
  | CLK_SRC_OP_5
  | CLK_SRC_OP_6
  | CLK_SRC_OP_7
  deriving DecidableEq, Repr

def peripheral_clock_source_t.val : peripheral_clock_source_t → Nat
  | CLK_SRC_OFF => 0
  | CLK_SRC_OP_1 => 1
  | CLK_SRC_OP_2 => 2
  | CLK_SRC_OP_3 => 3
  | CLK_SRC_OP_4 => 4
  | CLK_SRC_OP_5 => 5
  | CLK_SRC_OP_6 => 6
  | CLK_SRC_OP_7 => 7

inductive clock_gate_t where
  | CLK_GATE_DISABLE
  | CLK_GATE_ENABLE
  deriving DecidableEq, Repr

def clock_gate_t.val : clock_gate_t → Nat
  | CLK_GATE_DISABLE => 0
  | CLK_GATE_ENABLE => 1

inductive scg_async_clock_div_t where
  | SCG_CLOCK_DISABLE
  | SCG_CLOCK_DIV_BY_1
  | SCG_CLOCK_DIV_BY_2
  | SCG_CLOCK_DIV_BY_4
  | SCG_CLOCK_DIV_BY_8
  | SCG_CLOCK_DIV_BY_16
  | SCG_CLOCK_DIV_BY_32
  | SCG_CLOCK_DIV_BY_64
  deriving DecidableEq, Repr

def scg_async_clock_div_t.val : scg_async_clock_div_t → Nat
  | SCG_CLOCK_DISABLE => 0
  | SCG_CLOCK_DIV_BY_1 => 1
  | SCG_CLOCK_DIV_BY_2 => 2
  | SCG_CLOCK_DIV_BY_4 => 3
  | SCG_CLOCK_DIV_BY_8 => 4
  | SCG_CLOCK_DIV_BY_16 => 5
  | SCG_CLOCK_DIV_BY_32 => 6
  | SCG_CLOCK_DIV_BY_64 => 7

inductive system_hsrun_clock_source_t where
  | HSRUN_FIRC_CLK
  | HSRUN_SPLL_CLK
  deriving DecidableEq, Repr

def system_hsrun_clock_source_t.val : system_hsrun_clock_source_t → Nat
  | HSRUN_FIRC_CLK => 3
  | HSRUN_SPLL_CLK => 6

inductive scg_sosc_cfg_range where
  | SCG_RANGE_LCS
  | SCG_RANGE_MCS
  | SCG_RANGE_HCS
  deriving DecidableEq, Repr

def scg_sosc_cfg_range.val : scg_sosc_cfg_range → Nat
  | SCG_RANGE_LCS => 1
  | SCG_RANGE_MCS => 2
  | SCG_RANGE_HCS => 3

structure Pcc_ConfigType where
  clockName : clock_names_t
  clkGate : clock_gate_t
  clkSrc : peripheral_clock_source_t

structure Scg_Firc_ConfigType where
  div1 : scg_async_clock_div_t
  div2 : scg_async_clock_div_t

structure Scg_Sirc_ConfigType where
  div1 : scg_async_clock_div_t
  div2 : scg_async_clock_div_t

structure Scg_Sosc_ConfigType where
  range : scg_sosc_cfg_range
  div1 : scg_async_clock_div_t
  div2 : scg_async_clock_div_t

/-- The members `prediv`, `mult` and `src` are `unsigned char`; the driver
reads them through `u8`. -/
structure Scg_Spll_ConfigType where
  prediv : Nat
  mult : Nat
  src : Nat
  div1 : scg_async_clock_div_t
  div2 : scg_async_clock_div_t

structure Scg_HSRunMode_ConfigType where
  sys_clk_src : system_hsrun_clock_source_t
  core_div : core_clock_divide_ratio_t
  bus_div : bus_clock_divide_ratio_t
  slow_div : slow_clock_divide_ratio_t
  div1 : scg_async_clock_div_t
  div2 : scg_async_clock_div_t

structure Scg_RunMode_ConfigType where
  sys_clk_src : system_clock_source_t
  core_div : core_clock_divide_ratio_t
  bus_div : bus_clock_divide_ratio_t
  slow_div : slow_clock_divide_ratio_t
  div1 : scg_async_clock_div_t
  div2 : scg_async_clock_div_t

/-! ## Clock.c -/

/-- Set Peripheral Clock Control (PCC) configuration. -/
def Clock_SetPccConfig (ConfigPtr : Pcc_ConfigType) (s : Machine) : Machine :=
  let r := Reg.PCCn ConfigPtr.clockName.val
  -- 1. Disable the peripheral clock
  let s1 := and_assign r (not32 (shl32 ENABLEMENT PCC_CGC_SHIFT)) s
  -- 2. Check whether Clock Gate Control is enable or disable
  if ConfigPtr.clkGate.val = clock_gate_t.CLK_GATE_ENABLE.val then
    -- 2.1. Check whether Peripheral Clock Source Select is off or set
    let s2 :=
      if ConfigPtr.clkSrc.val ≠ peripheral_clock_source_t.CLK_SRC_OFF.val then
        or_assign r (shl32 ConfigPtr.clkSrc.val PCC_PCS_SHIFT) s1
      else s1
    -- 2.2. Enable the peripheral clock
    or_assign r (shl32 ENABLEMENT PCC_CGC_SHIFT) s2
  else s1

/-- The value `Clock_SetScgRunModeConfig` composes in its local `value`. -/
def runModeValue (ConfigPtr : Scg_RunMode_ConfigType) : Nat :=
  let value := 0
  let value := value ||| shl32 ConfigPtr.sys_clk_src.val SCG_RCCR_SCS_SHIFT
  let value := value ||| shl32 ConfigPtr.core_div.val SCG_RCCR_DIVCORE_SHIFT
  let value := value ||| shl32 ConfigPtr.bus_div.val SCG_RCCR_DIVBUS_SHIFT
  let value := value ||| shl32 ConfigPtr.slow_div.val SCG_RCCR_DIVSLOW_SHIFT
  value

/-- Set Run Mode configuration: write the composed value to `RCCR`, then spin
until a read-back of `RCCR` equals it. `readBacks` are the values the hardware
returns for the successive reads of `RCCR`; the flag tells whether the
function returned within them. -/
def Clock_SetScgRunModeConfig (ConfigPtr : Scg_RunMode_ConfigType)
    (readBacks : List Nat) (s : Machine) : Machine × Bool :=
  let value := runModeValue ConfigPtr
  let s1 := store Reg.SCG_RCCR value s
  poll Reg.SCG_RCCR (fun v => v == value) readBacks s1

/-- The value `Clock_SetScgHSRunModeConfig` composes in its local `value`. -/
def hsRunModeValue (ConfigPtr : Scg_HSRunMode_ConfigType) : Nat :=
  let value := 0
  let value := value ||| shl32 ConfigPtr.sys_clk_src.val SCG_HCCR_SCS_SHIFT
  let value := value ||| shl32 ConfigPtr.core_div.val SCG_HCCR_DIVCORE_SHIFT
  let value := value ||| shl32 ConfigPtr.bus_div.val SCG_HCCR_DIVBUS_SHIFT
  let value := value ||| shl32 ConfigPtr.slow_div.val SCG_HCCR_DIVSLOW_SHIFT
  value

/-- Set High Speed Run Mode configuration: write the composed value to `HCCR`,
then spin until a read-back of `HCCR` equals it. -/
def Clock_SetScgHSRunModeConfig (ConfigPtr : Scg_HSRunMode_ConfigType)
    (readBacks : List Nat) (s : Machine) : Machine × Bool :=
  let value := hsRunModeValue ConfigPtr
  let s1 := store Reg.SCG_HCCR value s
  poll Reg.SCG_HCCR (fun v => v == value) readBacks s1

/-- Set FIRC configuration. -/
def Clock_SetScgFircConfig (ConfigPtr : Scg_Firc_ConfigType) (s : Machine) : Machine :=
  -- Step 1. Setup dividers 1.
  let s := or_assign Reg.SCG_FIRCDIV (shl32 ConfigPtr.div1.val SCG_FIRCDIV_FIRCDIV1_SHIFT) s
  -- Step 2. Setup dividers 2.
  or_assign Reg.SCG_FIRCDIV (shl32 ConfigPtr.div2.val SCG_FIRCDIV_FIRCDIV2_SHIFT) s

/-- Set SIRC configuration. -/
def Clock_SetScgSircConfig (ConfigPtr : Scg_Sirc_ConfigType) (s : Machine) : Machine :=
  -- Step 1. Setup dividers 1
  let s := or_assign Reg.SCG_SIRCDIV (shl32 ConfigPtr.div1.val SCG_SIRCDIV_SIRCDIV1_SHIFT) s
  -- Step 2. Setup dividers 2.
  or_assign Reg.SCG_SIRCDIV (shl32 ConfigPtr.div2.val SCG_SIRCDIV_SIRCDIV2_SHIFT) s

/-- The exit test of the oscillator and PLL waiting loops: the valid bit of the
control/status word is set. -/
def csrValid (v : Nat) : Bool :=
  ((v >>> SCG_CSR_VLD_SHIFT) &&& VALUE_CHECK_BIT) == VALUE_CHECK_BIT

/-- Set SOSC configuration. `csrReads` are the values the hardware returns for
the successive reads of `SOSCCSR` made by the waiting loop; the flag tells
whether the function returned within them. -/
def Clock_SetScgSoscConfig (ConfigPtr : Scg_Sosc_ConfigType)
    (csrReads : List Nat) (s : Machine) : Machine × Bool :=
  -- Step 1. Setup dividers 1
  let s := or_assign Reg.SCG_SOSCDIV (shl32 ConfigPtr.div1.val SCG_SOSCDIV_SOSCDIV1_SHIFT) s
  -- Step 2. Setup dividers 2.
  let s := or_assign Reg.SCG_SOSCDIV (shl32 ConfigPtr.div2.val SCG_SOSCDIV_SOSCDIV2_SHIFT) s
  -- Step 3. Set SOSC configuration.
  let s := store Reg.SCG_SOSCCFG
    (shl32 ConfigPtr.range.val SCG_SOSCCFG_RANGE_SHIFT
      ||| shl32 SCG_SOSCCFG_EREFS_IOSC SCG_SOSCCFG_EREFS_SHIFT) s
  -- Step 4. Clear Lock Register
  let s := and_assign Reg.SCG_SOSCCSR (not32 (shl32 ENABLEMENT SCG_CSR_LK_SHIFT)) s
  -- Step 5. Enable SOSC clock
  let s := or_assign Reg.SCG_SOSCCSR (shl32 ENABLEMENT BIT0) s
  -- Step 6. Wait for System OSC to initialize
  poll Reg.SCG_SOSCCSR csrValid csrReads s

/-- Set SPLL configuration. `csrReads` are the values the hardware returns for
the successive reads of `SPLLCSR` made by the waiting loop; the flag tells
whether the function returned within them. -/
def Clock_SetScgSpllConfig (ConfigPtr : Scg_Spll_ConfigType)
    (csrReads : List Nat) (s : Machine) : Machine × Bool :=
  -- Step 1. Disable SPLL
  let s := and_assign Reg.SCG_SPLLCSR (not32 ENABLEMENT) s
  -- Step 2. Setup dividers 1
  let s := or_assign Reg.SCG_SPLLDIV (shl32 ConfigPtr.div1.val SCG_SPLLDIV_SPLLDIV1_SHIFT) s
  -- Step 2. Setup dividers 2.
  let s := or_assign Reg.SCG_SPLLDIV (shl32 ConfigPtr.div2.val SCG_SPLLDIV_SPLLDIV2_SHIFT) s
  -- Step 3. Set PLL configuration.
  let s := or_assign Reg.SCG_SPLLCFG (shl32 (u8 ConfigPtr.src) SCG_SPLLCFG_SOURCE_SHIFT) s
  let s := or_assign Reg.SCG_SPLLCFG (shl32 (u8 ConfigPtr.prediv) SCG_SPLLCFG_PREDIV_SHIFT) s
  let s := or_assign Reg.SCG_SPLLCFG (shl32 (u8 ConfigPtr.mult) SCG_SPLLCFG_MULT_SHIFT) s
  -- Step 4. Clear Lock Register
  let s := and_assign Reg.SCG_SPLLCSR (not32 (shl32 ENABLEMENT SCG_CSR_LK_SHIFT)) s
  -- Step 5. Enable SPLL clock
  let s := or_assign Reg.SCG_SPLLCSR (shl32 ENABLEMENT BIT0) s
  -- Step 6. Wait for SPLL to initialize
  poll Reg.SCG_SPLLCSR csrValid csrReads s

/-! ## Nvic.c -/

/-- The interrupt numbers of `IRQn_Type` (enumerators between 0 and 122). -/
abbrev IRQn_Type := Nat

/-- Enables a specified interrupt in the NVIC. -/
def NVIC_EnableInterrupt (IRQ_number : IRQn_Type) (s : Machine) : Machine :=
  store (Reg.ISER (IRQ_number / 32)) (int_to_u32 (shl_int 1 (IRQ_number % 32))) s

/-- Disables a specified interrupt in the NVIC. -/
def NVIC_DisableInterrupt (IRQ_number : IRQn_Type) (s : Machine) : Machine :=
  store (Reg.ICER (IRQ_number / 32)) (int_to_u32 (shl_int 1 (IRQ_number % 32))) s

/-- Clears the pending flag for a specified interrupt in the NVIC. -/
def NVIC_ClearPendingFlag (IRQ_number : IRQn_Type) (s : Machine) : Machine :=
  store (Reg.ICPR (IRQ_number / 32)) (int_to_u32 (shl_int 1 (IRQ_number % 32))) s

/-- Sets the priority of a specified interrupt in the NVIC. The parameter is
an `unsigned char`. -/
def NVIC_SetPriority (IRQ_number : IRQn_Type) (priority : Nat) (s : Machine) : Machine :=
  store (Reg.IPR (IRQ_number / 4))
    (shl32 ((priority % 256) &&& 0xFF) ((IRQ_number % 4) * 8 + 4)) s

/-- Configures the settings for a specified interrupt in the NVIC. -/
def NVIC_Settings (IRQ_number : IRQn_Type) (priority : Nat) (s : Machine) : Machine :=
  let s := NVIC_DisableInterrupt IRQ_number s
  let s := NVIC_ClearPendingFlag IRQ_number s
  let s := NVIC_SetPriority IRQ_number priority s
  NVIC_EnableInterrupt IRQ_number s

/-! ## Port_Registers.h, Port.h and Port.c -/

def PORT_PCR_COUNT : Nat := 32

def PORTA_BASE : Nat := 0x40049000
def PORTC_BASE : Nat := 0x4004B000
def PORTD_BASE : Nat := 0x4004C000
def PORTE_BASE : Nat := 0x4004D000

inductive Port_ret_t where
  | PORT_OK
  | PORT_ERR_PARA
  deriving DecidableEq, Repr

def Port_ret_t.val : Port_ret_t → Nat
  | PORT_OK => 0
  | PORT_ERR_PARA => 1

inductive Port_pull_config_t where
  | PORT_NO_PULL_UP_DOWN
  | PORT_PULL_DOWN
  | PORT_PULL_UP
  deriving DecidableEq, Repr

def Port_pull_config_t.val : Port_pull_config_t → Nat
  | PORT_NO_PULL_UP_DOWN => 0
  | PORT_PULL_DOWN => 1
  | PORT_PULL_UP => 2

inductive Port_drive_strength_t where
  | PORT_LOW_DRV_STRENGTH
  | PORT_HIGH_DRV_STRENGTH
  deriving DecidableEq, Repr

def Port_drive_strength_t.val : Port_drive_strength_t → Nat
  | PORT_LOW_DRV_STRENGTH => 0
  | PORT_HIGH_DRV_STRENGTH => 1

inductive Port_mux_t where
  | PORT_PIN_DISABLED
  | PORT_MUX_AS_GPIO
  | PORT_MUX_ALT2
  | PORT_MUX_ALT3
  | PORT_MUX_ALT4
  | PORT_MUX_ALT5
  | PORT_MUX_ALT6
  | PORT_MUX_ALT7
  deriving DecidableEq, Repr

def Port_mux_t.val : Port_mux_t → Nat
  | PORT_PIN_DISABLED => 0
  | PORT_MUX_AS_GPIO => 1
  | PORT_MUX_ALT2 => 2
  | PORT_MUX_ALT3 => 3
  | PORT_MUX_ALT4 => 4
  | PORT_MUX_ALT5 => 5
  | PORT_MUX_ALT6 => 6
  | PORT_MUX_ALT7 => 7

inductive Port_interrupt_config_t where
  | PORT_DMA_INT_DISABLED
  | PORT_DMA_RISING_EDGE
  | PORT_DMA_FALLING_EDGE
  | PORT_DMA_EITHER_EDGE
  | PORT_INT_LOGIC_ZERO
  | PORT_INT_RISING_EDGE
  | PORT_INT_FALLING_EDGE
  | PORT_INT_EITHER_EDGE
  | PORT_INT_LOGIC_ONE
  deriving DecidableEq, Repr

def Port_interrupt_config_t.val : Port_interrupt_config_t → Nat
  | PORT_DMA_INT_DISABLED => 0x0
  | PORT_DMA_RISING_EDGE => 0x1
  | PORT_DMA_FALLING_EDGE => 0x2
  | PORT_DMA_EITHER_EDGE => 0x3
  | PORT_INT_LOGIC_ZERO => 0x8
  | PORT_INT_RISING_EDGE => 0x9
  | PORT_INT_FALLING_EDGE => 0xA
  | PORT_INT_EITHER_EDGE => 0xB
  | PORT_INT_LOGIC_ONE => 0xC

/-- The member `base` is the address of a `PORT_Type`; `pinPortIdx` is an
`unsigned int`. -/
structure Port_ConfigType where
  base : Nat
  pinPortIdx : Nat
  pullConfig : Port_pull_config_t
  driveSelect : Port_drive_strength_t
  mux : Port_mux_t
  intConfig : Port_interrupt_config_t

/-- The value `Port_Init` computes in its local `regValue`, starting from the
value read from the pin control register. -/
def portRegValue (ConfigPtr : Port_ConfigType) (regValue : Nat) : Nat :=
  -- 1. Internal resistor pull feature selection.
  let regValue :=
    match ConfigPtr.pullConfig with
    | Port_pull_config_t.PORT_NO_PULL_UP_DOWN =>
      regValue &&& not32 (shl32 ENABLEMENT BIT1)
    | Port_pull_config_t.PORT_PULL_DOWN =>
      let regValue := regValue &&& not32 (shl32 ENABLEMENT BIT0)
      regValue ||| shl32 ENABLEMENT BIT1
    | Port_pull_config_t.PORT_PULL_UP =>
      let regValue := regValue ||| shl32 ENABLEMENT BIT0
      regValue ||| shl32 ENABLEMENT BIT1
  -- 2. Configures the drive strength.
  let regValue :=
    if ConfigPtr.driveSelect.val = Port_drive_strength_t.PORT_LOW_DRV_STRENGTH.val then
      regValue &&& not32 (shl32 ENABLEMENT BIT6)
    else if ConfigPtr.driveSelect.val = Port_drive_strength_t.PORT_HIGH_DRV_STRENGTH.val then
      let regValue := regValue &&& not32 (shl32 ENABLEMENT BIT6)
      regValue ||| shl32 ENABLEMENT BIT6
    else regValue
  -- 3. Mux selection.
  let regValue := regValue &&&
    not32 (shl32 ENABLEMENT BIT8 ||| shl32 ENABLEMENT BIT9 ||| shl32 ENABLEMENT BIT10)
  let regValue := regValue ||| shl32 ConfigPtr.mux.val BIT8
  -- 4. Interrupt generation condition.
  let regValue := regValue &&&
    not32 (shl32 ENABLEMENT BIT16 ||| shl32 ENABLEMENT BIT17 ||| shl32 ENABLEMENT BIT18
      ||| shl32 ENABLEMENT BIT19)
  let regValue := regValue ||| shl32 ConfigPtr.intConfig.val BIT16
  regValue

/-- Initializes the pins with the given configuration structure. The
configuration is passed by value, so the pointer is not null. The local
`regValue` is initialised with a read of `PCR[pinPortIdx]` before the
parameter check; `PCR` has `PORT_PCR_COUNT` elements, so with a larger index
that read is outside the array and the call ends there. -/
def Port_Init (ConfigPtr : Port_ConfigType) (s : Machine) :
    Except Fault Port_ret_t × Machine :=
  let ret := Port_ret_t.PORT_OK
  match load_checked (Reg.PORT_PCR ConfigPtr.base ConfigPtr.pinPortIdx) s with
  | (Except.error f, s) => (Except.error f, s)
  | (Except.ok regValue, s) =>
    -- Check parameter
    if ConfigPtr.pinPortIdx ≥ PORT_PCR_COUNT then
      (Except.ok Port_ret_t.PORT_ERR_PARA, s)
    else
      let regValue := portRegValue ConfigPtr regValue
      -- Write the configured value back to the PCR register.
      let s := store (Reg.PORT_PCR ConfigPtr.base ConfigPtr.pinPortIdx) regValue s
      (Except.ok ret, s)

/-! ## Gpio.c -/

/-- Writes a value to a specified GPIO output pin. `pGPIOx` is the address of
a `GPIO_Type`; `PinNumber` and `value` are `unsigned char`. -/
def GPIO_WriteToOutputPin (pGPIOx : Nat) (PinNumber value : Nat) (s : Machine) : Machine :=
  if u8 value ≠ 0 then
    -- Set pin HIGH
    or_assign (Reg.GPIO_PDOR pGPIOx) (shl32 ENABLEMENT (u8 PinNumber)) s
  else
    -- Set pin LOW
    and_assign (Reg.GPIO_PDOR pGPIOx) (not32 (shl32 ENABLEMENT (u8 PinNumber))) s

/-! ## Systick.h and Systick.c -/

def CLEAR_SYST_CVR : Nat := 0
def RESET_TIMES_EXECUTE : Nat := 0

/-- The members `fSystick` and `period` are `unsigned int`, read through
`u32`; `isInterruptEnabled` is an `unsigned char`, read through `u8`. -/
structure Systick_ConfigType where
  fSystick : Nat
  period : Nat
  isInterruptEnabled : Nat

/-- Initializes the SysTick timer. -/
def Systick_Init (ConfigPtr : Systick_ConfigType) (s : Machine) : Machine :=
  -- Step 2.1. Disable the SysTick timer
  let s := and_assign Reg.SYST_CSR (not32 (shl32 ENABLEMENT BIT0)) s
  -- Step 2.2. Setting the reload value
  let s :=
    if u32 ConfigPtr.period ≠ 0 then
      let Tval := u32 (u32 ConfigPtr.period * u32 ConfigPtr.fSystick)
      store Reg.SYST_RVR Tval s
    else
      store Reg.SYST_RVR 0xFFFFFF s
  -- Step 2.3. Clear the current value
  let s := store Reg.SYST_CVR CLEAR_SYST_CVR s
  -- Step 2.4. Check whether timeout interrupt is set
  if u8 ConfigPtr.isInterruptEnabled ≠ 0 then
    or_assign Reg.SYST_CSR (shl32 ENABLEMENT BIT1) s
  else
    and_assign Reg.SYST_CSR (not32 (shl32 ENABLEMENT BIT1)) s

/-- The `while (1)` loop of `Delay_Timer`, entered with the current `count`.
The hardware supplies the values the successive reads of the SysTick `CSR`
return; the flag is `false` when the supplied values end with the loop still
running. -/
def delayLoop (ms : Nat) : Nat → List Nat → Machine → Machine × Bool
  | _, [], s => (s, false)
  | count, v :: vs, s =>
    let s1 : Machine :=
      { mem := fun x => if x = Reg.SYST_CSR then u32 v else s.mem x
        trace := s.trace ++ [Event.read Reg.SYST_CSR (u32 v)] }
    let count1 := if CHECK_BIT (u32 v) BIT16 ≠ 0 then u32 (count + 1) else count
    if count1 = ms then (s1, true) else delayLoop ms count1 vs s1

/-- Delays for a specified number of milliseconds. `ms` is an `unsigned int`;
`csrReads` are the values the hardware returns for the successive reads of the
SysTick `CSR`, and the flag tells whether the function returned within them. -/
def Delay_Timer (ms : Nat) (csrReads : List Nat) (s : Machine) : Machine × Bool :=
  let count := 0
  delayLoop (u32 ms) count csrReads s

/-- Whether a value read from the SysTick `CSR` has `COUNTFLAG` (bit 16) set. -/
def countFlag (v : Nat) : Bool := (u32 v).testBit 16

/-! ## Register layout of SCG_Type -/

/-- The members of `SCG_Type`, in declaration order. -/
inductive SCG_Member where
  | VERID
  | PARAM
  | RESERVED_0
  | CSR
  | RCCR
  | VCCR
  | HCCR
  | CLKOUTCNFG
  | RESERVED_1
  | SOSCCSR
  | SOSCDIV
  | SOSCCFG
  | RESERVED_2
  | SIRCCSR
  | SIRCDIV
  | SIRCCFG
  | RESERVED_3
  | FIRCCSR
  | FIRCDIV
  | FIRCCFG
  | RESERVED_4
  | SPLLCSR
  | SPLLDIV
  | SPLLCFG
  deriving DecidableEq, Repr

/-- Size and alignment in bytes of `unsigned int`. -/
def wordLayout : Nat × Nat := (4, 4)

/-- Size and alignment in bytes of `unsigned char [n]`. -/
def bytesLayout (n : Nat) : Nat × Nat := (n, 1)

/-- The member list of `SCG_Type`: each member with its size and alignment. -/
def SCG_Type : List (SCG_Member × Nat × Nat) :=
  [(SCG_Member.VERID, wordLayout),
   (SCG_Member.PARAM, wordLayout),
   (SCG_Member.RESERVED_0, bytesLayout 8),
   (SCG_Member.CSR, wordLayout),
   (SCG_Member.RCCR, wordLayout),
   (SCG_Member.VCCR, wordLayout),
   (SCG_Member.HCCR, wordLayout),
   (SCG_Member.CLKOUTCNFG, wordLayout),
   (SCG_Member.RESERVED_1, bytesLayout 220),
   (SCG_Member.SOSCCSR, wordLayout),
   (SCG_Member.SOSCDIV, wordLayout),
   (SCG_Member.SOSCCFG, wordLayout),
   (SCG_Member.RESERVED_2, bytesLayout 244),
   (SCG_Member.SIRCCSR, wordLayout),
   (SCG_Member.SIRCDIV, wordLayout),
   (SCG_Member.SIRCCFG, wordLayout),
   (SCG_Member.RESERVED_3, bytesLayout 244),
   (SCG_Member.FIRCCSR, wordLayout),
   (SCG_Member.FIRCDIV, wordLayout),
   (SCG_Member.FIRCCFG, wordLayout),
   (SCG_Member.RESERVED_4, bytesLayout 756),
   (SCG_Member.SPLLCSR, wordLayout),
   (SCG_Member.SPLLDIV, wordLayout),
   (SCG_Member.SPLLCFG, wordLayout)]

/-- The least multiple of `a` that is at least `off`. -/
def alignUp (off a : Nat) : Nat := (off + a - 1) / a * a

/-- Byte offset of member `m` in a structure whose remaining members are the
list, the next free byte being `off`: each member is placed at the next
offset that is a multiple of its alignment. -/
def offsetFrom (m : SCG_Member) : Nat → List (SCG_Member × Nat × Nat) → Option Nat
  | _, [] => none
  | off, (m1, size, align) :: rest =>
    if m1 = m then some (alignUp off align)
    else offsetFrom m (alignUp off align + size) rest

/-- Byte offset of a member of `SCG_Type`. -/
def scgOffset (m : SCG_Member) : Option Nat := offsetFrom m 0 SCG_Type

/-! ## Accessed registers -/

/-- The registers accessed (read or written) in a list of accesses. -/
def accessedRegs : List Event → List Reg
  | [] => []
  | Event.read r _ :: es => r :: accessedRegs es
  | Event.write r _ :: es => r :: accessedRegs es

/-! ## Observations used by the specifications -/

/-- The accesses a run performed after the snapshot `before`. -/
def Machine.since (after before : Machine) : List Event :=
  after.trace.drop before.trace.length

/-- The source-select field (bits 24 to 26) of a PCC word. -/
def pcsField (w : Nat) : Nat := (w >>> 24) &&& 7

/-- Every value of the list whose source-select field differs from the value
stored just before it (`prev` for the first one) is written while the gate is
closed and leaves it closed: bit 30 is clear in the value stored just before
it and in the value itself. -/
def sourceChangesGated : Nat → List Nat → Prop
  | _, [] => True
  | prev, w :: ws =>
    (pcsField w ≠ pcsField prev → prev.testBit 30 = false ∧ w.testBit 30 = false)
      ∧ sourceChangesGated w ws

/-- Modelled from the spec: the response of the NVIC to a store in one of its
enable words, which is hardware and not part of the sources. The set-enable
words `ISER` are write-one-to-set and the clear-enable words `ICER` are
write-one-to-clear, so that the driver's direct assignment of a one-bit mask is
safe: storing `v` in `ISER[k]` sets the enable bits of bank `k` that are 1 in
`v`, storing `v` in `ICER[k]` clears them, and the bits that are 0 in `v` keep
their value. Reading either word returns the enable bits of the bank. The
argument `e` gives the enable word of every bank; `Machine.mem` itself keeps
the word last stored at each address. -/
def nvicEnableStep (e : Nat → Nat) : Event → Nat → Nat
  | Event.write (Reg.ISER k) v => fun j => if j = k then u32 (e j ||| v) else e j
  | Event.write (Reg.ICER k) v => fun j => if j = k then u32 (e j &&& not32 v) else e j
  | _ => e

/-- The content of the `ISER` array after the device has taken the accesses
of `t` in order, starting from the content `e`. -/
def nvicEnableAfter (e : Nat → Nat) (t : List Event) : Nat → Nat :=
  t.foldl nvicEnableStep e

/-- A machine whose only nonzero register is `r`, holding `w`. -/
def Machine.holding (r : Reg) (w : Nat) : Machine :=
  { mem := fun x => if x = r then w else 0, trace := [] }

open clock_names_t clock_gate_t peripheral_clock_source_t

/-! ## Machine words: bit-level facts -/

theorem u32_lt (x : Nat) : u32 x < 2 ^ 32 := Nat.mod_lt _ (by norm_num)

theorem u32_of_lt {x : Nat} (h : x < 2 ^ 32) : u32 x = x := Nat.mod_eq_of_lt h

theorem testBit_u32 (x i : Nat) : (u32 x).testBit i = (decide (i < 32) && x.testBit i) := by
  unfold u32
  exact Nat.testBit_mod_two_pow x 32 i

theorem testBit_high {w i : Nat} (hw : w < 2 ^ 32) (hi : 32 ≤ i) : w.testBit i = false :=
  Nat.testBit_lt_two_pow (lt_of_lt_of_le hw (Nat.pow_le_pow_right (by norm_num) hi))

theorem testBit_not32 (x i : Nat) :
    (not32 x).testBit i = (decide (i < 32) && !(u32 x).testBit i) := by
  unfold not32
  exact Nat.testBit_two_pow_sub_succ (u32_lt x) i

theorem gate_bit_testBit (i : Nat) :
    (shl32 ENABLEMENT PCC_CGC_SHIFT).testBit i = decide (i = 30) := by
  have h : shl32 ENABLEMENT PCC_CGC_SHIFT = 2 ^ 30 := by decide
  rw [h, Nat.testBit_two_pow]
  by_cases h1 : i = 30 <;> simp [h1, eq_comm]

theorem gate_mask_testBit (i : Nat) :
    (not32 (shl32 ENABLEMENT PCC_CGC_SHIFT)).testBit i = (decide (i < 32) && !decide (i = 30)) := by
  rw [testBit_not32, testBit_u32, gate_bit_testBit]
  by_cases h1 : i < 32 <;> simp [h1]

theorem seven_testBit (j : Nat) : (7 : Nat).testBit j = decide (j < 3) :=
  Nat.testBit_two_pow_sub_one 3 j

theorem pcsField_testBit (w j : Nat) :
    (pcsField w).testBit j = (decide (j < 3) && w.testBit (24 + j)) := by
  simp [pcsField, seven_testBit, Bool.and_comm]

theorem pcsField_congr {x y : Nat}
    (h : ∀ i, 24 ≤ i → i < 27 → x.testBit i = y.testBit i) : pcsField x = pcsField y := by
  apply Nat.eq_of_testBit_eq
  intro j
  rw [pcsField_testBit, pcsField_testBit]
  by_cases hj : j < 3
  · rw [h (24 + j) (by omega) (by omega)]
  · simp [hj]

theorem peripheral_clock_source_val_lt (c : peripheral_clock_source_t) : c.val < 8 := by
  cases c <;> decide

theorem source_shift_testBit (c : peripheral_clock_source_t) (i : Nat) :
    (shl32 c.val PCC_PCS_SHIFT).testBit i
      = (decide (24 ≤ i) && decide (i < 27) && c.val.testBit (i - 24)) := by
  unfold shl32 PCC_PCS_SHIFT
  rw [testBit_u32, Nat.testBit_shiftLeft]
  by_cases h1 : 24 ≤ i
  · by_cases h2 : i < 27
    · have h3 : i < 32 := by omega
      simp [h1, h2, h3]
    · have h4 : c.val.testBit (i - 24) = false :=
        Nat.testBit_lt_two_pow
          (lt_of_lt_of_le (peripheral_clock_source_val_lt c) (by
            calc 8 = 2 ^ 3 := by norm_num
              _ ≤ 2 ^ (i - 24) := Nat.pow_le_pow_right (by norm_num) (by omega)))
      simp [h2, h4]
  · simp [h1]

/-- The source-select field of `c.val << 24` is `c.val`. -/
theorem pcsField_source_shift (c : peripheral_clock_source_t) :
    pcsField (shl32 c.val PCC_PCS_SHIFT) = c.val := by
  cases c <;> decide

/-! ## Register accesses -/

theorem store_mem (r : Reg) (v : Nat) (s : Machine) (x : Reg) :
    (store r v s).mem x = if x = r then u32 v else s.mem x := rfl

theorem store_trace (r : Reg) (v : Nat) (s : Machine) :
    (store r v s).trace = s.trace ++ [Event.write r (u32 v)] := rfl

theorem and_assign_mem (r : Reg) (m : Nat) (s : Machine) (x : Reg) :
    (and_assign r m s).mem x = if x = r then u32 (s.mem r &&& m) else s.mem x := rfl

theorem and_assign_trace (r : Reg) (m : Nat) (s : Machine) :
    (and_assign r m s).trace
      = s.trace ++ [Event.read r (s.mem r), Event.write r (u32 (s.mem r &&& m))] := by
  simp [and_assign, load, store]

theorem or_assign_mem (r : Reg) (m : Nat) (s : Machine) (x : Reg) :
    (or_assign r m s).mem x = if x = r then u32 (s.mem r ||| m) else s.mem x := rfl

theorem or_assign_trace (r : Reg) (m : Nat) (s : Machine) :
    (or_assign r m s).trace
      = s.trace ++ [Event.read r (s.mem r), Event.write r (u32 (s.mem r ||| m))] := by
  simp [or_assign, load, store]

theorem since_of_trace_eq {t s : Machine} {es : List Event} (h : t.trace = s.trace ++ es) :
    t.since s = es := by
  simp [Machine.since, h]

theorem writesTo_append (r : Reg) (xs ys : List Event) :
    writesTo r (xs ++ ys) = writesTo r xs ++ writesTo r ys := by
  induction xs with
  | nil => rfl
  | cons e es ih =>
    cases e with
    | read r1 v => simpa [writesTo] using ih
    | write r1 v =>
      by_cases h : r1 = r
      · simp [writesTo, h, ih]
      · simp [writesTo, h, ih]

theorem writtenRegs_append (xs ys : List Event) :
    writtenRegs (xs ++ ys) = writtenRegs xs ++ writtenRegs ys := by
  induction xs with
  | nil => rfl
  | cons e es ih =>
    cases e with
    | read r1 v => simpa [writtenRegs] using ih
    | write r1 v => simp [writtenRegs, ih]

/-! ## Clock_SetPccConfig: the three paths -/

/-- Word left by step 1 (gate bit cleared). -/
theorem pcc_step1_bits (w i : Nat) :
    (u32 (w &&& not32 (shl32 ENABLEMENT PCC_CGC_SHIFT))).testBit i
      = (decide (i < 32) && !decide (i = 30) && w.testBit i) := by
  rw [testBit_u32, Nat.testBit_and, gate_mask_testBit]
  by_cases h1 : i < 32 <;> by_cases h2 : i = 30 <;> simp [h1, h2]

/-- Word left by step 2.2 (gate bit set). -/
theorem pcc_step3_bits (w i : Nat) :
    (u32 (w ||| shl32 ENABLEMENT PCC_CGC_SHIFT)).testBit i
      = (decide (i < 32) && (w.testBit i || decide (i = 30))) := by
  rw [testBit_u32, Nat.testBit_or, gate_bit_testBit]

/-- Word left by step 2.1 (source value merged in). -/
theorem pcc_step2_bits (c : peripheral_clock_source_t) (w i : Nat) :
    (u32 (w ||| shl32 c.val PCC_PCS_SHIFT)).testBit i
      = (decide (i < 32) &&
          (w.testBit i || (decide (24 ≤ i) && decide (i < 27) && c.val.testBit (i - 24)))) := by
  rw [testBit_u32, Nat.testBit_or, source_shift_testBit]

theorem pcc_disabled_mem (n : clock_names_t) (c : peripheral_clock_source_t) (s : Machine)
    (x : Reg) :
    (Clock_SetPccConfig ⟨n, CLK_GATE_DISABLE, c⟩ s).mem x
      = if x = Reg.PCCn n.val then
          u32 (s.mem (Reg.PCCn n.val) &&& not32 (shl32 ENABLEMENT PCC_CGC_SHIFT))
        else s.mem x := by
  simp [Clock_SetPccConfig, clock_gate_t.val, and_assign_mem]

theorem pcc_disabled_trace (n : clock_names_t) (c : peripheral_clock_source_t) (s : Machine) :
    (Clock_SetPccConfig ⟨n, CLK_GATE_DISABLE, c⟩ s).trace
      = s.trace ++
        [Event.read (Reg.PCCn n.val) (s.mem (Reg.PCCn n.val)),
         Event.write (Reg.PCCn n.val)
           (u32 (s.mem (Reg.PCCn n.val) &&& not32 (shl32 ENABLEMENT PCC_CGC_SHIFT)))] := by
  simp [Clock_SetPccConfig, clock_gate_t.val, and_assign_trace]

theorem pcc_enabled_off_mem (n : clock_names_t) (s : Machine) :
    (Clock_SetPccConfig ⟨n, CLK_GATE_ENABLE, CLK_SRC_OFF⟩ s).mem (Reg.PCCn n.val)
      = u32 (u32 (s.mem (Reg.PCCn n.val) &&& not32 (shl32 ENABLEMENT PCC_CGC_SHIFT))
          ||| shl32 ENABLEMENT PCC_CGC_SHIFT) := by
  simp [Clock_SetPccConfig, clock_gate_t.val, peripheral_clock_source_t.val, and_assign_mem,
    or_assign_mem]

theorem pcc_enabled_off_trace (n : clock_names_t) (s : Machine) :
    (Clock_SetPccConfig ⟨n, CLK_GATE_ENABLE, CLK_SRC_OFF⟩ s).trace
      = s.trace ++
        [Event.read (Reg.PCCn n.val) (s.mem (Reg.PCCn n.val)),
         Event.write (Reg.PCCn n.val)
           (u32 (s.mem (Reg.PCCn n.val) &&& not32 (shl32 ENABLEMENT PCC_CGC_SHIFT))),
         Event.read (Reg.PCCn n.val)
           (u32 (s.mem (Reg.PCCn n.val) &&& not32 (shl32 ENABLEMENT PCC_CGC_SHIFT))),
         Event.write (Reg.PCCn n.val)
           (u32 (u32 (s.mem (Reg.PCCn n.val) &&& not32 (shl32 ENABLEMENT PCC_CGC_SHIFT))
             ||| shl32 ENABLEMENT PCC_CGC_SHIFT))] := by
  simp [Clock_SetPccConfig, clock_gate_t.val, peripheral_clock_source_t.val, and_assign_mem,
    and_assign_trace, or_assign_trace]

theorem pcc_enabled_src_trace (n : clock_names_t) (c : peripheral_clock_source_t)
    (hc : c ≠ CLK_SRC_OFF) (s : Machine) :
    (Clock_SetPccConfig ⟨n, CLK_GATE_ENABLE, c⟩ s).trace
      = s.trace ++
        [Event.read (Reg.PCCn n.val) (s.mem (Reg.PCCn n.val)),
         Event.write (Reg.PCCn n.val)
           (u32 (s.mem (Reg.PCCn n.val) &&& not32 (shl32 ENABLEMENT PCC_CGC_SHIFT))),
         Event.read (Reg.PCCn n.val)
           (u32 (s.mem (Reg.PCCn n.val) &&& not32 (shl32 ENABLEMENT PCC_CGC_SHIFT))),
         Event.write (Reg.PCCn n.val)
           (u32 (u32 (s.mem (Reg.PCCn n.val) &&& not32 (shl32 ENABLEMENT PCC_CGC_SHIFT))
             ||| shl32 c.val PCC_PCS_SHIFT)),
         Event.read (Reg.PCCn n.val)
           (u32 (u32 (s.mem (Reg.PCCn n.val) &&& not32 (shl32 ENABLEMENT PCC_CGC_SHIFT))
             ||| shl32 c.val PCC_PCS_SHIFT)),
         Event.write (Reg.PCCn n.val)
           (u32 (u32 (u32 (s.mem (Reg.PCCn n.val) &&& not32 (shl32 ENABLEMENT PCC_CGC_SHIFT))
             ||| shl32 c.val PCC_PCS_SHIFT) ||| shl32 ENABLEMENT PCC_CGC_SHIFT))] := by
  have h : c.val ≠ CLK_SRC_OFF.val := by cases c <;> simp_all [peripheral_clock_source_t.val]
  simp [Clock_SetPccConfig, and_assign_mem, and_assign_trace, or_assign_trace, or_assign_mem, h]

/-! ## Claims on Clock_SetPccConfig -/

/-- C1: with the gate requested enabled and a real source, `Clock_SetPccConfig`
merges the requested source into the source-select field instead of replacing
the field. Selecting option 2 and then option 1 for `PORTA_CLK`, starting from
the reset state, leaves the field at 3, which is not the requested value 1. -/
theorem C1_pcc_source_field_merged_not_replaced :
    pcsField ((Clock_SetPccConfig ⟨PORTA_CLK, CLK_GATE_ENABLE, CLK_SRC_OP_2⟩
        Machine.reset).mem (Reg.PCCn 73)) = 2 ∧
    pcsField ((Clock_SetPccConfig ⟨PORTA_CLK, CLK_GATE_ENABLE, CLK_SRC_OP_1⟩
        (Clock_SetPccConfig ⟨PORTA_CLK, CLK_GATE_ENABLE, CLK_SRC_OP_2⟩
          Machine.reset)).mem (Reg.PCCn 73)) = 3 ∧
    CLK_SRC_OP_1.val = 1 ∧
    ((Clock_SetPccConfig ⟨PORTA_CLK, CLK_GATE_ENABLE, CLK_SRC_OP_1⟩
        (Clock_SetPccConfig ⟨PORTA_CLK, CLK_GATE_ENABLE, CLK_SRC_OP_2⟩
          Machine.reset)).mem (Reg.PCCn 73)).testBit 30 = true := by
  decide

/-- C2: with the gate requested disabled, whatever the requested source and the
prior content of the addressed PCC word, after `Clock_SetPccConfig` bit 30 of
that word is 0, every other bit of the word is as before, and every other
register is as before. -/
theorem C2_pcc_gate_disable (cfg : Pcc_ConfigType) (s : Machine)
    (hg : cfg.clkGate = CLK_GATE_DISABLE)
    (hw : s.mem (Reg.PCCn cfg.clockName.val) < 2 ^ 32) :
    ((Clock_SetPccConfig cfg s).mem (Reg.PCCn cfg.clockName.val)).testBit 30 = false ∧
    (∀ i, i ≠ 30 →
      ((Clock_SetPccConfig cfg s).mem (Reg.PCCn cfg.clockName.val)).testBit i
        = (s.mem (Reg.PCCn cfg.clockName.val)).testBit i) ∧
    (∀ r, r ≠ Reg.PCCn cfg.clockName.val → (Clock_SetPccConfig cfg s).mem r = s.mem r) := by
  obtain ⟨n, g, c⟩ := cfg
  simp only at hg hw ⊢
  subst hg
  refine ⟨?_, ?_, ?_⟩
  · rw [pcc_disabled_mem, if_pos rfl, pcc_step1_bits]
    simp
  · intro i hi
    rw [pcc_disabled_mem, if_pos rfl, pcc_step1_bits]
    by_cases h2 : i < 32
    · simp [h2, hi]
    · simp [h2, testBit_high hw (Nat.le_of_not_lt h2)]
  · intro r hr
    rw [pcc_disabled_mem, if_neg hr]

/-- Instance of C2: disabling the gate of `PORTA_CLK` when its PCC word holds
`0x43000000` clears bit 30, keeps bit 24 and leaves the word of `PORTB_CLK`. -/
theorem C2_pcc_gate_disable_witness :
    (0x43000000 : Nat) < 2 ^ 32 ∧
    ((Clock_SetPccConfig ⟨PORTA_CLK, CLK_GATE_DISABLE, CLK_SRC_OP_5⟩
        (Machine.holding (Reg.PCCn 73) 0x43000000)).mem (Reg.PCCn 73)).testBit 30 = false ∧
    ((Clock_SetPccConfig ⟨PORTA_CLK, CLK_GATE_DISABLE, CLK_SRC_OP_5⟩
        (Machine.holding (Reg.PCCn 73) 0x43000000)).mem (Reg.PCCn 73)).testBit 24
      = ((Machine.holding (Reg.PCCn 73) 0x43000000).mem (Reg.PCCn 73)).testBit 24 ∧
    (Clock_SetPccConfig ⟨PORTA_CLK, CLK_GATE_DISABLE, CLK_SRC_OP_5⟩
        (Machine.holding (Reg.PCCn 73) 0x43000000)).mem (Reg.PCCn 74)
      = (Machine.holding (Reg.PCCn 73) 0x43000000).mem (Reg.PCCn 74) :=
  have h := C2_pcc_gate_disable ⟨PORTA_CLK, CLK_GATE_DISABLE, CLK_SRC_OP_5⟩
    (Machine.holding (Reg.PCCn 73) 0x43000000) rfl (by decide)
  ⟨by decide, h.1, h.2.1 24 (by decide), h.2.2 (Reg.PCCn 74) (by decide)⟩

/-- C3: with the gate requested enabled and the source `CLK_SRC_OFF`, whatever
the prior content of the addressed PCC word, after `Clock_SetPccConfig` bits 24
to 26 of that word equal their prior value and bit 30 is 1. -/
theorem C3_pcc_enable_source_off (cfg : Pcc_ConfigType) (s : Machine)
    (hg : cfg.clkGate = CLK_GATE_ENABLE) (hc : cfg.clkSrc = CLK_SRC_OFF) :
    pcsField ((Clock_SetPccConfig cfg s).mem (Reg.PCCn cfg.clockName.val))
      = pcsField (s.mem (Reg.PCCn cfg.clockName.val)) ∧
    ((Clock_SetPccConfig cfg s).mem (Reg.PCCn cfg.clockName.val)).testBit 30 = true := by
  obtain ⟨n, g, c⟩ := cfg
  simp only at hg hc ⊢
  subst hg hc
  rw [pcc_enabled_off_mem]
  refine ⟨?_, ?_⟩
  · apply pcsField_congr
    intro i h1 h2
    rw [pcc_step3_bits, pcc_step1_bits]
    have h3 : i < 32 := by omega
    have h4 : i ≠ 30 := by omega
    simp [h3, h4]
  · rw [pcc_step3_bits]
    simp

/-- Instance of C3: enabling `LPIT0_CLK` with the source off when its PCC word
holds `0x05000000` keeps the source-select field at 5 and sets bit 30. -/
theorem C3_pcc_enable_source_off_witness :
    pcsField ((Clock_SetPccConfig ⟨LPIT0_CLK, CLK_GATE_ENABLE, CLK_SRC_OFF⟩
        (Machine.holding (Reg.PCCn 55) 0x05000000)).mem (Reg.PCCn 55)) = 5 ∧
    ((Clock_SetPccConfig ⟨LPIT0_CLK, CLK_GATE_ENABLE, CLK_SRC_OFF⟩
        (Machine.holding (Reg.PCCn 55) 0x05000000)).mem (Reg.PCCn 55)).testBit 30 = true :=
  have h := C3_pcc_enable_source_off ⟨LPIT0_CLK, CLK_GATE_ENABLE, CLK_SRC_OFF⟩
    (Machine.holding (Reg.PCCn 55) 0x05000000) rfl rfl
  ⟨h.1.trans (by decide), h.2⟩

/-- C4: `Clock_SetPccConfig` never changes the source-select field while the
gate is open. In the sequence of values it writes to the addressed PCC word,
every write whose bits 24 to 26 differ from the value stored just before it
(the prior content, for the first write) finds bit 30 of that stored value
equal to 0 and has bit 30 equal to 0 itself; this holds for every prior content
and every configuration. The function performs one, two or three such
writes. -/
theorem C4_pcc_source_changes_only_while_gated (cfg : Pcc_ConfigType) (s : Machine) :
    sourceChangesGated (s.mem (Reg.PCCn cfg.clockName.val))
      (writesTo (Reg.PCCn cfg.clockName.val) ((Clock_SetPccConfig cfg s).since s)) ∧
    (writesTo (Reg.PCCn cfg.clockName.val) ((Clock_SetPccConfig cfg s).since s)).length
      = (if cfg.clkGate = CLK_GATE_DISABLE then 1
         else if cfg.clkSrc = CLK_SRC_OFF then 2 else 3) := by
  obtain ⟨n, g, c⟩ := cfg
  simp only
  have field1 : ∀ w, pcsField (u32 (w &&& not32 (shl32 ENABLEMENT PCC_CGC_SHIFT)))
      = pcsField w := by
    intro w
    apply pcsField_congr
    intro i h1 h2
    rw [pcc_step1_bits]
    have h3 : i < 32 := by omega
    have h4 : i ≠ 30 := by omega
    simp [h3, h4]
  have field3 : ∀ w, pcsField (u32 (w ||| shl32 ENABLEMENT PCC_CGC_SHIFT)) = pcsField w := by
    intro w
    apply pcsField_congr
    intro i h1 h2
    rw [pcc_step3_bits]
    have h3 : i < 32 := by omega
    have h4 : i ≠ 30 := by omega
    simp [h3, h4]
  have gate1 : ∀ w, (u32 (w &&& not32 (shl32 ENABLEMENT PCC_CGC_SHIFT))).testBit 30
      = false := by
    intro w
    rw [pcc_step1_bits]
    simp
  have gate2 : ∀ w, (u32 (u32 (w &&& not32 (shl32 ENABLEMENT PCC_CGC_SHIFT))
      ||| shl32 c.val PCC_PCS_SHIFT)).testBit 30 = false := by
    intro w
    rw [pcc_step2_bits, gate1]
    simp
  cases g with
  | CLK_GATE_DISABLE =>
    rw [since_of_trace_eq (pcc_disabled_trace n c s)]
    simp [writesTo, sourceChangesGated, field1]
  | CLK_GATE_ENABLE =>
    by_cases hc : c = CLK_SRC_OFF
    · subst hc
      rw [since_of_trace_eq (pcc_enabled_off_trace n s)]
      simp [writesTo, sourceChangesGated, field1, field3]
    · rw [since_of_trace_eq (pcc_enabled_src_trace n c hc s)]
      simp [writesTo, sourceChangesGated, field1, field3, gate1, gate2, hc]

/-! ## Nvic.c: written values -/

/-- The word `1 << n` of the NVIC functions, converted to `unsigned int`. -/
theorem one_shl_int (n : Nat) (h : n < 32) : int_to_u32 (shl_int 1 n) = 2 ^ n := by
  interval_cases n <;> rfl

theorem u32_two_pow (n : Nat) (h : n < 32) : u32 (2 ^ n) = 2 ^ n :=
  u32_of_lt (Nat.pow_lt_pow_right (by norm_num) h)

theorem nvic_mask (id : Nat) : u32 (int_to_u32 (shl_int 1 (id % 32))) = 2 ^ (id % 32) := by
  have h : id % 32 < 32 := Nat.mod_lt _ (by norm_num)
  rw [one_shl_int _ h, u32_two_pow _ h]

theorem u32_u32 (x : Nat) : u32 (u32 x) = u32 x := u32_of_lt (u32_lt x)

theorem priority_word (p sh : Nat) (hp : p < 256) :
    u32 (shl32 ((p % 256) &&& 0xFF) sh) = ((p &&& 0xFF) <<< sh) % 2 ^ 32 := by
  rw [Nat.mod_eq_of_lt hp]
  unfold shl32
  rw [u32_u32]
  rfl

/-! ## Claims on the NVIC driver -/

/-- C5: for every interrupt number (in particular 0 to 122) the single access
of `NVIC_EnableInterrupt`, `NVIC_DisableInterrupt` and `NVIC_ClearPendingFlag`
is a write to word `id / 32` of `ISER`, `ICER` and `ICPR` respectively, and the
value written is the 32-bit word `2 ^ (id % 32)`, which has exactly bit
`id % 32` set (bit 31 included). -/
theorem C5_nvic_bank_and_bit (id : Nat) (s : Machine) :
    (NVIC_EnableInterrupt id s).trace
      = s.trace ++ [Event.write (Reg.ISER (id / 32)) (2 ^ (id % 32))] ∧
    (NVIC_DisableInterrupt id s).trace
      = s.trace ++ [Event.write (Reg.ICER (id / 32)) (2 ^ (id % 32))] ∧
    (NVIC_ClearPendingFlag id s).trace
      = s.trace ++ [Event.write (Reg.ICPR (id / 32)) (2 ^ (id % 32))] ∧
    2 ^ (id % 32) < 2 ^ 32 ∧
    (∀ i, (2 ^ (id % 32)).testBit i = decide (i = id % 32)) := by
  have h : id % 32 < 32 := Nat.mod_lt _ (by norm_num)
  refine ⟨?_, ?_, ?_, Nat.pow_lt_pow_right (by norm_num) h, ?_⟩
  · rw [NVIC_EnableInterrupt, store_trace, nvic_mask]
  · rw [NVIC_DisableInterrupt, store_trace, nvic_mask]
  · rw [NVIC_ClearPendingFlag, store_trace, nvic_mask]
  · intro i
    rw [Nat.testBit_two_pow]
    by_cases h1 : i = id % 32 <;> simp [h1, eq_comm]

/-- Instance of C5: interrupt 33 writes the value 2 (bit 1) to word 1, and
interrupt 31 writes `2 ^ 31` to word 0. -/
theorem C5_nvic_bank_and_bit_witness :
    (NVIC_EnableInterrupt 33 Machine.reset).trace = [Event.write (Reg.ISER 1) 2] ∧
    (NVIC_DisableInterrupt 33 Machine.reset).trace = [Event.write (Reg.ICER 1) 2] ∧
    (NVIC_ClearPendingFlag 33 Machine.reset).trace = [Event.write (Reg.ICPR 1) 2] ∧
    (NVIC_EnableInterrupt 31 Machine.reset).trace
      = [Event.write (Reg.ISER 0) 0x80000000] :=
  ⟨(C5_nvic_bank_and_bit 33 Machine.reset).1,
   (C5_nvic_bank_and_bit 33 Machine.reset).2.1,
   (C5_nvic_bank_and_bit 33 Machine.reset).2.2.1,
   (C5_nvic_bank_and_bit 31 Machine.reset).1⟩

/-- The accesses of `NVIC_EnableInterrupt`: one write of the mask. -/
theorem nvic_enable_since (id : Nat) (s : Machine) :
    (NVIC_EnableInterrupt id s).since s
      = [Event.write (Reg.ISER (id / 32)) (2 ^ (id % 32))] := by
  have h : (NVIC_EnableInterrupt id s).trace
      = s.trace ++ [Event.write (Reg.ISER (id / 32)) (2 ^ (id % 32))] := by
    rw [NVIC_EnableInterrupt, store_trace, nvic_mask]
  exact since_of_trace_eq h

/-- The `ISER` array after the device has taken one write of `v` to word
`k`. -/
theorem nvic_enable_after_write (e : Nat → Nat) (k v j : Nat) :
    nvicEnableAfter e [Event.write (Reg.ISER k) v] j
      = if j = k then u32 (e j ||| v) else e j := rfl

/-- C6: for every prior content of the `ISER` array, its words being 32 bits
wide, and every interrupt number (in particular 0 to 122), the only access of
`NVIC_EnableInterrupt` is the write of the one-bit mask to `ISER[id / 32]`, and
once the device has taken it every `ISER` word other than word `id / 32` is
unchanged, every bit of word `id / 32` other than bit `id % 32` is unchanged,
and bit `id % 32` is 1: the word is its prior content OR `2 ^ (id % 32)`. -/
theorem C6_nvic_enable_frame (id : Nat) (s : Machine)
    (hw : s.mem (Reg.ISER (id / 32)) < 2 ^ 32) :
    (NVIC_EnableInterrupt id s).since s
      = [Event.write (Reg.ISER (id / 32)) (2 ^ (id % 32))] ∧
    (∀ k, k ≠ id / 32 →
      nvicEnableAfter (fun j => s.mem (Reg.ISER j)) ((NVIC_EnableInterrupt id s).since s) k
        = s.mem (Reg.ISER k)) ∧
    (∀ i, i ≠ id % 32 →
      (nvicEnableAfter (fun j => s.mem (Reg.ISER j))
          ((NVIC_EnableInterrupt id s).since s) (id / 32)).testBit i
        = (s.mem (Reg.ISER (id / 32))).testBit i) ∧
    (nvicEnableAfter (fun j => s.mem (Reg.ISER j))
        ((NVIC_EnableInterrupt id s).since s) (id / 32)).testBit (id % 32) = true ∧
    nvicEnableAfter (fun j => s.mem (Reg.ISER j))
        ((NVIC_EnableInterrupt id s).since s) (id / 32)
      = s.mem (Reg.ISER (id / 32)) ||| 2 ^ (id % 32) := by
  have hbit : id % 32 < 32 := Nat.mod_lt _ (by norm_num)
  refine ⟨nvic_enable_since id s, ?_, ?_, ?_, ?_⟩
  · intro k hk
    rw [nvic_enable_since, nvic_enable_after_write, if_neg hk]
  · intro i hi
    rw [nvic_enable_since, nvic_enable_after_write, if_pos rfl, testBit_u32, Nat.testBit_or,
      Nat.testBit_two_pow]
    have hne : ¬ id % 32 = i := fun h => hi h.symm
    by_cases h32 : i < 32
    · simp [h32, hne]
    · simp [h32, hne, testBit_high hw (Nat.le_of_not_lt h32)]
  · rw [nvic_enable_since, nvic_enable_after_write, if_pos rfl, testBit_u32, Nat.testBit_or,
      Nat.testBit_two_pow]
    simp [hbit]
  · rw [nvic_enable_since, nvic_enable_after_write, if_pos rfl]
    exact u32_of_lt (Nat.or_lt_two_pow hw (Nat.pow_lt_pow_right (by norm_num) hbit))

/-- Instance of C6: with `ISER[0] = 0xA5` and `ISER[1] = 0xF4`, enabling
interrupt 33 leaves bank 0 at `0xA5` and bank 1 at `0xF6`: bit 1 set, the
other bits of bank 1 as they were. -/
theorem C6_nvic_enable_frame_witness :
    nvicEnableAfter
        (fun j => (Machine.mk (fun r => if r = Reg.ISER 0 then 0xA5
            else if r = Reg.ISER 1 then 0xF4 else 0) []).mem (Reg.ISER j))
        ((NVIC_EnableInterrupt 33 (Machine.mk (fun r => if r = Reg.ISER 0 then 0xA5
            else if r = Reg.ISER 1 then 0xF4 else 0) [])).since
          (Machine.mk (fun r => if r = Reg.ISER 0 then 0xA5
            else if r = Reg.ISER 1 then 0xF4 else 0) [])) 0 = 0xA5 ∧
    (nvicEnableAfter
        (fun j => (Machine.mk (fun r => if r = Reg.ISER 0 then 0xA5
            else if r = Reg.ISER 1 then 0xF4 else 0) []).mem (Reg.ISER j))
        ((NVIC_EnableInterrupt 33 (Machine.mk (fun r => if r = Reg.ISER 0 then 0xA5
            else if r = Reg.ISER 1 then 0xF4 else 0) [])).since
          (Machine.mk (fun r => if r = Reg.ISER 0 then 0xA5
            else if r = Reg.ISER 1 then 0xF4 else 0) [])) 1).testBit 2 = true ∧
    nvicEnableAfter
        (fun j => (Machine.mk (fun r => if r = Reg.ISER 0 then 0xA5
            else if r = Reg.ISER 1 then 0xF4 else 0) []).mem (Reg.ISER j))
        ((NVIC_EnableInterrupt 33 (Machine.mk (fun r => if r = Reg.ISER 0 then 0xA5
            else if r = Reg.ISER 1 then 0xF4 else 0) [])).since
          (Machine.mk (fun r => if r = Reg.ISER 0 then 0xA5
            else if r = Reg.ISER 1 then 0xF4 else 0) [])) 1 = 0xF6 :=
  have h := C6_nvic_enable_frame 33
    (Machine.mk (fun r => if r = Reg.ISER 0 then 0xA5
      else if r = Reg.ISER 1 then 0xF4 else 0) []) (by decide)
  ⟨(h.2.1 0 (by decide)).trans (by decide), (h.2.2.1 2 (by decide)).trans (by decide),
    by decide⟩

/-- C7: for every interrupt number from 0 to 122 and every 8-bit priority, the
single access of `NVIC_SetPriority` is a write to `IPR[id / 4]` of the value
`(priority AND 0xFF) << ((id % 4) * 8 + 4)` reduced modulo `2 ^ 32`. -/
theorem C7_nvic_set_priority_placement (id : Nat) (priority : Nat) (s : Machine)
    (hid : id ≤ 122) (hp : priority < 256) :
    (NVIC_SetPriority id priority s).trace
      = s.trace ++ [Event.write (Reg.IPR (id / 4))
          (((priority &&& 0xFF) <<< ((id % 4) * 8 + 4)) % 2 ^ 32)] ∧
    id / 4 < 60 := by
  refine ⟨?_, by omega⟩
  rw [NVIC_SetPriority, store_trace, priority_word _ _ hp]

/-- Instance of C7: interrupt 5 with priority 3 writes `0x3000` to `IPR[1]`. -/
theorem C7_nvic_set_priority_placement_witness :
    (NVIC_SetPriority 5 3 Machine.reset).trace = [Event.write (Reg.IPR 1) 0x3000] :=
  (C7_nvic_set_priority_placement 5 3 Machine.reset (by decide) (by decide)).1

/-- C9: for every interrupt number and priority, the accesses of
`NVIC_Settings` are exactly four writes, in this order: the mask to
`ICER[id / 32]`, the mask to `ICPR[id / 32]`, the priority word to
`IPR[id / 4]`, the mask to `ISER[id / 32]`. -/
theorem C9_nvic_settings_order (id : Nat) (priority : Nat) (s : Machine) :
    (NVIC_Settings id priority s).trace
      = s.trace ++
        [Event.write (Reg.ICER (id / 32)) (2 ^ (id % 32)),
         Event.write (Reg.ICPR (id / 32)) (2 ^ (id % 32)),
         Event.write (Reg.IPR (id / 4))
           (((priority % 256 &&& 0xFF) <<< ((id % 4) * 8 + 4)) % 2 ^ 32),
         Event.write (Reg.ISER (id / 32)) (2 ^ (id % 32))] := by
  have hw : u32 (shl32 ((priority % 256) &&& 0xFF) ((id % 4) * 8 + 4))
      = ((priority % 256 &&& 0xFF) <<< ((id % 4) * 8 + 4)) % 2 ^ 32 := by
    unfold shl32
    rw [u32_u32]
    rfl
  simp only [NVIC_Settings, NVIC_EnableInterrupt, NVIC_DisableInterrupt,
    NVIC_ClearPendingFlag, NVIC_SetPriority, store_trace, nvic_mask, hw,
    List.append_assoc, List.cons_append, List.nil_append]

/-- Instance of C9: configuring interrupt 33 with priority 3 from the reset
state performs the four writes disable, clear-pending, set-priority, enable. -/
theorem C9_nvic_settings_order_witness :
    (NVIC_Settings 33 3 Machine.reset).trace
      = [Event.write (Reg.ICER 1) 2, Event.write (Reg.ICPR 1) 2,
         Event.write (Reg.IPR 8) 0x3000, Event.write (Reg.ISER 1) 2] :=
  C9_nvic_settings_order 33 3 Machine.reset

/-- A priority of at most 15 placed in one byte lane of an IPR word leaves the
priority bits of every other lane at zero. -/
theorem other_lane_zero :
    ∀ la, la < 4 → ∀ lb, lb < 4 → ∀ q, q < 16 → la ≠ lb →
      (u32 (shl32 ((q % 256) &&& 0xFF) (lb * 8 + 4)) >>> (la * 8 + 4)) &&& 0xF = 0 := by
  decide

/-- C8: the word `NVIC_SetPriority` stores in `IPR[id / 4]` does not depend on
the prior content of that word; hence for distinct interrupts `a`, `b` sharing
a priority word, every priority `p` and every priority `q` of at most 15, after
`NVIC_SetPriority a p` followed by `NVIC_SetPriority b q` the 4-bit priority
field of `a` reads 0, which differs from `p` whenever `p` is not 0. -/
theorem C8_nvic_set_priority_clobbers (a b p q : Nat) (s : Machine)
    (hab : a ≠ b) (hword : a / 4 = b / 4) (hq : q ≤ 15) :
    (∀ s2 : Machine, (NVIC_SetPriority b q s2).mem (Reg.IPR (b / 4))
      = (NVIC_SetPriority b q s).mem (Reg.IPR (b / 4))) ∧
    ((NVIC_SetPriority b q (NVIC_SetPriority a p s)).mem (Reg.IPR (a / 4))
      >>> ((a % 4) * 8 + 4)) &&& 0xF = 0 ∧
    (p ≠ 0 →
      ((NVIC_SetPriority b q (NVIC_SetPriority a p s)).mem (Reg.IPR (a / 4))
        >>> ((a % 4) * 8 + 4)) &&& 0xF ≠ p) := by
  have hfield : ((NVIC_SetPriority b q (NVIC_SetPriority a p s)).mem (Reg.IPR (a / 4))
      >>> ((a % 4) * 8 + 4)) &&& 0xF = 0 := by
    rw [hword, NVIC_SetPriority, store_mem, if_pos rfl]
    exact other_lane_zero (a % 4) (Nat.mod_lt _ (by norm_num)) (b % 4)
      (Nat.mod_lt _ (by norm_num)) q (by omega) (by omega)
  refine ⟨?_, hfield, ?_⟩
  · intro s2
    simp only [NVIC_SetPriority, store_mem, if_pos]
  · intro hp0
    rw [hfield]
    exact fun h => hp0 h.symm

/-- Instance of C8: interrupts 4 and 5 share `IPR[1]`; after giving interrupt 4
priority 7 and then interrupt 5 priority 3, the priority field of interrupt 4
(bits 4 to 7) reads 0 and the word holds `0x3000`. -/
theorem C8_nvic_set_priority_clobbers_witness :
    (4 : Nat) ≠ 5 ∧ 4 / 4 = 5 / 4 ∧
    ((NVIC_SetPriority 5 3 (NVIC_SetPriority 4 7 Machine.reset)).mem (Reg.IPR (4 / 4))
      >>> ((4 % 4) * 8 + 4)) &&& 0xF = 0 ∧
    (NVIC_SetPriority 4 7 Machine.reset).mem (Reg.IPR 1) = 0x70 ∧
    (NVIC_SetPriority 5 3 (NVIC_SetPriority 4 7 Machine.reset)).mem (Reg.IPR 1) = 0x3000 :=
  ⟨by decide, by decide,
   (C8_nvic_set_priority_clobbers 4 5 7 3 Machine.reset (by decide) (by decide)
      (by decide)).2.1,
   by decide, by decide⟩

/-! ## Clock_SetScgRunModeConfig -/

theorem poll_trace (r : Reg) (done : Nat → Bool) (vs : List Nat) (s : Machine) :
    (poll r done vs s).1.trace = s.trace ++ pollReads r done vs := by
  induction vs generalizing s with
  | nil => simp [poll, pollReads]
  | cons v vs ih =>
    by_cases h : done (u32 v) = true
    · simp [poll, pollReads, h]
    · simp [poll, pollReads, h, ih]

theorem writesTo_pollReads (x r : Reg) (done : Nat → Bool) (vs : List Nat) :
    writesTo x (pollReads r done vs) = [] := by
  induction vs with
  | nil => rfl
  | cons v vs ih =>
    by_cases h : done (u32 v) = true
    · simp [pollReads, writesTo, h]
    · simp [pollReads, writesTo, h, ih]

theorem writtenRegs_pollReads (r : Reg) (done : Nat → Bool) (vs : List Nat) :
    writtenRegs (pollReads r done vs) = [] := by
  induction vs with
  | nil => rfl
  | cons v vs ih =>
    by_cases h : done (u32 v) = true
    · simp [pollReads, writtenRegs, h]
    · simp [pollReads, writtenRegs, h, ih]

theorem system_clock_source_val_le (c : system_clock_source_t) : c.val ≤ 7 := by
  cases c <;> decide

theorem core_clock_divide_ratio_val_le (c : core_clock_divide_ratio_t) : c.val ≤ 15 := by
  cases c <;> decide

theorem bus_clock_divide_ratio_val_le (c : bus_clock_divide_ratio_t) : c.val ≤ 15 := by
  cases c <;> decide

theorem slow_clock_divide_ratio_val_le (c : slow_clock_divide_ratio_t) : c.val ≤ 7 := by
  cases c <;> decide

theorem shl32_of_lt {x n : Nat} (h : x * 2 ^ n < 2 ^ 32) : shl32 x n = x <<< n := by
  unfold shl32
  exact u32_of_lt (by rw [Nat.shiftLeft_eq]; exact h)

/-- The composed run-mode word, with no truncation taking place. -/
theorem runModeValue_eq (cfg : Scg_RunMode_ConfigType) :
    runModeValue cfg
      = (cfg.sys_clk_src.val <<< 24) ||| (cfg.core_div.val <<< 16)
          ||| (cfg.bus_div.val <<< 4) ||| cfg.slow_div.val := by
  have h1 := system_clock_source_val_le cfg.sys_clk_src
  have h2 := core_clock_divide_ratio_val_le cfg.core_div
  have h3 := bus_clock_divide_ratio_val_le cfg.bus_div
  have h4 := slow_clock_divide_ratio_val_le cfg.slow_div
  unfold runModeValue SCG_RCCR_SCS_SHIFT SCG_RCCR_DIVCORE_SHIFT SCG_RCCR_DIVBUS_SHIFT
    SCG_RCCR_DIVSLOW_SHIFT
  rw [shl32_of_lt (x := cfg.sys_clk_src.val) (n := 24) (by omega),
    shl32_of_lt (x := cfg.core_div.val) (n := 16) (by omega),
    shl32_of_lt (x := cfg.bus_div.val) (n := 4) (by omega),
    shl32_of_lt (x := cfg.slow_div.val) (n := 0) (by omega)]
  simp

theorem runModeValue_lt (cfg : Scg_RunMode_ConfigType) : runModeValue cfg < 2 ^ 32 := by
  have h1 := system_clock_source_val_le cfg.sys_clk_src
  have h2 := core_clock_divide_ratio_val_le cfg.core_div
  have h3 := bus_clock_divide_ratio_val_le cfg.bus_div
  have h4 := slow_clock_divide_ratio_val_le cfg.slow_div
  rw [runModeValue_eq]
  refine Nat.or_lt_two_pow (Nat.or_lt_two_pow (Nat.or_lt_two_pow ?_ ?_) ?_) ?_
  · rw [Nat.shiftLeft_eq]; omega
  · rw [Nat.shiftLeft_eq]; omega
  · rw [Nat.shiftLeft_eq]; omega
  · omega

/-- C10: for every configuration, every prior machine state and every sequence
of read-back values, `Clock_SetScgRunModeConfig` writes `RCCR` once and no other
register, and the value written is
`(sys_clk_src << 24) | (core_div << 16) | (bus_div << 4) | slow_div`; the
members `div1`, `div2` and the prior content of `RCCR` play no part. -/
theorem C10_run_mode_composition (cfg : Scg_RunMode_ConfigType) (readBacks : List Nat)
    (s : Machine) :
    writesTo Reg.SCG_RCCR ((Clock_SetScgRunModeConfig cfg readBacks s).1.since s)
      = [(cfg.sys_clk_src.val <<< 24) ||| (cfg.core_div.val <<< 16)
          ||| (cfg.bus_div.val <<< 4) ||| cfg.slow_div.val] ∧
    writtenRegs ((Clock_SetScgRunModeConfig cfg readBacks s).1.since s) = [Reg.SCG_RCCR] := by
  have ht : (Clock_SetScgRunModeConfig cfg readBacks s).1.trace
      = s.trace ++ (Event.write Reg.SCG_RCCR (runModeValue cfg)
          :: pollReads Reg.SCG_RCCR (fun v => v == runModeValue cfg) readBacks) := by
    simp [Clock_SetScgRunModeConfig, poll_trace, store_trace, u32_of_lt (runModeValue_lt cfg)]
  rw [since_of_trace_eq ht]
  constructor
  · simp [writesTo, writesTo_pollReads, runModeValue_eq]
  · simp [writtenRegs, writtenRegs_pollReads]

/-- Instance of C10: source `SOSC_CLK`, core divide by 2, bus and slow divide
by 1 writes `0x01010000` to `RCCR`, and the function returns at the first
read-back equal to that value. -/
theorem C10_run_mode_composition_witness :
    writesTo Reg.SCG_RCCR
      ((Clock_SetScgRunModeConfig
        ⟨system_clock_source_t.SOSC_CLK, core_clock_divide_ratio_t.CORE_CLK_DIV_BY_2,
          bus_clock_divide_ratio_t.BUS_CLK_DIV_BY_1, slow_clock_divide_ratio_t.SLOW_CLK_DIV_BY_1,
          scg_async_clock_div_t.SCG_CLOCK_DIV_BY_4, scg_async_clock_div_t.SCG_CLOCK_DIV_BY_8⟩
        [0, 0x01010000] (Machine.holding Reg.SCG_RCCR 0x03000001)).1.since
          (Machine.holding Reg.SCG_RCCR 0x03000001)) = [0x01010000] ∧
    (Clock_SetScgRunModeConfig
        ⟨system_clock_source_t.SOSC_CLK, core_clock_divide_ratio_t.CORE_CLK_DIV_BY_2,
          bus_clock_divide_ratio_t.BUS_CLK_DIV_BY_1, slow_clock_divide_ratio_t.SLOW_CLK_DIV_BY_1,
          scg_async_clock_div_t.SCG_CLOCK_DIV_BY_4, scg_async_clock_div_t.SCG_CLOCK_DIV_BY_8⟩
        [0, 0x01010000] (Machine.holding Reg.SCG_RCCR 0x03000001)).2 = true :=
  ⟨(C10_run_mode_composition _ _ _).1, by decide⟩

/-! ## Busy-wait loops -/

theorem poll_mem_other (r x : Reg) (hx : x ≠ r) (done : Nat → Bool) (vs : List Nat)
    (s : Machine) : (poll r done vs s).1.mem x = s.mem x := by
  induction vs generalizing s with
  | nil => rfl
  | cons v vs ih =>
    by_cases h : done (u32 v) = true
    · simp [poll, h, hx]
    · simp [poll, h, ih, hx]

/-- The loop is still spinning when no supplied value passes the exit test. -/
theorem poll_spinning (r : Reg) (done : Nat → Bool) (vs : List Nat) (s : Machine)
    (hvs : ∀ x ∈ vs, done (u32 x) = false) : (poll r done vs s).2 = false := by
  induction vs generalizing s with
  | nil => rfl
  | cons v vs ih =>
    have hv : done (u32 v) = false := hvs v (List.mem_cons_self v vs)
    simp only [poll, hv, Bool.false_eq_true, if_false]
    exact ih _ (fun x hx => hvs x (List.mem_cons_of_mem v hx))

/-- The loop ends at the first supplied value passing the exit test. -/
theorem poll_returns (r : Reg) (done : Nat → Bool) (pre : List Nat) (v : Nat)
    (post : List Nat) (s : Machine)
    (hpre : ∀ x ∈ pre, done (u32 x) = false) (hv : done (u32 v) = true) :
    (poll r done (pre ++ v :: post) s).2 = true := by
  induction pre generalizing s with
  | nil => simp [poll, hv]
  | cons a pre ih =>
    have ha : done (u32 a) = false := hpre a (List.mem_cons_self a pre)
    simp only [List.cons_append, poll, ha, Bool.false_eq_true, if_false]
    exact ih _ (fun x hx => hpre x (List.mem_cons_of_mem a hx))

/-- The reads of the loop are the supplied values up to and including the
first one passing the exit test. -/
theorem pollReads_returns (r : Reg) (done : Nat → Bool) (pre : List Nat) (v : Nat)
    (post : List Nat)
    (hpre : ∀ x ∈ pre, done (u32 x) = false) (hv : done (u32 v) = true) :
    pollReads r done (pre ++ v :: post)
      = (pre ++ [v]).map (fun x => Event.read r (u32 x)) := by
  induction pre with
  | nil => simp [pollReads, hv]
  | cons a pre ih =>
    have ha : done (u32 a) = false := hpre a (List.mem_cons_self a pre)
    simp only [List.cons_append, pollReads, ha, Bool.false_eq_true, if_false, List.map_cons]
    exact congrArg (List.cons _) (ih (fun x hx => hpre x (List.mem_cons_of_mem a hx)))

/-- A proper prefix of the supplied values, ending before the first value
passing the exit test, leaves the loop spinning. -/
theorem poll_prefix_spinning (r : Reg) (done : Nat → Bool) (pre : List Nat) (v : Nat)
    (post : List Nat) (s : Machine) (hpre : ∀ x ∈ pre, done (u32 x) = false)
    (k : Nat) (hk : k ≤ pre.length) :
    (poll r done ((pre ++ v :: post).take k) s).2 = false := by
  rw [List.take_append_of_le_length hk]
  exact poll_spinning r done _ s (fun x hx => hpre x (List.mem_of_mem_take hx))

theorem beq_value_false {x value : Nat} (h : x ≠ value) : (x == value) = false := by
  simpa using h

theorem system_hsrun_clock_source_val_le (c : system_hsrun_clock_source_t) : c.val ≤ 7 := by
  cases c <;> decide

/-- The composed high-speed run-mode word, with no truncation taking place. -/
theorem hsRunModeValue_eq (cfg : Scg_HSRunMode_ConfigType) :
    hsRunModeValue cfg
      = (cfg.sys_clk_src.val <<< 24) ||| (cfg.core_div.val <<< 16)
          ||| (cfg.bus_div.val <<< 4) ||| cfg.slow_div.val := by
  have h1 := system_hsrun_clock_source_val_le cfg.sys_clk_src
  have h2 := core_clock_divide_ratio_val_le cfg.core_div
  have h3 := bus_clock_divide_ratio_val_le cfg.bus_div
  have h4 := slow_clock_divide_ratio_val_le cfg.slow_div
  unfold hsRunModeValue SCG_HCCR_SCS_SHIFT SCG_HCCR_DIVCORE_SHIFT SCG_HCCR_DIVBUS_SHIFT
    SCG_HCCR_DIVSLOW_SHIFT
  rw [shl32_of_lt (x := cfg.sys_clk_src.val) (n := 24) (by omega),
    shl32_of_lt (x := cfg.core_div.val) (n := 16) (by omega),
    shl32_of_lt (x := cfg.bus_div.val) (n := 4) (by omega),
    shl32_of_lt (x := cfg.slow_div.val) (n := 0) (by omega)]
  simp

theorem hsRunModeValue_lt (cfg : Scg_HSRunMode_ConfigType) : hsRunModeValue cfg < 2 ^ 32 := by
  have h1 := system_hsrun_clock_source_val_le cfg.sys_clk_src
  have h2 := core_clock_divide_ratio_val_le cfg.core_div
  have h3 := bus_clock_divide_ratio_val_le cfg.bus_div
  have h4 := slow_clock_divide_ratio_val_le cfg.slow_div
  rw [hsRunModeValue_eq]
  refine Nat.or_lt_two_pow (Nat.or_lt_two_pow (Nat.or_lt_two_pow ?_ ?_) ?_) ?_
  · rw [Nat.shiftLeft_eq]; omega
  · rw [Nat.shiftLeft_eq]; omega
  · rw [Nat.shiftLeft_eq]; omega
  · omega

theorem run_mode_trace (cfg : Scg_RunMode_ConfigType) (readBacks : List Nat) (s : Machine) :
    (Clock_SetScgRunModeConfig cfg readBacks s).1.trace
      = s.trace ++ (Event.write Reg.SCG_RCCR (runModeValue cfg)
          :: pollReads Reg.SCG_RCCR (fun v => v == runModeValue cfg) readBacks) := by
  simp [Clock_SetScgRunModeConfig, poll_trace, store_trace, u32_of_lt (runModeValue_lt cfg)]

theorem hs_run_mode_trace (cfg : Scg_HSRunMode_ConfigType) (readBacks : List Nat)
    (s : Machine) :
    (Clock_SetScgHSRunModeConfig cfg readBacks s).1.trace
      = s.trace ++ (Event.write Reg.SCG_HCCR (hsRunModeValue cfg)
          :: pollReads Reg.SCG_HCCR (fun v => v == hsRunModeValue cfg) readBacks) := by
  simp [Clock_SetScgHSRunModeConfig, poll_trace, store_trace,
    u32_of_lt (hsRunModeValue_lt cfg)]

/-! ## Claims on the run-mode functions -/

/-- C11: let the hardware supply the read-backs of `RCCR` as a sequence whose
first value equal to the written one is `v`, preceded by the values `pre`.
Then `Clock_SetScgRunModeConfig` returns, its accesses are the write followed
by exactly the reads of `pre` and of `v` (so `pre.length + 1` reads, whatever
follows `v`), and it has not returned after any `k ≤ pre.length` of the
read-backs. The same holds for `Clock_SetScgHSRunModeConfig` on `HCCR`. -/
theorem C11_run_mode_confirmation (cfg : Scg_RunMode_ConfigType)
    (hcfg : Scg_HSRunMode_ConfigType) (pre post preH postH : List Nat) (v vH : Nat)
    (s : Machine)
    (hpre : ∀ x ∈ pre, u32 x ≠ runModeValue cfg) (hv : u32 v = runModeValue cfg)
    (hpreH : ∀ x ∈ preH, u32 x ≠ hsRunModeValue hcfg) (hvH : u32 vH = hsRunModeValue hcfg) :
    ((Clock_SetScgRunModeConfig cfg (pre ++ v :: post) s).2 = true ∧
      (Clock_SetScgRunModeConfig cfg (pre ++ v :: post) s).1.since s
        = Event.write Reg.SCG_RCCR (runModeValue cfg)
            :: (pre ++ [v]).map (fun x => Event.read Reg.SCG_RCCR (u32 x)) ∧
      (∀ k, k ≤ pre.length →
        (Clock_SetScgRunModeConfig cfg ((pre ++ v :: post).take k) s).2 = false)) ∧
    ((Clock_SetScgHSRunModeConfig hcfg (preH ++ vH :: postH) s).2 = true ∧
      (Clock_SetScgHSRunModeConfig hcfg (preH ++ vH :: postH) s).1.since s
        = Event.write Reg.SCG_HCCR (hsRunModeValue hcfg)
            :: (preH ++ [vH]).map (fun x => Event.read Reg.SCG_HCCR (u32 x)) ∧
      (∀ k, k ≤ preH.length →
        (Clock_SetScgHSRunModeConfig hcfg ((preH ++ vH :: postH).take k) s).2 = false)) := by
  have d1 : ∀ x ∈ pre, (fun w => w == runModeValue cfg) (u32 x) = false :=
    fun x hx => beq_value_false (hpre x hx)
  have d2 : (fun w => w == runModeValue cfg) (u32 v) = true := by simp [hv]
  have d3 : ∀ x ∈ preH, (fun w => w == hsRunModeValue hcfg) (u32 x) = false :=
    fun x hx => beq_value_false (hpreH x hx)
  have d4 : (fun w => w == hsRunModeValue hcfg) (u32 vH) = true := by simp [hvH]
  refine ⟨⟨?_, ?_, ?_⟩, ⟨?_, ?_, ?_⟩⟩
  · exact poll_returns _ _ pre v post _ d1 d2
  · rw [since_of_trace_eq (run_mode_trace cfg _ s), pollReads_returns _ _ pre v post d1 d2]
  · intro k hk
    exact poll_prefix_spinning _ _ pre v post _ d1 k hk
  · exact poll_returns _ _ preH vH postH _ d3 d4
  · rw [since_of_trace_eq (hs_run_mode_trace hcfg _ s),
      pollReads_returns _ _ preH vH postH d3 d4]
  · intro k hk
    exact poll_prefix_spinning _ _ preH vH postH _ d3 k hk

/-- Instance of C11: for the run-mode word `0x01010000` and the read-backs
`0x03000001, 0, 0x01010000, 5`, the function returns after three reads and has
not returned after two. -/
theorem C11_run_mode_confirmation_witness :
    (Clock_SetScgRunModeConfig
        ⟨system_clock_source_t.SOSC_CLK, core_clock_divide_ratio_t.CORE_CLK_DIV_BY_2,
          bus_clock_divide_ratio_t.BUS_CLK_DIV_BY_1, slow_clock_divide_ratio_t.SLOW_CLK_DIV_BY_1,
          scg_async_clock_div_t.SCG_CLOCK_DIV_BY_1, scg_async_clock_div_t.SCG_CLOCK_DIV_BY_1⟩
        ([0x03000001, 0] ++ 0x01010000 :: [5]) Machine.reset).2 = true ∧
    (Clock_SetScgRunModeConfig
        ⟨system_clock_source_t.SOSC_CLK, core_clock_divide_ratio_t.CORE_CLK_DIV_BY_2,
          bus_clock_divide_ratio_t.BUS_CLK_DIV_BY_1, slow_clock_divide_ratio_t.SLOW_CLK_DIV_BY_1,
          scg_async_clock_div_t.SCG_CLOCK_DIV_BY_1, scg_async_clock_div_t.SCG_CLOCK_DIV_BY_1⟩
        ([0x03000001, 0] ++ 0x01010000 :: [5]) Machine.reset).1.trace
      = [Event.write Reg.SCG_RCCR 0x01010000, Event.read Reg.SCG_RCCR 0x03000001,
         Event.read Reg.SCG_RCCR 0, Event.read Reg.SCG_RCCR 0x01010000] ∧
    (Clock_SetScgRunModeConfig
        ⟨system_clock_source_t.SOSC_CLK, core_clock_divide_ratio_t.CORE_CLK_DIV_BY_2,
          bus_clock_divide_ratio_t.BUS_CLK_DIV_BY_1, slow_clock_divide_ratio_t.SLOW_CLK_DIV_BY_1,
          scg_async_clock_div_t.SCG_CLOCK_DIV_BY_1, scg_async_clock_div_t.SCG_CLOCK_DIV_BY_1⟩
        [0x03000001, 0] Machine.reset).2 = false ∧
    (Clock_SetScgHSRunModeConfig
        ⟨system_hsrun_clock_source_t.HSRUN_SPLL_CLK, core_clock_divide_ratio_t.CORE_CLK_DIV_BY_1,
          bus_clock_divide_ratio_t.BUS_CLK_DIV_BY_2, slow_clock_divide_ratio_t.SLOW_CLK_DIV_BY_4,
          scg_async_clock_div_t.SCG_CLOCK_DIV_BY_1, scg_async_clock_div_t.SCG_CLOCK_DIV_BY_1⟩
        ([] ++ 0x06000013 :: []) Machine.reset).2 = true :=
  have h := C11_run_mode_confirmation
    ⟨system_clock_source_t.SOSC_CLK, core_clock_divide_ratio_t.CORE_CLK_DIV_BY_2,
      bus_clock_divide_ratio_t.BUS_CLK_DIV_BY_1, slow_clock_divide_ratio_t.SLOW_CLK_DIV_BY_1,
      scg_async_clock_div_t.SCG_CLOCK_DIV_BY_1, scg_async_clock_div_t.SCG_CLOCK_DIV_BY_1⟩
    ⟨system_hsrun_clock_source_t.HSRUN_SPLL_CLK, core_clock_divide_ratio_t.CORE_CLK_DIV_BY_1,
      bus_clock_divide_ratio_t.BUS_CLK_DIV_BY_2, slow_clock_divide_ratio_t.SLOW_CLK_DIV_BY_4,
      scg_async_clock_div_t.SCG_CLOCK_DIV_BY_1, scg_async_clock_div_t.SCG_CLOCK_DIV_BY_1⟩
    [0x03000001, 0] [5] [] [] 0x01010000 0x06000013 Machine.reset
    (by decide) (by decide) (by decide) (by decide)
  ⟨h.1.1, h.1.2.1, h.1.2.2 2 (by decide), h.2.1⟩

/-- The bits of a field value `x < 2 ^ k` shifted left by `n` lie in positions
`n` to `n + k - 1`. -/
theorem field_bits {x n k i : Nat} (hx : x < 2 ^ k) (h : (shl32 x n).testBit i = true) :
    n ≤ i ∧ i < n + k := by
  unfold shl32 at h
  rw [testBit_u32, Nat.testBit_shiftLeft] at h
  simp only [Bool.and_eq_true, decide_eq_true_eq] at h
  obtain ⟨_, h1, h2⟩ := h
  refine ⟨h1, ?_⟩
  by_contra hlt
  have hk : k ≤ i - n := by omega
  have h3 : x.testBit (i - n) = false :=
    Nat.testBit_lt_two_pow (lt_of_lt_of_le hx (Nat.pow_le_pow_right (by norm_num) hk))
  rw [h3] at h2
  exact Bool.false_ne_true h2

theorem runModeValue_testBit (cfg : Scg_RunMode_ConfigType) (i : Nat) :
    (runModeValue cfg).testBit i
      = ((shl32 cfg.sys_clk_src.val SCG_RCCR_SCS_SHIFT).testBit i
          || (shl32 cfg.core_div.val SCG_RCCR_DIVCORE_SHIFT).testBit i
          || (shl32 cfg.bus_div.val SCG_RCCR_DIVBUS_SHIFT).testBit i
          || (shl32 cfg.slow_div.val SCG_RCCR_DIVSLOW_SHIFT).testBit i) := by
  simp [runModeValue]

theorem hsRunModeValue_testBit (cfg : Scg_HSRunMode_ConfigType) (i : Nat) :
    (hsRunModeValue cfg).testBit i
      = ((shl32 cfg.sys_clk_src.val SCG_HCCR_SCS_SHIFT).testBit i
          || (shl32 cfg.core_div.val SCG_HCCR_DIVCORE_SHIFT).testBit i
          || (shl32 cfg.bus_div.val SCG_HCCR_DIVBUS_SHIFT).testBit i
          || (shl32 cfg.slow_div.val SCG_HCCR_DIVSLOW_SHIFT).testBit i) := by
  simp [hsRunModeValue]

/-- C12 as stated fails: the bus divide ratio `BUS_CLK_DIV_BY_9` (value 8)
contributes bit 7 to the run-mode word, outside bits 4 to 6; with source
`SOSC_CLK` and the other dividers at 1 the word is `0x01000080`. The same
happens in the high-speed run-mode word. -/
theorem C12_bus_divide_reaches_bit_7 :
    bus_clock_divide_ratio_t.BUS_CLK_DIV_BY_9.val = 8 ∧
    (shl32 bus_clock_divide_ratio_t.BUS_CLK_DIV_BY_9.val SCG_RCCR_DIVBUS_SHIFT).testBit 7
      = true ∧
    ¬ (4 ≤ 7 ∧ 7 ≤ 6) ∧
    runModeValue
        ⟨system_clock_source_t.SOSC_CLK, core_clock_divide_ratio_t.CORE_CLK_DIV_BY_1,
          bus_clock_divide_ratio_t.BUS_CLK_DIV_BY_9, slow_clock_divide_ratio_t.SLOW_CLK_DIV_BY_1,
          scg_async_clock_div_t.SCG_CLOCK_DIV_BY_1, scg_async_clock_div_t.SCG_CLOCK_DIV_BY_1⟩
      = 0x01000080 ∧
    (shl32 bus_clock_divide_ratio_t.BUS_CLK_DIV_BY_9.val SCG_HCCR_DIVBUS_SHIFT).testBit 7
      = true ∧
    hsRunModeValue
        ⟨system_hsrun_clock_source_t.HSRUN_FIRC_CLK,
          core_clock_divide_ratio_t.CORE_CLK_DIV_BY_1,
          bus_clock_divide_ratio_t.BUS_CLK_DIV_BY_9, slow_clock_divide_ratio_t.SLOW_CLK_DIV_BY_1,
          scg_async_clock_div_t.SCG_CLOCK_DIV_BY_1, scg_async_clock_div_t.SCG_CLOCK_DIV_BY_1⟩
      = 0x03000080 := by
  decide

/-- C12, amended: for every RUN and HSRUN configuration the composed control
word is the bitwise OR of four contributions, of which the slow divide has
bits only in positions 0 to 3, the bus divide only in positions 4 to 7, the
core divide only in positions 16 to 19 and the source only in positions 24 to
26. -/
theorem C12_run_mode_field_ranges (cfg : Scg_RunMode_ConfigType)
    (hcfg : Scg_HSRunMode_ConfigType) (i : Nat) :
    ((runModeValue cfg).testBit i
        = ((shl32 cfg.sys_clk_src.val SCG_RCCR_SCS_SHIFT).testBit i
            || (shl32 cfg.core_div.val SCG_RCCR_DIVCORE_SHIFT).testBit i
            || (shl32 cfg.bus_div.val SCG_RCCR_DIVBUS_SHIFT).testBit i
            || (shl32 cfg.slow_div.val SCG_RCCR_DIVSLOW_SHIFT).testBit i) ∧
      ((shl32 cfg.slow_div.val SCG_RCCR_DIVSLOW_SHIFT).testBit i = true → i ≤ 3) ∧
      ((shl32 cfg.bus_div.val SCG_RCCR_DIVBUS_SHIFT).testBit i = true → 4 ≤ i ∧ i ≤ 7) ∧
      ((shl32 cfg.core_div.val SCG_RCCR_DIVCORE_SHIFT).testBit i = true → 16 ≤ i ∧ i ≤ 19) ∧
      ((shl32 cfg.sys_clk_src.val SCG_RCCR_SCS_SHIFT).testBit i = true → 24 ≤ i ∧ i ≤ 26)) ∧
    ((hsRunModeValue hcfg).testBit i
        = ((shl32 hcfg.sys_clk_src.val SCG_HCCR_SCS_SHIFT).testBit i
            || (shl32 hcfg.core_div.val SCG_HCCR_DIVCORE_SHIFT).testBit i
            || (shl32 hcfg.bus_div.val SCG_HCCR_DIVBUS_SHIFT).testBit i
            || (shl32 hcfg.slow_div.val SCG_HCCR_DIVSLOW_SHIFT).testBit i) ∧
      ((shl32 hcfg.slow_div.val SCG_HCCR_DIVSLOW_SHIFT).testBit i = true → i ≤ 3) ∧
      ((shl32 hcfg.bus_div.val SCG_HCCR_DIVBUS_SHIFT).testBit i = true → 4 ≤ i ∧ i ≤ 7) ∧
      ((shl32 hcfg.core_div.val SCG_HCCR_DIVCORE_SHIFT).testBit i = true → 16 ≤ i ∧ i ≤ 19) ∧
      ((shl32 hcfg.sys_clk_src.val SCG_HCCR_SCS_SHIFT).testBit i = true
        → 24 ≤ i ∧ i ≤ 26)) := by
  have a1 : cfg.sys_clk_src.val < 2 ^ 3 := by
    have := system_clock_source_val_le cfg.sys_clk_src
    omega
  have a2 : cfg.core_div.val < 2 ^ 4 := by
    have := core_clock_divide_ratio_val_le cfg.core_div
    omega
  have a3 : cfg.bus_div.val < 2 ^ 4 := by
    have := bus_clock_divide_ratio_val_le cfg.bus_div
    omega
  have a4 : cfg.slow_div.val < 2 ^ 3 := by
    have := slow_clock_divide_ratio_val_le cfg.slow_div
    omega
  have b1 : hcfg.sys_clk_src.val < 2 ^ 3 := by
    have := system_hsrun_clock_source_val_le hcfg.sys_clk_src
    omega
  have b2 : hcfg.core_div.val < 2 ^ 4 := by
    have := core_clock_divide_ratio_val_le hcfg.core_div
    omega
  have b3 : hcfg.bus_div.val < 2 ^ 4 := by
    have := bus_clock_divide_ratio_val_le hcfg.bus_div
    omega
  have b4 : hcfg.slow_div.val < 2 ^ 3 := by
    have := slow_clock_divide_ratio_val_le hcfg.slow_div
    omega
  refine ⟨⟨runModeValue_testBit cfg i, ?_, ?_, ?_, ?_⟩,
    ⟨hsRunModeValue_testBit hcfg i, ?_, ?_, ?_, ?_⟩⟩
  · intro h
    have := field_bits a4 h
    simp only [SCG_RCCR_DIVSLOW_SHIFT] at this
    omega
  · intro h
    have := field_bits a3 h
    simp only [SCG_RCCR_DIVBUS_SHIFT] at this
    omega
  · intro h
    have := field_bits a2 h
    simp only [SCG_RCCR_DIVCORE_SHIFT] at this
    omega
  · intro h
    have := field_bits a1 h
    simp only [SCG_RCCR_SCS_SHIFT] at this
    omega
  · intro h
    have := field_bits b4 h
    simp only [SCG_HCCR_DIVSLOW_SHIFT] at this
    omega
  · intro h
    have := field_bits b3 h
    simp only [SCG_HCCR_DIVBUS_SHIFT] at this
    omega
  · intro h
    have := field_bits b2 h
    simp only [SCG_HCCR_DIVCORE_SHIFT] at this
    omega
  · intro h
    have := field_bits b1 h
    simp only [SCG_HCCR_SCS_SHIFT] at this
    omega

/-- C13: for a RUN configuration `r` and an HSRUN configuration `h` whose
source, core, bus and slow members are numerically equal, the value
`Clock_SetScgHSRunModeConfig h` writes to `HCCR` equals the value
`Clock_SetScgRunModeConfig r` writes to `RCCR`, whatever the machine states and
read-backs; the RUN function writes `RCCR` only and the HSRUN function writes
`HCCR` only. -/
theorem C13_run_and_hsrun_same_composition (r : Scg_RunMode_ConfigType)
    (h : Scg_HSRunMode_ConfigType) (readBacks readBacksH : List Nat) (s sH : Machine)
    (hsrc : r.sys_clk_src.val = h.sys_clk_src.val)
    (hcore : r.core_div.val = h.core_div.val)
    (hbus : r.bus_div.val = h.bus_div.val)
    (hslow : r.slow_div.val = h.slow_div.val) :
    writesTo Reg.SCG_HCCR ((Clock_SetScgHSRunModeConfig h readBacksH sH).1.since sH)
      = writesTo Reg.SCG_RCCR ((Clock_SetScgRunModeConfig r readBacks s).1.since s) ∧
    writesTo Reg.SCG_RCCR ((Clock_SetScgRunModeConfig r readBacks s).1.since s)
      = [runModeValue r] ∧
    writtenRegs ((Clock_SetScgRunModeConfig r readBacks s).1.since s) = [Reg.SCG_RCCR] ∧
    writtenRegs ((Clock_SetScgHSRunModeConfig h readBacksH sH).1.since sH)
      = [Reg.SCG_HCCR] := by
  have hval : hsRunModeValue h = runModeValue r := by
    rw [hsRunModeValue_eq, runModeValue_eq, hsrc, hcore, hbus, hslow]
  rw [since_of_trace_eq (run_mode_trace r readBacks s),
    since_of_trace_eq (hs_run_mode_trace h readBacksH sH)]
  simp [writesTo, writtenRegs, writesTo_pollReads, writtenRegs_pollReads, hval]

/-- Instance of C13: the RUN configuration with source `FIRC_CLK` and the HSRUN
configuration with source `HSRUN_FIRC_CLK`, both with core divide by 2, bus
divide by 3 and slow divide by 4, write the same word `0x03010023`. -/
theorem C13_run_and_hsrun_same_composition_witness :
    writesTo Reg.SCG_HCCR
        ((Clock_SetScgHSRunModeConfig
          ⟨system_hsrun_clock_source_t.HSRUN_FIRC_CLK,
            core_clock_divide_ratio_t.CORE_CLK_DIV_BY_2,
            bus_clock_divide_ratio_t.BUS_CLK_DIV_BY_3, slow_clock_divide_ratio_t.SLOW_CLK_DIV_BY_4,
            scg_async_clock_div_t.SCG_CLOCK_DIV_BY_1, scg_async_clock_div_t.SCG_CLOCK_DIV_BY_2⟩
          [7, 0x03010023] Machine.reset).1.since Machine.reset)
      = [0x03010023] ∧
    writesTo Reg.SCG_RCCR
        ((Clock_SetScgRunModeConfig
          ⟨system_clock_source_t.FIRC_CLK, core_clock_divide_ratio_t.CORE_CLK_DIV_BY_2,
            bus_clock_divide_ratio_t.BUS_CLK_DIV_BY_3, slow_clock_divide_ratio_t.SLOW_CLK_DIV_BY_4,
            scg_async_clock_div_t.SCG_CLOCK_DIV_BY_8, scg_async_clock_div_t.SCG_CLOCK_DIV_BY_1⟩
          [0x03010023] Machine.reset).1.since Machine.reset)
      = [0x03010023] :=
  have h := C13_run_and_hsrun_same_composition
    ⟨system_clock_source_t.FIRC_CLK, core_clock_divide_ratio_t.CORE_CLK_DIV_BY_2,
      bus_clock_divide_ratio_t.BUS_CLK_DIV_BY_3, slow_clock_divide_ratio_t.SLOW_CLK_DIV_BY_4,
      scg_async_clock_div_t.SCG_CLOCK_DIV_BY_8, scg_async_clock_div_t.SCG_CLOCK_DIV_BY_1⟩
    ⟨system_hsrun_clock_source_t.HSRUN_FIRC_CLK, core_clock_divide_ratio_t.CORE_CLK_DIV_BY_2,
      bus_clock_divide_ratio_t.BUS_CLK_DIV_BY_3, slow_clock_divide_ratio_t.SLOW_CLK_DIV_BY_4,
      scg_async_clock_div_t.SCG_CLOCK_DIV_BY_1, scg_async_clock_div_t.SCG_CLOCK_DIV_BY_2⟩
    [0x03010023] [7, 0x03010023] Machine.reset Machine.reset rfl rfl rfl rfl
  ⟨h.1.trans h.2.1, h.2.1⟩

/-! ## Divider registers -/

theorem shl32_testBit (x n i : Nat) :
    (shl32 x n).testBit i = (decide (i < 32) && (decide (n ≤ i) && x.testBit (i - n))) := by
  unfold shl32
  rw [testBit_u32, Nat.testBit_shiftLeft]

theorem testBit_of_lt_8 {d j : Nat} (hd : d < 8) (hj : 3 ≤ j) : d.testBit j = false :=
  Nat.testBit_lt_two_pow (lt_of_lt_of_le hd (by
    calc 8 = 2 ^ 3 := by norm_num
      _ ≤ 2 ^ j := Nat.pow_le_pow_right (by norm_num) hj))

theorem scg_async_clock_div_val_lt (d : scg_async_clock_div_t) : d.val < 8 := by
  cases d <;> decide

/-- Bits of the word left in a divider register by `|= d1 << 0` followed by
`|= d2 << 8`. -/
theorem div_word_testBit (w d1 d2 i : Nat) :
    (u32 (u32 (w ||| shl32 d1 0) ||| shl32 d2 8)).testBit i
      = (decide (i < 32) &&
          (w.testBit i || d1.testBit i || (decide (8 ≤ i) && d2.testBit (i - 8)))) := by
  rw [testBit_u32, Nat.testBit_or, testBit_u32, Nat.testBit_or, shl32_testBit, shl32_testBit]
  by_cases h : i < 32 <;> simp [h]

theorem clear_of_mask {w : Nat} (h : w &&& 0x707 = 0) (i : Nat)
    (hi : i ≤ 2 ∨ (8 ≤ i ∧ i ≤ 10)) : w.testBit i = false := by
  have h1 : (w &&& 0x707).testBit i = false := by rw [h]; exact Nat.zero_testBit i
  rw [Nat.testBit_and] at h1
  have h2 : (0x707 : Nat).testBit i = true := by
    have : i = 0 ∨ i = 1 ∨ i = 2 ∨ i = 8 ∨ i = 9 ∨ i = 10 := by omega
    rcases this with h | h | h | h | h | h <;> subst h <;> decide
  rw [h2, Bool.and_true] at h1
  exact h1

/-- Effect of the two divider writes on a 32-bit word whose bits 0 to 2 and 8
to 10 are clear. -/
theorem div_word_fields (w d1 d2 : Nat) (hw : w < 2 ^ 32) (hclear : w &&& 0x707 = 0)
    (hd1 : d1 < 8) (hd2 : d2 < 8) :
    u32 (u32 (w ||| shl32 d1 0) ||| shl32 d2 8) &&& 7 = d1 ∧
    (u32 (u32 (w ||| shl32 d1 0) ||| shl32 d2 8) >>> 8) &&& 7 = d2 ∧
    (∀ i, ¬ i ≤ 2 → ¬ (8 ≤ i ∧ i ≤ 10) →
      (u32 (u32 (w ||| shl32 d1 0) ||| shl32 d2 8)).testBit i = w.testBit i) := by
  refine ⟨?_, ?_, ?_⟩
  · apply Nat.eq_of_testBit_eq
    intro j
    rw [Nat.testBit_and, div_word_testBit, seven_testBit]
    by_cases hj : j < 3
    · have h1 : w.testBit j = false := clear_of_mask hclear j (by omega)
      have h2 : j < 32 := by omega
      have h3 : ¬ 8 ≤ j := by omega
      simp [hj, h1, h2, h3]
    · simp [hj, testBit_of_lt_8 hd1 (Nat.le_of_not_lt hj)]
  · apply Nat.eq_of_testBit_eq
    intro j
    rw [Nat.testBit_and, Nat.testBit_shiftRight, div_word_testBit, seven_testBit]
    by_cases hj : j < 3
    · have h1 : w.testBit (8 + j) = false := clear_of_mask hclear (8 + j) (by omega)
      have h2 : 8 + j < 32 := by omega
      have h3 : d1.testBit (8 + j) = false := testBit_of_lt_8 hd1 (by omega)
      simp [hj, h1, h2, h3]
    · simp [hj, testBit_of_lt_8 hd2 (Nat.le_of_not_lt hj)]
  · intro i h1 h2
    rw [div_word_testBit]
    have h3 : d1.testBit i = false := testBit_of_lt_8 hd1 (by omega)
    by_cases h4 : i < 32
    · by_cases h5 : 8 ≤ i
      · have h6 : d2.testBit (i - 8) = false := testBit_of_lt_8 hd2 (by omega)
        simp [h3, h4, h6]
      · simp [h3, h4, h5]
    · simp [h4, testBit_high hw (Nat.le_of_not_lt h4)]

theorem firc_mem (cfg : Scg_Firc_ConfigType) (s : Machine) (x : Reg) :
    (Clock_SetScgFircConfig cfg s).mem x
      = if x = Reg.SCG_FIRCDIV then
          u32 (u32 (s.mem Reg.SCG_FIRCDIV ||| shl32 cfg.div1.val 0) ||| shl32 cfg.div2.val 8)
        else s.mem x := by
  simp only [Clock_SetScgFircConfig, or_assign_mem, SCG_FIRCDIV_FIRCDIV1_SHIFT,
    SCG_FIRCDIV_FIRCDIV2_SHIFT]
  by_cases h : x = Reg.SCG_FIRCDIV <;> simp [h]

theorem sirc_mem (cfg : Scg_Sirc_ConfigType) (s : Machine) (x : Reg) :
    (Clock_SetScgSircConfig cfg s).mem x
      = if x = Reg.SCG_SIRCDIV then
          u32 (u32 (s.mem Reg.SCG_SIRCDIV ||| shl32 cfg.div1.val 0) ||| shl32 cfg.div2.val 8)
        else s.mem x := by
  simp only [Clock_SetScgSircConfig, or_assign_mem, SCG_SIRCDIV_SIRCDIV1_SHIFT,
    SCG_SIRCDIV_SIRCDIV2_SHIFT]
  by_cases h : x = Reg.SCG_SIRCDIV <;> simp [h]

/-- C14: for every 32-bit prior content of `FIRCDIV` whose bits 0 to 2 and 8 to
10 are all clear and every `div1`, `div2`, after `Clock_SetScgFircConfig` bits
0 to 2 of `FIRCDIV` equal `div1`, bits 8 to 10 equal `div2`, every other bit of
the register keeps its prior value, and no other register changes; nothing is
asked of the other registers. The same holds for `Clock_SetScgSircConfig` on
`SIRCDIV`, for every state that meets the condition on `SIRCDIV`. -/
theorem C14_firc_sirc_pure_or :
    (∀ (cfg : Scg_Firc_ConfigType) (s : Machine),
      s.mem Reg.SCG_FIRCDIV < 2 ^ 32 → s.mem Reg.SCG_FIRCDIV &&& 0x707 = 0 →
      (Clock_SetScgFircConfig cfg s).mem Reg.SCG_FIRCDIV &&& 7 = cfg.div1.val ∧
      ((Clock_SetScgFircConfig cfg s).mem Reg.SCG_FIRCDIV >>> 8) &&& 7 = cfg.div2.val ∧
      (∀ i, ¬ i ≤ 2 → ¬ (8 ≤ i ∧ i ≤ 10) →
        ((Clock_SetScgFircConfig cfg s).mem Reg.SCG_FIRCDIV).testBit i
          = (s.mem Reg.SCG_FIRCDIV).testBit i) ∧
      (∀ r, r ≠ Reg.SCG_FIRCDIV → (Clock_SetScgFircConfig cfg s).mem r = s.mem r)) ∧
    (∀ (cfgS : Scg_Sirc_ConfigType) (s : Machine),
      s.mem Reg.SCG_SIRCDIV < 2 ^ 32 → s.mem Reg.SCG_SIRCDIV &&& 0x707 = 0 →
      (Clock_SetScgSircConfig cfgS s).mem Reg.SCG_SIRCDIV &&& 7 = cfgS.div1.val ∧
      ((Clock_SetScgSircConfig cfgS s).mem Reg.SCG_SIRCDIV >>> 8) &&& 7 = cfgS.div2.val ∧
      (∀ i, ¬ i ≤ 2 → ¬ (8 ≤ i ∧ i ≤ 10) →
        ((Clock_SetScgSircConfig cfgS s).mem Reg.SCG_SIRCDIV).testBit i
          = (s.mem Reg.SCG_SIRCDIV).testBit i) ∧
      (∀ r, r ≠ Reg.SCG_SIRCDIV → (Clock_SetScgSircConfig cfgS s).mem r = s.mem r)) := by
  constructor
  · intro cfg s hw hclear
    have hF := div_word_fields (s.mem Reg.SCG_FIRCDIV) cfg.div1.val cfg.div2.val hw hclear
      (scg_async_clock_div_val_lt _) (scg_async_clock_div_val_lt _)
    refine ⟨?_, ?_, ?_, ?_⟩
    · rw [firc_mem, if_pos rfl]; exact hF.1
    · rw [firc_mem, if_pos rfl]; exact hF.2.1
    · intro i h1 h2
      rw [firc_mem, if_pos rfl]; exact hF.2.2 i h1 h2
    · intro r hr
      rw [firc_mem, if_neg hr]
  · intro cfgS s hwS hclearS
    have hS := div_word_fields (s.mem Reg.SCG_SIRCDIV) cfgS.div1.val cfgS.div2.val hwS hclearS
      (scg_async_clock_div_val_lt _) (scg_async_clock_div_val_lt _)
    refine ⟨?_, ?_, ?_, ?_⟩
    · rw [sirc_mem, if_pos rfl]; exact hS.1
    · rw [sirc_mem, if_pos rfl]; exact hS.2.1
    · intro i h1 h2
      rw [sirc_mem, if_pos rfl]; exact hS.2.2 i h1 h2
    · intro r hr
      rw [sirc_mem, if_neg hr]

/-- Instance of C14: in a state where every register holds `0x00010241`, so
that `SIRCDIV` already holds dividers, except `FIRCDIV`, which holds
`0x00010040` (bits 6 and 16 set), `Clock_SetScgFircConfig` with dividers 1
(value 1) and 2 (value 2) gives `FIRCDIV = 0x00010241`; and in the state with
the two registers exchanged `Clock_SetScgSircConfig` gives
`SIRCDIV = 0x00010241`. -/
theorem C14_firc_sirc_pure_or_witness :
    (Clock_SetScgFircConfig
        ⟨scg_async_clock_div_t.SCG_CLOCK_DIV_BY_1, scg_async_clock_div_t.SCG_CLOCK_DIV_BY_2⟩
        { mem := fun r => if r = Reg.SCG_FIRCDIV then 0x00010040 else 0x00010241,
          trace := [] }).mem Reg.SCG_FIRCDIV &&& 7 = 1 ∧
    ((Clock_SetScgFircConfig
        ⟨scg_async_clock_div_t.SCG_CLOCK_DIV_BY_1, scg_async_clock_div_t.SCG_CLOCK_DIV_BY_2⟩
        { mem := fun r => if r = Reg.SCG_FIRCDIV then 0x00010040 else 0x00010241,
          trace := [] }).mem Reg.SCG_FIRCDIV >>> 8) &&& 7 = 2 ∧
    ((Clock_SetScgFircConfig
        ⟨scg_async_clock_div_t.SCG_CLOCK_DIV_BY_1, scg_async_clock_div_t.SCG_CLOCK_DIV_BY_2⟩
        { mem := fun r => if r = Reg.SCG_FIRCDIV then 0x00010040 else 0x00010241,
          trace := [] }).mem Reg.SCG_FIRCDIV).testBit 16 = true ∧
    (Clock_SetScgFircConfig
        ⟨scg_async_clock_div_t.SCG_CLOCK_DIV_BY_1, scg_async_clock_div_t.SCG_CLOCK_DIV_BY_2⟩
        { mem := fun r => if r = Reg.SCG_FIRCDIV then 0x00010040 else 0x00010241,
          trace := [] }).mem Reg.SCG_FIRCDIV = 0x00010241 ∧
    (Clock_SetScgSircConfig
        ⟨scg_async_clock_div_t.SCG_CLOCK_DIV_BY_1, scg_async_clock_div_t.SCG_CLOCK_DIV_BY_2⟩
        { mem := fun r => if r = Reg.SCG_SIRCDIV then 0x00010040 else 0x00010241,
          trace := [] }).mem Reg.SCG_SIRCDIV &&& 7 = 1 ∧
    (Clock_SetScgSircConfig
        ⟨scg_async_clock_div_t.SCG_CLOCK_DIV_BY_1, scg_async_clock_div_t.SCG_CLOCK_DIV_BY_2⟩
        { mem := fun r => if r = Reg.SCG_SIRCDIV then 0x00010040 else 0x00010241,
          trace := [] }).mem Reg.SCG_SIRCDIV = 0x00010241 :=
  have h := C14_firc_sirc_pure_or.1
    ⟨scg_async_clock_div_t.SCG_CLOCK_DIV_BY_1, scg_async_clock_div_t.SCG_CLOCK_DIV_BY_2⟩
    { mem := fun r => if r = Reg.SCG_FIRCDIV then 0x00010040 else 0x00010241, trace := [] }
    (by decide) (by decide)
  have hS := C14_firc_sirc_pure_or.2
    ⟨scg_async_clock_div_t.SCG_CLOCK_DIV_BY_1, scg_async_clock_div_t.SCG_CLOCK_DIV_BY_2⟩
    { mem := fun r => if r = Reg.SCG_SIRCDIV then 0x00010040 else 0x00010241, trace := [] }
    (by decide) (by decide)
  ⟨h.1, h.2.1, (h.2.2.1 16 (by decide) (by decide)).trans (by decide), by decide,
    hS.1, by decide⟩

/-! ## Clock_SetScgSoscConfig and Clock_SetScgSpllConfig: accesses -/

theorem sosc_unfold (cfg : Scg_Sosc_ConfigType) (csrReads : List Nat) (s : Machine) :
    Clock_SetScgSoscConfig cfg csrReads s
      = poll Reg.SCG_SOSCCSR csrValid csrReads (Clock_SetScgSoscConfig cfg [] s).1 := rfl

theorem spll_unfold (cfg : Scg_Spll_ConfigType) (csrReads : List Nat) (s : Machine) :
    Clock_SetScgSpllConfig cfg csrReads s
      = poll Reg.SCG_SPLLCSR csrValid csrReads (Clock_SetScgSpllConfig cfg [] s).1 := rfl

/-- The accesses of steps 1 to 5 of `Clock_SetScgSoscConfig`. -/
theorem sosc_setup_trace (cfg : Scg_Sosc_ConfigType) (s : Machine) :
    (Clock_SetScgSoscConfig cfg [] s).1.trace
      = s.trace ++
        [Event.read Reg.SCG_SOSCDIV (s.mem Reg.SCG_SOSCDIV),
         Event.write Reg.SCG_SOSCDIV (u32 (s.mem Reg.SCG_SOSCDIV ||| shl32 cfg.div1.val 0)),
         Event.read Reg.SCG_SOSCDIV (u32 (s.mem Reg.SCG_SOSCDIV ||| shl32 cfg.div1.val 0)),
         Event.write Reg.SCG_SOSCDIV
           (u32 (u32 (s.mem Reg.SCG_SOSCDIV ||| shl32 cfg.div1.val 0) ||| shl32 cfg.div2.val 8)),
         Event.write Reg.SCG_SOSCCFG (u32 (shl32 cfg.range.val 4 ||| shl32 1 2)),
         Event.read Reg.SCG_SOSCCSR (s.mem Reg.SCG_SOSCCSR),
         Event.write Reg.SCG_SOSCCSR (u32 (s.mem Reg.SCG_SOSCCSR &&& not32 (shl32 1 23))),
         Event.read Reg.SCG_SOSCCSR (u32 (s.mem Reg.SCG_SOSCCSR &&& not32 (shl32 1 23))),
         Event.write Reg.SCG_SOSCCSR
           (u32 (u32 (s.mem Reg.SCG_SOSCCSR &&& not32 (shl32 1 23)) ||| shl32 1 0))] := by
  simp [Clock_SetScgSoscConfig, poll, or_assign_trace, and_assign_trace, store_trace,
    or_assign_mem, and_assign_mem, store_mem, SCG_SOSCDIV_SOSCDIV1_SHIFT,
    SCG_SOSCDIV_SOSCDIV2_SHIFT, SCG_SOSCCFG_RANGE_SHIFT, SCG_SOSCCFG_EREFS_SHIFT,
    SCG_SOSCCFG_EREFS_IOSC, SCG_CSR_LK_SHIFT, ENABLEMENT, BIT0]

/-- The accesses of steps 1 to 5 of `Clock_SetScgSpllConfig`. -/
theorem spll_setup_trace (cfg : Scg_Spll_ConfigType) (s : Machine) :
    (Clock_SetScgSpllConfig cfg [] s).1.trace
      = s.trace ++
        [Event.read Reg.SCG_SPLLCSR (s.mem Reg.SCG_SPLLCSR),
         Event.write Reg.SCG_SPLLCSR (u32 (s.mem Reg.SCG_SPLLCSR &&& not32 1)),
         Event.read Reg.SCG_SPLLDIV (s.mem Reg.SCG_SPLLDIV),
         Event.write Reg.SCG_SPLLDIV (u32 (s.mem Reg.SCG_SPLLDIV ||| shl32 cfg.div1.val 0)),
         Event.read Reg.SCG_SPLLDIV (u32 (s.mem Reg.SCG_SPLLDIV ||| shl32 cfg.div1.val 0)),
         Event.write Reg.SCG_SPLLDIV
           (u32 (u32 (s.mem Reg.SCG_SPLLDIV ||| shl32 cfg.div1.val 0) ||| shl32 cfg.div2.val 8)),
         Event.read Reg.SCG_SPLLCFG (s.mem Reg.SCG_SPLLCFG),
         Event.write Reg.SCG_SPLLCFG (u32 (s.mem Reg.SCG_SPLLCFG ||| shl32 (u8 cfg.src) 0)),
         Event.read Reg.SCG_SPLLCFG (u32 (s.mem Reg.SCG_SPLLCFG ||| shl32 (u8 cfg.src) 0)),
         Event.write Reg.SCG_SPLLCFG
           (u32 (u32 (s.mem Reg.SCG_SPLLCFG ||| shl32 (u8 cfg.src) 0)
             ||| shl32 (u8 cfg.prediv) 8)),
         Event.read Reg.SCG_SPLLCFG
           (u32 (u32 (s.mem Reg.SCG_SPLLCFG ||| shl32 (u8 cfg.src) 0)
             ||| shl32 (u8 cfg.prediv) 8)),
         Event.write Reg.SCG_SPLLCFG
           (u32 (u32 (u32 (s.mem Reg.SCG_SPLLCFG ||| shl32 (u8 cfg.src) 0)
             ||| shl32 (u8 cfg.prediv) 8) ||| shl32 (u8 cfg.mult) 16)),
         Event.read Reg.SCG_SPLLCSR (u32 (s.mem Reg.SCG_SPLLCSR &&& not32 1)),
         Event.write Reg.SCG_SPLLCSR
           (u32 (u32 (s.mem Reg.SCG_SPLLCSR &&& not32 1) &&& not32 (shl32 1 23))),
         Event.read Reg.SCG_SPLLCSR
           (u32 (u32 (s.mem Reg.SCG_SPLLCSR &&& not32 1) &&& not32 (shl32 1 23))),
         Event.write Reg.SCG_SPLLCSR
           (u32 (u32 (u32 (s.mem Reg.SCG_SPLLCSR &&& not32 1) &&& not32 (shl32 1 23))
             ||| shl32 1 0))] := by
  simp [Clock_SetScgSpllConfig, poll, or_assign_trace, and_assign_trace,
    or_assign_mem, and_assign_mem, SCG_SPLLDIV_SPLLDIV1_SHIFT,
    SCG_SPLLDIV_SPLLDIV2_SHIFT, SCG_SPLLCFG_SOURCE_SHIFT, SCG_SPLLCFG_PREDIV_SHIFT,
    SCG_SPLLCFG_MULT_SHIFT, SCG_CSR_LK_SHIFT, ENABLEMENT, BIT0]

theorem sosc_trace (cfg : Scg_Sosc_ConfigType) (csrReads : List Nat) (s : Machine) :
    (Clock_SetScgSoscConfig cfg csrReads s).1.trace
      = (Clock_SetScgSoscConfig cfg [] s).1.trace
          ++ pollReads Reg.SCG_SOSCCSR csrValid csrReads := by
  rw [sosc_unfold, poll_trace]

theorem spll_trace (cfg : Scg_Spll_ConfigType) (csrReads : List Nat) (s : Machine) :
    (Clock_SetScgSpllConfig cfg csrReads s).1.trace
      = (Clock_SetScgSpllConfig cfg [] s).1.trace
          ++ pollReads Reg.SCG_SPLLCSR csrValid csrReads := by
  rw [spll_unfold, poll_trace]

theorem since_append_of_trace_eq {t u s : Machine} {es ps : List Event}
    (h : t.trace = s.trace ++ es) (hu : u.trace = t.trace ++ ps) :
    u.since s = t.since s ++ ps := by
  simp [Machine.since, h, hu]

theorem csrValid_eq_testBit (v : Nat) : csrValid v = v.testBit 24 := by
  simp [csrValid, SCG_CSR_VLD_SHIFT, VALUE_CHECK_BIT, Nat.testBit, Nat.and_comm]

theorem writesOf_append (xs ys : List Event) :
    writesOf (xs ++ ys) = writesOf xs ++ writesOf ys := by
  induction xs with
  | nil => rfl
  | cons e es ih =>
    cases e with
    | read r1 v => simpa [writesOf] using ih
    | write r1 v => simp [writesOf, ih]

theorem writesOf_pollReads (r : Reg) (done : Nat → Bool) (vs : List Nat) :
    writesOf (pollReads r done vs) = [] := by
  induction vs with
  | nil => rfl
  | cons v vs ih =>
    by_cases h : done (u32 v) = true
    · simp [pollReads, writesOf, h]
    · simp [pollReads, writesOf, h, ih]

/-- Bits of a word after `&= ~(1u << 23)`. -/
theorem lock_clear_bits (w i : Nat) :
    (u32 (w &&& not32 (shl32 1 23))).testBit i
      = (decide (i < 32) && !decide (i = 23) && w.testBit i) := by
  have h : u32 (shl32 1 23) = 2 ^ 23 := by decide
  rw [testBit_u32, Nat.testBit_and, testBit_not32, h, Nat.testBit_two_pow]
  by_cases h1 : i < 32 <;> by_cases h2 : i = 23 <;> simp [h1, h2, eq_comm]

/-- Bits of a word after `&= ~1u`. -/
theorem enable_clear_bits (w i : Nat) :
    (u32 (w &&& not32 1)).testBit i
      = (decide (i < 32) && !decide (i = 0) && w.testBit i) := by
  have h : u32 1 = 2 ^ 0 := by decide
  rw [testBit_u32, Nat.testBit_and, testBit_not32, h, Nat.testBit_two_pow]
  by_cases h1 : i < 32 <;> by_cases h2 : i = 0 <;> simp [h1, h2, eq_comm]

/-- Bits of a word after `|= 1u << 0`. -/
theorem enable_set_bits (w i : Nat) :
    (u32 (w ||| shl32 1 0)).testBit i
      = (decide (i < 32) && (w.testBit i || decide (i = 0))) := by
  have h : shl32 1 0 = 2 ^ 0 := by decide
  rw [testBit_u32, Nat.testBit_or, h, Nat.testBit_two_pow]
  by_cases h2 : i = 0 <;> simp [h2, eq_comm]

theorem sosc_since (cfg : Scg_Sosc_ConfigType) (csrReads : List Nat) (s : Machine) :
    (Clock_SetScgSoscConfig cfg csrReads s).1.since s
      = (Clock_SetScgSoscConfig cfg [] s).1.since s
          ++ pollReads Reg.SCG_SOSCCSR csrValid csrReads :=
  since_append_of_trace_eq (sosc_setup_trace cfg s) (sosc_trace cfg csrReads s)

theorem spll_since (cfg : Scg_Spll_ConfigType) (csrReads : List Nat) (s : Machine) :
    (Clock_SetScgSpllConfig cfg csrReads s).1.since s
      = (Clock_SetScgSpllConfig cfg [] s).1.since s
          ++ pollReads Reg.SCG_SPLLCSR csrValid csrReads :=
  since_append_of_trace_eq (spll_setup_trace cfg s) (spll_trace cfg csrReads s)

theorem sosc_csr_writes (cfg : Scg_Sosc_ConfigType) (csrReads : List Nat) (s : Machine) :
    writesTo Reg.SCG_SOSCCSR ((Clock_SetScgSoscConfig cfg csrReads s).1.since s)
      = [u32 (s.mem Reg.SCG_SOSCCSR &&& not32 (shl32 1 23)),
         u32 (u32 (s.mem Reg.SCG_SOSCCSR &&& not32 (shl32 1 23)) ||| shl32 1 0)] := by
  rw [sosc_since, since_of_trace_eq (sosc_setup_trace cfg s), writesTo_append,
    writesTo_pollReads]
  simp [writesTo]

theorem spll_csr_writes (cfg : Scg_Spll_ConfigType) (csrReads : List Nat) (s : Machine) :
    writesTo Reg.SCG_SPLLCSR ((Clock_SetScgSpllConfig cfg csrReads s).1.since s)
      = [u32 (s.mem Reg.SCG_SPLLCSR &&& not32 1),
         u32 (u32 (s.mem Reg.SCG_SPLLCSR &&& not32 1) &&& not32 (shl32 1 23)),
         u32 (u32 (u32 (s.mem Reg.SCG_SPLLCSR &&& not32 1) &&& not32 (shl32 1 23))
           ||| shl32 1 0)] := by
  rw [spll_since, since_of_trace_eq (spll_setup_trace cfg s), writesTo_append,
    writesTo_pollReads]
  simp [writesTo]

/-! ## Claims on the oscillator and PLL sequences -/

/-- C15 as stated fails for the oscillator: with `SOSCCSR = 0x00800001` before
the call (locked and already enabled), the two values `Clock_SetScgSoscConfig`
writes to `SOSCCSR` are 1 and 1. The first write, the one that clears the lock
bit, already stores the enable bit set, so no write with the lock bit cleared
comes strictly before the first write that stores the enable bit set. -/
theorem C15_sosc_lock_clear_carries_enable :
    writesTo Reg.SCG_SOSCCSR
        ((Clock_SetScgSoscConfig
            ⟨scg_sosc_cfg_range.SCG_RANGE_HCS, scg_async_clock_div_t.SCG_CLOCK_DIV_BY_1,
              scg_async_clock_div_t.SCG_CLOCK_DIV_BY_1⟩
            [0x01000001] (Machine.holding Reg.SCG_SOSCCSR 0x00800001)).1.since
          (Machine.holding Reg.SCG_SOSCCSR 0x00800001))
      = [1, 1] ∧
    (writesTo Reg.SCG_SOSCCSR
        ((Clock_SetScgSoscConfig
            ⟨scg_sosc_cfg_range.SCG_RANGE_HCS, scg_async_clock_div_t.SCG_CLOCK_DIV_BY_1,
              scg_async_clock_div_t.SCG_CLOCK_DIV_BY_1⟩
            [0x01000001] (Machine.holding Reg.SCG_SOSCCSR 0x00800001)).1.since
          (Machine.holding Reg.SCG_SOSCCSR 0x00800001))).head?.map (fun w => w.testBit 0)
      = some true ∧
    ((Machine.holding Reg.SCG_SOSCCSR 0x00800001).mem Reg.SCG_SOSCCSR).testBit 0 = true := by
  decide

/-- C15, amended: for every configuration, prior state and polled values, the
writes of `Clock_SetScgSoscConfig` to `SOSCCSR` are two. The first clears the
lock bit (bit 23) and nothing else: it has bit 23 clear and every other bit,
the enable bit (bit 0) included, as `SOSCCSR` held it before the call, so it
stores bit 0 clear whenever the oscillator was disabled before the call. The
second, strictly after it, sets the enable bit and nothing else: it has bit 0
set and every other bit as in the first, so bit 23 is still clear. The writes
of `Clock_SetScgSpllConfig` to `SPLLCSR` are three: the disable (bit 0 clear),
then a value with bit 23 cleared and bit 0 clear, then a value with bit 0 set
and bit 23 clear. In both traces every written value with bit 0 set has bit 23
clear. -/
theorem C15_lock_cleared_before_enable (cfg : Scg_Sosc_ConfigType)
    (cfgP : Scg_Spll_ConfigType) (csrReads csrReadsP : List Nat) (s : Machine) :
    (∃ a b, writesTo Reg.SCG_SOSCCSR ((Clock_SetScgSoscConfig cfg csrReads s).1.since s)
          = [a, b] ∧
        a.testBit 23 = false ∧ b.testBit 0 = true ∧ b.testBit 23 = false ∧
        a.testBit 0 = (s.mem Reg.SCG_SOSCCSR).testBit 0 ∧
        (∀ i, i < 32 → i ≠ 23 → a.testBit i = (s.mem Reg.SCG_SOSCCSR).testBit i) ∧
        (∀ i, i ≠ 0 → b.testBit i = a.testBit i) ∧
        ((s.mem Reg.SCG_SOSCCSR).testBit 0 = false → a.testBit 0 = false)) ∧
    (∀ w ∈ writesTo Reg.SCG_SOSCCSR ((Clock_SetScgSoscConfig cfg csrReads s).1.since s),
        w.testBit 0 = true → w.testBit 23 = false) ∧
    (∃ a b c, writesTo Reg.SCG_SPLLCSR ((Clock_SetScgSpllConfig cfgP csrReadsP s).1.since s)
          = [a, b, c] ∧
        a.testBit 0 = false ∧ b.testBit 23 = false ∧ b.testBit 0 = false ∧
        c.testBit 0 = true ∧ c.testBit 23 = false) ∧
    (∀ w ∈ writesTo Reg.SCG_SPLLCSR ((Clock_SetScgSpllConfig cfgP csrReadsP s).1.since s),
        w.testBit 0 = true → w.testBit 23 = false) := by
  have a23 : (u32 (s.mem Reg.SCG_SOSCCSR &&& not32 (shl32 1 23))).testBit 23 = false := by
    rw [lock_clear_bits]; simp
  have b0 : (u32 (u32 (s.mem Reg.SCG_SOSCCSR &&& not32 (shl32 1 23))
      ||| shl32 1 0)).testBit 0 = true := by
    rw [enable_set_bits]; simp
  have b23 : (u32 (u32 (s.mem Reg.SCG_SOSCCSR &&& not32 (shl32 1 23))
      ||| shl32 1 0)).testBit 23 = false := by
    rw [enable_set_bits, a23]; simp
  have akeep : ∀ i, i < 32 → i ≠ 23 →
      (u32 (s.mem Reg.SCG_SOSCCSR &&& not32 (shl32 1 23))).testBit i
        = (s.mem Reg.SCG_SOSCCSR).testBit i := by
    intro i h1 h2
    rw [lock_clear_bits]; simp [h1, h2]
  have bkeep : ∀ i, i ≠ 0 →
      (u32 (u32 (s.mem Reg.SCG_SOSCCSR &&& not32 (shl32 1 23)) ||| shl32 1 0)).testBit i
        = (u32 (s.mem Reg.SCG_SOSCCSR &&& not32 (shl32 1 23))).testBit i := by
    intro i h1
    rw [enable_set_bits, lock_clear_bits]
    by_cases h32 : i < 32 <;> simp [h1, h32]
  have p0 : (u32 (s.mem Reg.SCG_SPLLCSR &&& not32 1)).testBit 0 = false := by
    rw [enable_clear_bits]; simp
  have q23 : (u32 (u32 (s.mem Reg.SCG_SPLLCSR &&& not32 1)
      &&& not32 (shl32 1 23))).testBit 23 = false := by
    rw [lock_clear_bits]; simp
  have q0 : (u32 (u32 (s.mem Reg.SCG_SPLLCSR &&& not32 1)
      &&& not32 (shl32 1 23))).testBit 0 = false := by
    rw [lock_clear_bits, p0]; simp
  have r0 : (u32 (u32 (u32 (s.mem Reg.SCG_SPLLCSR &&& not32 1) &&& not32 (shl32 1 23))
      ||| shl32 1 0)).testBit 0 = true := by
    rw [enable_set_bits]; simp
  have r23 : (u32 (u32 (u32 (s.mem Reg.SCG_SPLLCSR &&& not32 1) &&& not32 (shl32 1 23))
      ||| shl32 1 0)).testBit 23 = false := by
    rw [enable_set_bits, q23]; simp
  refine ⟨⟨_, _, sosc_csr_writes cfg csrReads s, a23, b0, b23,
      akeep 0 (by norm_num) (by norm_num), akeep, bkeep, ?_⟩, ?_,
    ⟨_, _, _, spll_csr_writes cfgP csrReadsP s, p0, q23, q0, r0, r23⟩, ?_⟩
  · intro h
    rw [akeep 0 (by norm_num) (by norm_num)]
    exact h
  · intro w hw _
    rw [sosc_csr_writes] at hw
    simp only [List.mem_cons, List.mem_singleton, List.not_mem_nil, or_false] at hw
    rcases hw with h | h <;> subst h
    · exact a23
    · exact b23
  · intro w hw hbit
    rw [spll_csr_writes] at hw
    simp only [List.mem_cons, List.mem_singleton, List.not_mem_nil, or_false] at hw
    rcases hw with h | h | h <;> subst h
    · rw [p0] at hbit; exact absurd hbit (by decide)
    · exact q23
    · exact r23

/-- C16: let the hardware supply the values read by the waiting loop as a
sequence whose first `pre.length` values have bit 24 clear and whose next value
`v` has bit 24 set. Then `Clock_SetScgSoscConfig` returns, its accesses are
those of the configuration steps followed by exactly the `pre.length + 1` polls
of `pre` and `v`, and it has not returned after any `k ≤ pre.length` polls. The
same holds for `Clock_SetScgSpllConfig`. -/
theorem C16_valid_bit_wait (cfg : Scg_Sosc_ConfigType) (cfgP : Scg_Spll_ConfigType)
    (pre post : List Nat) (v : Nat) (s : Machine)
    (hpre : ∀ x ∈ pre, (u32 x).testBit 24 = false) (hv : (u32 v).testBit 24 = true) :
    ((Clock_SetScgSoscConfig cfg (pre ++ v :: post) s).2 = true ∧
      (Clock_SetScgSoscConfig cfg (pre ++ v :: post) s).1.since s
        = (Clock_SetScgSoscConfig cfg [] s).1.since s
            ++ (pre ++ [v]).map (fun x => Event.read Reg.SCG_SOSCCSR (u32 x)) ∧
      (∀ k, k ≤ pre.length →
        (Clock_SetScgSoscConfig cfg ((pre ++ v :: post).take k) s).2 = false)) ∧
    ((Clock_SetScgSpllConfig cfgP (pre ++ v :: post) s).2 = true ∧
      (Clock_SetScgSpllConfig cfgP (pre ++ v :: post) s).1.since s
        = (Clock_SetScgSpllConfig cfgP [] s).1.since s
            ++ (pre ++ [v]).map (fun x => Event.read Reg.SCG_SPLLCSR (u32 x)) ∧
      (∀ k, k ≤ pre.length →
        (Clock_SetScgSpllConfig cfgP ((pre ++ v :: post).take k) s).2 = false)) := by
  have d1 : ∀ x ∈ pre, csrValid (u32 x) = false := by
    intro x hx
    rw [csrValid_eq_testBit]
    exact hpre x hx
  have d2 : csrValid (u32 v) = true := by
    rw [csrValid_eq_testBit]
    exact hv
  refine ⟨⟨?_, ?_, ?_⟩, ⟨?_, ?_, ?_⟩⟩
  · rw [sosc_unfold]
    exact poll_returns _ _ pre v post _ d1 d2
  · rw [sosc_since, pollReads_returns _ _ pre v post d1 d2]
  · intro k hk
    rw [sosc_unfold]
    exact poll_prefix_spinning _ _ pre v post _ d1 k hk
  · rw [spll_unfold]
    exact poll_returns _ _ pre v post _ d1 d2
  · rw [spll_since, pollReads_returns _ _ pre v post d1 d2]
  · intro k hk
    rw [spll_unfold]
    exact poll_prefix_spinning _ _ pre v post _ d1 k hk

/-- Instance of C16 with N = 3: the polled values `1`, `0x00800001`,
`0x01000001` (valid only in the third) make both functions return after three
polls and not after two. -/
theorem C16_valid_bit_wait_witness :
    (Clock_SetScgSoscConfig
        ⟨scg_sosc_cfg_range.SCG_RANGE_HCS, scg_async_clock_div_t.SCG_CLOCK_DIV_BY_1,
          scg_async_clock_div_t.SCG_CLOCK_DIV_BY_1⟩
        ([1, 0x00800001] ++ 0x01000001 :: [0]) Machine.reset).2 = true ∧
    (Clock_SetScgSoscConfig
        ⟨scg_sosc_cfg_range.SCG_RANGE_HCS, scg_async_clock_div_t.SCG_CLOCK_DIV_BY_1,
          scg_async_clock_div_t.SCG_CLOCK_DIV_BY_1⟩
        (([1, 0x00800001] ++ 0x01000001 :: [0]).take 2) Machine.reset).2 = false ∧
    (Clock_SetScgSpllConfig ⟨1, 40, 0, scg_async_clock_div_t.SCG_CLOCK_DIV_BY_2,
          scg_async_clock_div_t.SCG_CLOCK_DIV_BY_4⟩
        ([1, 0x00800001] ++ 0x01000001 :: [0]) Machine.reset).2 = true ∧
    (Clock_SetScgSpllConfig ⟨1, 40, 0, scg_async_clock_div_t.SCG_CLOCK_DIV_BY_2,
          scg_async_clock_div_t.SCG_CLOCK_DIV_BY_4⟩
        (([1, 0x00800001] ++ 0x01000001 :: [0]).take 2) Machine.reset).2 = false :=
  have h := C16_valid_bit_wait
    ⟨scg_sosc_cfg_range.SCG_RANGE_HCS, scg_async_clock_div_t.SCG_CLOCK_DIV_BY_1,
      scg_async_clock_div_t.SCG_CLOCK_DIV_BY_1⟩
    ⟨1, 40, 0, scg_async_clock_div_t.SCG_CLOCK_DIV_BY_2,
      scg_async_clock_div_t.SCG_CLOCK_DIV_BY_4⟩
    [1, 0x00800001] [0] 0x01000001 Machine.reset (by decide) (by decide)
  ⟨h.1.1, h.1.2.2 2 (by decide), h.2.1, h.2.2.2 2 (by decide)⟩

/-- C17: for every configuration, polled values and prior state with a 32-bit
`SPLLCSR`, the writes of `Clock_SetScgSpllConfig` are, in order: one to
`SPLLCSR` storing the prior value with bit 0 cleared and every other bit as
before, two to `SPLLDIV`, three to `SPLLCFG`, then two to `SPLLCSR` of which
only the last has bit 0 set. So the disable precedes every write to `SPLLDIV`
and `SPLLCFG`, and no write follows the one that sets bit 0. -/
theorem C17_spll_disabled_before_reconfigured (cfg : Scg_Spll_ConfigType)
    (csrReads : List Nat) (s : Machine) (hw : s.mem Reg.SCG_SPLLCSR < 2 ^ 32) :
    ∃ a d1 d2 g1 g2 g3 b c,
      writesOf ((Clock_SetScgSpllConfig cfg csrReads s).1.since s)
        = [(Reg.SCG_SPLLCSR, a), (Reg.SCG_SPLLDIV, d1), (Reg.SCG_SPLLDIV, d2),
           (Reg.SCG_SPLLCFG, g1), (Reg.SCG_SPLLCFG, g2), (Reg.SCG_SPLLCFG, g3),
           (Reg.SCG_SPLLCSR, b), (Reg.SCG_SPLLCSR, c)] ∧
      a.testBit 0 = false ∧
      (∀ i, i ≠ 0 → a.testBit i = (s.mem Reg.SCG_SPLLCSR).testBit i) ∧
      b.testBit 0 = false ∧ c.testBit 0 = true := by
  have hlist : writesOf ((Clock_SetScgSpllConfig cfg csrReads s).1.since s)
      = [(Reg.SCG_SPLLCSR, u32 (s.mem Reg.SCG_SPLLCSR &&& not32 1)),
         (Reg.SCG_SPLLDIV, u32 (s.mem Reg.SCG_SPLLDIV ||| shl32 cfg.div1.val 0)),
         (Reg.SCG_SPLLDIV,
           u32 (u32 (s.mem Reg.SCG_SPLLDIV ||| shl32 cfg.div1.val 0) ||| shl32 cfg.div2.val 8)),
         (Reg.SCG_SPLLCFG, u32 (s.mem Reg.SCG_SPLLCFG ||| shl32 (u8 cfg.src) 0)),
         (Reg.SCG_SPLLCFG,
           u32 (u32 (s.mem Reg.SCG_SPLLCFG ||| shl32 (u8 cfg.src) 0)
             ||| shl32 (u8 cfg.prediv) 8)),
         (Reg.SCG_SPLLCFG,
           u32 (u32 (u32 (s.mem Reg.SCG_SPLLCFG ||| shl32 (u8 cfg.src) 0)
             ||| shl32 (u8 cfg.prediv) 8) ||| shl32 (u8 cfg.mult) 16)),
         (Reg.SCG_SPLLCSR,
           u32 (u32 (s.mem Reg.SCG_SPLLCSR &&& not32 1) &&& not32 (shl32 1 23))),
         (Reg.SCG_SPLLCSR,
           u32 (u32 (u32 (s.mem Reg.SCG_SPLLCSR &&& not32 1) &&& not32 (shl32 1 23))
             ||| shl32 1 0))] := by
    rw [spll_since, since_of_trace_eq (spll_setup_trace cfg s), writesOf_append,
      writesOf_pollReads]
    simp [writesOf]
  have p0 : (u32 (s.mem Reg.SCG_SPLLCSR &&& not32 1)).testBit 0 = false := by
    rw [enable_clear_bits]; simp
  refine ⟨_, _, _, _, _, _, _, _, hlist, p0, ?_, ?_, ?_⟩
  · intro i hi
    rw [enable_clear_bits]
    by_cases h : i < 32
    · simp [h, hi]
    · simp [h, testBit_high hw (Nat.le_of_not_lt h)]
  · rw [lock_clear_bits, p0]; simp
  · rw [enable_set_bits]; simp

/-- Instance of C17: with `SPLLCSR` holding `0x00800001` (locked and enabled)
the eight writes go to `SPLLCSR`, `SPLLDIV` twice, `SPLLCFG` three times and
`SPLLCSR` twice; the first stores `0x00800000` and the last stores `1`. -/
theorem C17_spll_disabled_before_reconfigured_witness :
    (0x00800001 : Nat) < 2 ^ 32 ∧
    (writesOf ((Clock_SetScgSpllConfig ⟨1, 40, 0, scg_async_clock_div_t.SCG_CLOCK_DIV_BY_2,
        scg_async_clock_div_t.SCG_CLOCK_DIV_BY_4⟩ [0x01000001]
        (Machine.holding Reg.SCG_SPLLCSR 0x00800001)).1.since
          (Machine.holding Reg.SCG_SPLLCSR 0x00800001))).map Prod.fst
      = [Reg.SCG_SPLLCSR, Reg.SCG_SPLLDIV, Reg.SCG_SPLLDIV, Reg.SCG_SPLLCFG,
         Reg.SCG_SPLLCFG, Reg.SCG_SPLLCFG, Reg.SCG_SPLLCSR, Reg.SCG_SPLLCSR] ∧
    writesOf ((Clock_SetScgSpllConfig ⟨1, 40, 0, scg_async_clock_div_t.SCG_CLOCK_DIV_BY_2,
        scg_async_clock_div_t.SCG_CLOCK_DIV_BY_4⟩ [0x01000001]
        (Machine.holding Reg.SCG_SPLLCSR 0x00800001)).1.since
          (Machine.holding Reg.SCG_SPLLCSR 0x00800001))
      = [(Reg.SCG_SPLLCSR, 0x00800000), (Reg.SCG_SPLLDIV, 2), (Reg.SCG_SPLLDIV, 0x302),
         (Reg.SCG_SPLLCFG, 0), (Reg.SCG_SPLLCFG, 0x100), (Reg.SCG_SPLLCFG, 0x280100),
         (Reg.SCG_SPLLCSR, 0), (Reg.SCG_SPLLCSR, 1)] := by
  obtain ⟨a, d1, d2, g1, g2, g3, b, c, h, _⟩ :=
    C17_spll_disabled_before_reconfigured ⟨1, 40, 0, scg_async_clock_div_t.SCG_CLOCK_DIV_BY_2,
      scg_async_clock_div_t.SCG_CLOCK_DIV_BY_4⟩ [0x01000001]
      (Machine.holding Reg.SCG_SPLLCSR 0x00800001) (by decide)
  refine ⟨by decide, ?_, by decide⟩
  rw [h]
  rfl

theorem sosc_cfg_word (r : scg_sosc_cfg_range) :
    u32 (shl32 r.val 4 ||| shl32 1 2) = (r.val <<< 4) ||| (1 <<< 2) := by
  cases r <;> decide

theorem sosc_cfg_mem (cfg : Scg_Sosc_ConfigType) (csrReads : List Nat) (s : Machine) :
    (Clock_SetScgSoscConfig cfg csrReads s).1.mem Reg.SCG_SOSCCFG
      = u32 (shl32 cfg.range.val 4 ||| shl32 1 2) := by
  rw [sosc_unfold, poll_mem_other _ _ (by decide)]
  simp [Clock_SetScgSoscConfig, poll, or_assign_mem, and_assign_mem, store_mem,
    SCG_SOSCCFG_RANGE_SHIFT, SCG_SOSCCFG_EREFS_SHIFT, SCG_SOSCCFG_EREFS_IOSC]

/-- C18: for every prior state, every polled values and every configuration,
`Clock_SetScgSoscConfig` writes `SOSCCFG` once, the value written and left in
the register is exactly `(range << 4) | (1 << 2)` whatever the register held
before, and bit 2 of it is 1. -/
theorem C18_sosc_cfg_overwritten (cfg : Scg_Sosc_ConfigType) (csrReads : List Nat)
    (s : Machine) :
    (Clock_SetScgSoscConfig cfg csrReads s).1.mem Reg.SCG_SOSCCFG
      = (cfg.range.val <<< 4) ||| (1 <<< 2) ∧
    writesTo Reg.SCG_SOSCCFG ((Clock_SetScgSoscConfig cfg csrReads s).1.since s)
      = [(cfg.range.val <<< 4) ||| (1 <<< 2)] ∧
    ((Clock_SetScgSoscConfig cfg csrReads s).1.mem Reg.SCG_SOSCCFG).testBit 2 = true := by
  have hm := sosc_cfg_mem cfg csrReads s
  rw [sosc_cfg_word] at hm
  refine ⟨hm, ?_, ?_⟩
  · rw [sosc_since, since_of_trace_eq (sosc_setup_trace cfg s), writesTo_append,
      writesTo_pollReads]
    simp [writesTo, sosc_cfg_word]
  · rw [hm]
    cases cfg.range <;> decide

/-- Instance of C18: with `SOSCCFG` holding `0xFFFFFFFF` beforehand and the
high range selected, the register ends at `0x34`. -/
theorem C18_sosc_cfg_overwritten_witness :
    (Clock_SetScgSoscConfig
        ⟨scg_sosc_cfg_range.SCG_RANGE_HCS, scg_async_clock_div_t.SCG_CLOCK_DIV_BY_1,
          scg_async_clock_div_t.SCG_CLOCK_DIV_BY_1⟩
        [0x01000001] (Machine.holding Reg.SCG_SOSCCFG 0xFFFFFFFF)).1.mem Reg.SCG_SOSCCFG
      = 0x34 :=
  (C18_sosc_cfg_overwritten
    ⟨scg_sosc_cfg_range.SCG_RANGE_HCS, scg_async_clock_div_t.SCG_CLOCK_DIV_BY_1,
      scg_async_clock_div_t.SCG_CLOCK_DIV_BY_1⟩
    [0x01000001] (Machine.holding Reg.SCG_SOSCCFG 0xFFFFFFFF)).1

theorem u32_or_shl {w a n : Nat} (hw : w < 2 ^ 32) (ha : a * 2 ^ n < 2 ^ 32) :
    u32 (w ||| shl32 a n) = w ||| a <<< n ∧ w ||| a <<< n < 2 ^ 32 := by
  have h1 : a <<< n < 2 ^ 32 := by rw [Nat.shiftLeft_eq]; exact ha
  have h2 : w ||| a <<< n < 2 ^ 32 := Nat.or_lt_two_pow hw h1
  rw [shl32_of_lt ha]
  exact ⟨u32_of_lt h2, h2⟩

theorem spll_div_mem (cfg : Scg_Spll_ConfigType) (csrReads : List Nat) (s : Machine) :
    (Clock_SetScgSpllConfig cfg csrReads s).1.mem Reg.SCG_SPLLDIV
      = u32 (u32 (s.mem Reg.SCG_SPLLDIV ||| shl32 cfg.div1.val 0)
          ||| shl32 cfg.div2.val 8) := by
  rw [spll_unfold, poll_mem_other _ _ (by decide)]
  simp [Clock_SetScgSpllConfig, poll, or_assign_mem, and_assign_mem,
    SCG_SPLLDIV_SPLLDIV1_SHIFT, SCG_SPLLDIV_SPLLDIV2_SHIFT]

theorem spll_cfg_mem (cfg : Scg_Spll_ConfigType) (csrReads : List Nat) (s : Machine) :
    (Clock_SetScgSpllConfig cfg csrReads s).1.mem Reg.SCG_SPLLCFG
      = u32 (u32 (u32 (s.mem Reg.SCG_SPLLCFG ||| shl32 (u8 cfg.src) 0)
          ||| shl32 (u8 cfg.prediv) 8) ||| shl32 (u8 cfg.mult) 16) := by
  rw [spll_unfold, poll_mem_other _ _ (by decide)]
  simp [Clock_SetScgSpllConfig, poll, or_assign_mem, and_assign_mem,
    SCG_SPLLCFG_SOURCE_SHIFT, SCG_SPLLCFG_PREDIV_SHIFT, SCG_SPLLCFG_MULT_SHIFT]

/-- C19: for every 32-bit prior content, every polled values and every
configuration (`src`, `prediv`, `mult` being `unsigned char` values), after
`Clock_SetScgSpllConfig` the register `SPLLDIV` holds
`prior | div1 | (div2 << 8)` and `SPLLCFG` holds
`prior | src | (prediv << 8) | (mult << 16)`; every bit of either register that
was 1 is still 1. -/
theorem C19_spll_merges (cfg : Scg_Spll_ConfigType) (csrReads : List Nat) (s : Machine)
    (hdiv : s.mem Reg.SCG_SPLLDIV < 2 ^ 32) (hcfg : s.mem Reg.SCG_SPLLCFG < 2 ^ 32)
    (hsrc : cfg.src < 256) (hprediv : cfg.prediv < 256) (hmult : cfg.mult < 256) :
    (Clock_SetScgSpllConfig cfg csrReads s).1.mem Reg.SCG_SPLLDIV
      = s.mem Reg.SCG_SPLLDIV ||| cfg.div1.val ||| (cfg.div2.val <<< 8) ∧
    (Clock_SetScgSpllConfig cfg csrReads s).1.mem Reg.SCG_SPLLCFG
      = s.mem Reg.SCG_SPLLCFG ||| cfg.src ||| (cfg.prediv <<< 8) ||| (cfg.mult <<< 16) ∧
    (∀ i, (s.mem Reg.SCG_SPLLDIV).testBit i = true →
      ((Clock_SetScgSpllConfig cfg csrReads s).1.mem Reg.SCG_SPLLDIV).testBit i = true) ∧
    (∀ i, (s.mem Reg.SCG_SPLLCFG).testBit i = true →
      ((Clock_SetScgSpllConfig cfg csrReads s).1.mem Reg.SCG_SPLLCFG).testBit i = true) := by
  have k1 := scg_async_clock_div_val_lt cfg.div1
  have k2 := scg_async_clock_div_val_lt cfg.div2
  have e1 := u32_or_shl (a := cfg.div1.val) (n := 0) hdiv (by omega)
  have e2 := u32_or_shl (a := cfg.div2.val) (n := 8) e1.2 (by omega)
  have f1 := u32_or_shl (a := cfg.src) (n := 0) hcfg (by omega)
  have f2 := u32_or_shl (a := cfg.prediv) (n := 8) f1.2 (by omega)
  have f3 := u32_or_shl (a := cfg.mult) (n := 16) f2.2 (by omega)
  have hD : (Clock_SetScgSpllConfig cfg csrReads s).1.mem Reg.SCG_SPLLDIV
      = s.mem Reg.SCG_SPLLDIV ||| cfg.div1.val ||| (cfg.div2.val <<< 8) := by
    rw [spll_div_mem, e1.1, e2.1, Nat.shiftLeft_zero]
  have hC : (Clock_SetScgSpllConfig cfg csrReads s).1.mem Reg.SCG_SPLLCFG
      = s.mem Reg.SCG_SPLLCFG ||| cfg.src ||| (cfg.prediv <<< 8) ||| (cfg.mult <<< 16) := by
    rw [spll_cfg_mem]
    unfold u8
    rw [Nat.mod_eq_of_lt hsrc, Nat.mod_eq_of_lt hprediv, Nat.mod_eq_of_lt hmult,
      f1.1, f2.1, f3.1, Nat.shiftLeft_zero]
  refine ⟨hD, hC, ?_, ?_⟩
  · intro i hi
    rw [hD]
    simp [hi]
  · intro i hi
    rw [hC]
    simp [hi]

/-- Instance of C19: with `SPLLDIV` and `SPLLCFG` both holding `0x00000400`,
dividers 2 and 3, source 0, predivider 1 and multiplier 40 leave
`SPLLDIV = 0x702` and `SPLLCFG = 0x280500`. -/
theorem C19_spll_merges_witness :
    (Clock_SetScgSpllConfig ⟨1, 40, 0, scg_async_clock_div_t.SCG_CLOCK_DIV_BY_2,
        scg_async_clock_div_t.SCG_CLOCK_DIV_BY_4⟩ [0x01000001]
        { mem := fun _ => 0x400, trace := [] }).1.mem Reg.SCG_SPLLDIV = 0x702 ∧
    (Clock_SetScgSpllConfig ⟨1, 40, 0, scg_async_clock_div_t.SCG_CLOCK_DIV_BY_2,
        scg_async_clock_div_t.SCG_CLOCK_DIV_BY_4⟩ [0x01000001]
        { mem := fun _ => 0x400, trace := [] }).1.mem Reg.SCG_SPLLCFG = 0x280500 :=
  have h := C19_spll_merges ⟨1, 40, 0, scg_async_clock_div_t.SCG_CLOCK_DIV_BY_2,
    scg_async_clock_div_t.SCG_CLOCK_DIV_BY_4⟩ [0x01000001]
    { mem := fun _ => 0x400, trace := [] }
    (by decide) (by decide) (by decide) (by decide) (by decide)
  ⟨h.1, h.2.1⟩

/-! ## Idempotence of the NVIC calls -/

theorem store_store_mem (r : Reg) (v : Nat) (s : Machine) :
    (store r v (store r v s)).mem = (store r v s).mem := by
  funext x
  simp only [store_mem]
  by_cases h : x = r <;> simp [h]

/-- C20: for every register state and every argument, performing
`NVIC_EnableInterrupt`, `NVIC_DisableInterrupt`, `NVIC_ClearPendingFlag`,
`NVIC_SetPriority` or `NVIC_Settings` twice in a row leaves the same register
contents as performing it once. -/
theorem C20_nvic_calls_idempotent (id priority : Nat) (s : Machine) :
    (NVIC_EnableInterrupt id (NVIC_EnableInterrupt id s)).mem
      = (NVIC_EnableInterrupt id s).mem ∧
    (NVIC_DisableInterrupt id (NVIC_DisableInterrupt id s)).mem
      = (NVIC_DisableInterrupt id s).mem ∧
    (NVIC_ClearPendingFlag id (NVIC_ClearPendingFlag id s)).mem
      = (NVIC_ClearPendingFlag id s).mem ∧
    (NVIC_SetPriority id priority (NVIC_SetPriority id priority s)).mem
      = (NVIC_SetPriority id priority s).mem ∧
    (NVIC_Settings id priority (NVIC_Settings id priority s)).mem
      = (NVIC_Settings id priority s).mem := by
  refine ⟨store_store_mem _ _ _, store_store_mem _ _ _, store_store_mem _ _ _,
    store_store_mem _ _ _, ?_⟩
  funext x
  simp only [NVIC_Settings, NVIC_EnableInterrupt, NVIC_DisableInterrupt,
    NVIC_ClearPendingFlag, NVIC_SetPriority, store_mem]
  split_ifs <;> rfl

/-- Instance of C20: configuring interrupt 33 with priority 3 twice from a
state with `ISER[1] = 0xFF` leaves `ISER[1] = 2`, `ICER[1] = 2`, `ICPR[1] = 2`
and `IPR[8] = 0x3000`, as after one call. -/
theorem C20_nvic_calls_idempotent_witness :
    (NVIC_Settings 33 3 (NVIC_Settings 33 3 (Machine.holding (Reg.ISER 1) 0xFF))).mem
      = (NVIC_Settings 33 3 (Machine.holding (Reg.ISER 1) 0xFF)).mem ∧
    (NVIC_Settings 33 3 (NVIC_Settings 33 3 (Machine.holding (Reg.ISER 1) 0xFF))).mem
      (Reg.ISER 1) = 2 ∧
    (NVIC_Settings 33 3 (NVIC_Settings 33 3 (Machine.holding (Reg.ISER 1) 0xFF))).mem
      (Reg.IPR 8) = 0x3000 :=
  ⟨(C20_nvic_calls_idempotent 33 3 (Machine.holding (Reg.ISER 1) 0xFF)).2.2.2.2,
   by decide, by decide⟩

/-! ## Claim on the register layout -/

/-- C21: placing the members of `SCG_Type` in declaration order, each at the
next offset that is a multiple of its alignment (4-byte words, byte arrays of
8, 220, 244, 244 and 756 bytes), gives `CSR` at 0x10, `RCCR` at 0x14, `VCCR` at
0x18, `HCCR` at 0x1C, `CLKOUTCNFG` at 0x20, `SOSCCSR` at 0x100, `SIRCCSR` at
0x200, `FIRCCSR` at 0x300 and `SPLLCSR` at 0x600, with the `DIV` register of
each block 4 bytes and the `CFG` register 8 bytes after its `CSR`. -/
theorem C21_scg_register_layout :
    scgOffset SCG_Member.CSR = some 0x10 ∧
    scgOffset SCG_Member.RCCR = some 0x14 ∧
    scgOffset SCG_Member.VCCR = some 0x18 ∧
    scgOffset SCG_Member.HCCR = some 0x1C ∧
    scgOffset SCG_Member.CLKOUTCNFG = some 0x20 ∧
    scgOffset SCG_Member.SOSCCSR = some 0x100 ∧
    scgOffset SCG_Member.SOSCDIV = some (0x100 + 4) ∧
    scgOffset SCG_Member.SOSCCFG = some (0x100 + 8) ∧
    scgOffset SCG_Member.SIRCCSR = some 0x200 ∧
    scgOffset SCG_Member.SIRCDIV = some (0x200 + 4) ∧
    scgOffset SCG_Member.SIRCCFG = some (0x200 + 8) ∧
    scgOffset SCG_Member.FIRCCSR = some 0x300 ∧
    scgOffset SCG_Member.FIRCDIV = some (0x300 + 4) ∧
    scgOffset SCG_Member.FIRCCFG = some (0x300 + 8) ∧
    scgOffset SCG_Member.SPLLCSR = some 0x600 ∧
    scgOffset SCG_Member.SPLLDIV = some (0x600 + 4) ∧
    scgOffset SCG_Member.SPLLCFG = some (0x600 + 8) := by
  decide

/-! ## Port_Init: parameter check -/

/-- With an index of at least 32 the call ends at the read of
`PCR[pinPortIdx]`, before the parameter check, with nothing accessed. -/
theorem port_init_out_of_bounds (cfg : Port_ConfigType) (s : Machine)
    (h : cfg.pinPortIdx ≥ 32) :
    Port_Init cfg s
      = (Except.error (Fault.readOutOfBounds (Reg.PORT_PCR cfg.base cfg.pinPortIdx)), s) := by
  have h1 : ¬ cfg.pinPortIdx < 32 := by omega
  simp [Port_Init, load_checked, Reg.inBounds, h1]

/-- With an index below 32 the call returns `PORT_OK` after one read and one
write of `PCR[pinPortIdx]`. -/
theorem port_init_in_bounds (cfg : Port_ConfigType) (s : Machine) (h : cfg.pinPortIdx < 32) :
    Port_Init cfg s
      = (Except.ok Port_ret_t.PORT_OK,
          store (Reg.PORT_PCR cfg.base cfg.pinPortIdx)
            (portRegValue cfg (s.mem (Reg.PORT_PCR cfg.base cfg.pinPortIdx)))
            (load (Reg.PORT_PCR cfg.base cfg.pinPortIdx) s).2) := by
  have h1 : ¬ cfg.pinPortIdx ≥ 32 := by omega
  simp [Port_Init, load_checked, Reg.inBounds, load, PORT_PCR_COUNT, h, h1]

/-- The call never returns `PORT_ERR_PARA`: the read that precedes the check
is out of bounds for exactly the indices the check rejects. -/
theorem port_init_never_err_para (cfg : Port_ConfigType) (s : Machine) :
    (Port_Init cfg s).1 ≠ Except.ok Port_ret_t.PORT_ERR_PARA := by
  by_cases h : cfg.pinPortIdx < 32
  · rw [port_init_in_bounds cfg s h]
    simp
  · rw [port_init_out_of_bounds cfg s (by omega)]
    simp

theorem clock_names_val_bounds (c : clock_names_t) : 44 ≤ c.val ∧ c.val ≤ 108 := by
  cases c <;> decide

theorem pcc_accessed (cfg : Pcc_ConfigType) (s : Machine) :
    ∀ r ∈ accessedRegs ((Clock_SetPccConfig cfg s).since s),
      r = Reg.PCCn cfg.clockName.val := by
  obtain ⟨n, g, c⟩ := cfg
  cases g with
  | CLK_GATE_DISABLE =>
    rw [since_of_trace_eq (pcc_disabled_trace n c s)]
    simp [accessedRegs]
  | CLK_GATE_ENABLE =>
    by_cases hc : c = CLK_SRC_OFF
    · subst hc
      rw [since_of_trace_eq (pcc_enabled_off_trace n s)]
      simp [accessedRegs]
    · rw [since_of_trace_eq (pcc_enabled_src_trace n c hc s)]
      simp [accessedRegs]

theorem nvic_settings_accessed (id priority : Nat) (s : Machine) :
    accessedRegs ((NVIC_Settings id priority s).since s)
      = [Reg.ICER (id / 32), Reg.ICPR (id / 32), Reg.IPR (id / 4), Reg.ISER (id / 32)] := by
  have ht : (NVIC_Settings id priority s).trace
      = s.trace ++
        [Event.write (Reg.ICER (id / 32)) (u32 (int_to_u32 (shl_int 1 (id % 32)))),
         Event.write (Reg.ICPR (id / 32)) (u32 (int_to_u32 (shl_int 1 (id % 32)))),
         Event.write (Reg.IPR (id / 4))
           (u32 (shl32 ((priority % 256) &&& 0xFF) ((id % 4) * 8 + 4))),
         Event.write (Reg.ISER (id / 32)) (u32 (int_to_u32 (shl_int 1 (id % 32))))] := by
    simp only [NVIC_Settings, NVIC_EnableInterrupt, NVIC_DisableInterrupt,
      NVIC_ClearPendingFlag, NVIC_SetPriority, store_trace,
      List.append_assoc, List.cons_append, List.nil_append]
  rw [since_of_trace_eq ht]
  rfl

/-- C29: for every interrupt number `id` from 0 to 122, `id / 32 < 8` and
`id / 4 < 60`; every value of `clock_names_t` lies between 44 and 108, hence
below 122. Consequently every register accessed by `NVIC_Settings` (which runs
the four other NVIC calls) and by `Clock_SetPccConfig` is inside its array. -/
theorem C29_enumerated_indices_in_bounds (id : Nat) (hid : id ≤ 122) (priority : Nat)
    (cfg : Pcc_ConfigType) (s : Machine) :
    id / 32 < 8 ∧ id / 4 < 60 ∧
    (∀ c : clock_names_t, 44 ≤ c.val ∧ c.val ≤ 108 ∧ c.val < 122) ∧
    (∀ r ∈ accessedRegs ((NVIC_Settings id priority s).since s), r.inBounds = true) ∧
    (∀ r ∈ accessedRegs ((Clock_SetPccConfig cfg s).since s), r.inBounds = true) := by
  have h1 : id / 32 < 8 := by omega
  have h2 : id / 4 < 60 := by omega
  refine ⟨h1, h2, ?_, ?_, ?_⟩
  · intro c
    have := clock_names_val_bounds c
    omega
  · intro r hr
    rw [nvic_settings_accessed] at hr
    simp only [List.mem_cons, List.mem_singleton, List.not_mem_nil, or_false] at hr
    rcases hr with h | h | h | h <;> subst h <;> simp [Reg.inBounds, h1, h2]
  · intro r hr
    rw [pcc_accessed cfg s r hr]
    have := clock_names_val_bounds cfg.clockName
    simp only [Reg.inBounds, decide_eq_true_eq]
    omega

/-- Instance of C29: the largest interrupt number 122 accesses `ICER[3]`,
`ICPR[3]`, `IPR[30]` and `ISER[3]`, and `LPUART2_CLK` accesses `PCCn[108]`. -/
theorem C29_enumerated_indices_in_bounds_witness :
    (122 : Nat) ≤ 122 ∧ 122 / 32 < 8 ∧ 122 / 4 < 60 ∧
    accessedRegs ((NVIC_Settings 122 15 Machine.reset).since Machine.reset)
      = [Reg.ICER 3, Reg.ICPR 3, Reg.IPR 30, Reg.ISER 3] ∧
    clock_names_t.LPUART2_CLK.val = 108 :=
  have h := C29_enumerated_indices_in_bounds 122 (by decide) 15
    ⟨clock_names_t.LPUART2_CLK, clock_gate_t.CLK_GATE_ENABLE,
      peripheral_clock_source_t.CLK_SRC_OP_1⟩ Machine.reset
  ⟨by decide, h.1, h.2.1, by decide, by decide⟩

/-! ## Single-bit masks -/

theorem one_testBit (j : Nat) : (1 : Nat).testBit j = decide (j = 0) := by
  have h : (1 : Nat) = 2 ^ 0 := by norm_num
  rw [h, Nat.testBit_two_pow]
  by_cases h1 : j = 0 <;> simp [h1, eq_comm]

/-- Bits of `1u << k`. -/
theorem bit_testBit (k i : Nat) (hk : k < 32) :
    (shl32 1 k).testBit i = decide (i = k) := by
  rw [shl32_testBit, one_testBit]
  by_cases h : i = k
  · subst h
    simp [hk]
  · have h1 : ¬ (k ≤ i ∧ i - k = 0) := by omega
    by_cases h2 : k ≤ i
    · have h3 : ¬ i - k = 0 := by omega
      simp [h, h2, h3]
    · simp [h, h2]

/-- Bits of `~(1u << k)`. -/
theorem not_bit_testBit (k i : Nat) (hk : k < 32) :
    (not32 (shl32 1 k)).testBit i = (decide (i < 32) && !decide (i = k)) := by
  rw [testBit_not32, testBit_u32, bit_testBit k i hk]
  by_cases h : i < 32 <;> simp [h]

/-- Bits of a word after `|= 1u << k`. -/
theorem set_bit_word (w k i : Nat) (hk : k < 32) :
    (u32 (w ||| shl32 1 k)).testBit i = (decide (i < 32) && (w.testBit i || decide (i = k))) := by
  rw [testBit_u32, Nat.testBit_or, bit_testBit k i hk]

/-- Bits of a word after `&= ~(1u << k)`. -/
theorem clear_bit_word (w k i : Nat) (hk : k < 32) :
    (u32 (w &&& not32 (shl32 1 k))).testBit i
      = (decide (i < 32) && (w.testBit i && !decide (i = k))) := by
  rw [testBit_u32, Nat.testBit_and, not_bit_testBit k i hk]
  by_cases h : i < 32 <;> simp [h]

theorem testBit_u32_self {w : Nat} (hw : w < 2 ^ 32) (i : Nat) :
    (decide (i < 32) && w.testBit i) = w.testBit i := by
  by_cases h : i < 32
  · simp [h]
  · simp [h, testBit_high hw (Nat.le_of_not_lt h)]

/-! ## Claim on GPIO_WriteToOutputPin -/

theorem gpio_write_high (base pin value : Nat) (s : Machine) (hv : u8 value ≠ 0) :
    GPIO_WriteToOutputPin base pin value s
      = or_assign (Reg.GPIO_PDOR base) (shl32 1 (u8 pin)) s := by
  simp [GPIO_WriteToOutputPin, hv, ENABLEMENT]

theorem gpio_write_low (base pin value : Nat) (s : Machine) (hv : u8 value = 0) :
    GPIO_WriteToOutputPin base pin value s
      = and_assign (Reg.GPIO_PDOR base) (not32 (shl32 1 (u8 pin))) s := by
  simp [GPIO_WriteToOutputPin, hv, ENABLEMENT]

/-- C25: for every 32-bit prior content of `PDOR`, every `PinNumber` below 32
and every 8-bit `value`, after `GPIO_WriteToOutputPin` bit `PinNumber` of
`PDOR` is 1 if `value` is not 0 and 0 if it is 0, every other bit of `PDOR` and
every other register are unchanged, and `PDOR` is the only register written. -/
theorem C25_gpio_write_to_output_pin (base pin value : Nat) (s : Machine)
    (hpin : pin < 32) (hval : value < 256) (hw : s.mem (Reg.GPIO_PDOR base) < 2 ^ 32) :
    ((GPIO_WriteToOutputPin base pin value s).mem (Reg.GPIO_PDOR base)).testBit pin
      = decide (value ≠ 0) ∧
    (∀ i, i ≠ pin →
      ((GPIO_WriteToOutputPin base pin value s).mem (Reg.GPIO_PDOR base)).testBit i
        = (s.mem (Reg.GPIO_PDOR base)).testBit i) ∧
    (∀ r, r ≠ Reg.GPIO_PDOR base → (GPIO_WriteToOutputPin base pin value s).mem r = s.mem r) ∧
    writtenRegs ((GPIO_WriteToOutputPin base pin value s).since s) = [Reg.GPIO_PDOR base] := by
  have hp8 : u8 pin = pin := Nat.mod_eq_of_lt (by omega)
  have hv8 : u8 value = value := Nat.mod_eq_of_lt hval
  by_cases hv : value = 0
  · have hv0 : u8 value = 0 := by rw [hv8]; exact hv
    rw [gpio_write_low base pin value s hv0, hp8]
    refine ⟨?_, ?_, ?_, ?_⟩
    · rw [and_assign_mem, if_pos rfl, clear_bit_word _ _ _ hpin]
      simp [hv]
    · intro i hi
      rw [and_assign_mem, if_pos rfl, clear_bit_word _ _ _ hpin]
      simp [hi, testBit_u32_self hw]
    · intro r hr
      rw [and_assign_mem, if_neg hr]
    · rw [since_of_trace_eq (and_assign_trace _ _ s)]
      simp [writtenRegs]
  · have hv0 : u8 value ≠ 0 := by rw [hv8]; exact hv
    rw [gpio_write_high base pin value s hv0, hp8]
    refine ⟨?_, ?_, ?_, ?_⟩
    · rw [or_assign_mem, if_pos rfl, set_bit_word _ _ _ hpin]
      simp [hv, hpin]
    · intro i hi
      rw [or_assign_mem, if_pos rfl, set_bit_word _ _ _ hpin]
      simp [hi, testBit_u32_self hw]
    · intro r hr
      rw [or_assign_mem, if_neg hr]
    · rw [since_of_trace_eq (or_assign_trace _ _ s)]
      simp [writtenRegs]

/-- Instance of C25: on the GPIO block at `0x400FF000` with `PDOR = 0x21`,
writing 0 to pin 5 leaves `0x01` and writing 7 to pin 3 leaves `0x29`. -/
theorem C25_gpio_write_to_output_pin_witness :
    (5 : Nat) < 32 ∧ (0 : Nat) < 256 ∧
    ((GPIO_WriteToOutputPin 0x400FF000 5 0
        (Machine.holding (Reg.GPIO_PDOR 0x400FF000) 0x21)).mem
      (Reg.GPIO_PDOR 0x400FF000)).testBit 5 = false ∧
    (GPIO_WriteToOutputPin 0x400FF000 5 0
        (Machine.holding (Reg.GPIO_PDOR 0x400FF000) 0x21)).mem
      (Reg.GPIO_PDOR 0x400FF000) = 0x01 ∧
    (GPIO_WriteToOutputPin 0x400FF000 3 7
        (Machine.holding (Reg.GPIO_PDOR 0x400FF000) 0x21)).mem
      (Reg.GPIO_PDOR 0x400FF000) = 0x29 :=
  ⟨by decide, by decide,
   (C25_gpio_write_to_output_pin 0x400FF000 5 0
      (Machine.holding (Reg.GPIO_PDOR 0x400FF000) 0x21)
      (by decide) (by decide) (by decide)).1,
   by decide, by decide⟩

/-! ## Claim on Systick_Init -/

theorem systick_csr_mem (cfg : Systick_ConfigType) (s : Machine) :
    (Systick_Init cfg s).mem Reg.SYST_CSR
      = if u8 cfg.isInterruptEnabled ≠ 0 then
          u32 (u32 (s.mem Reg.SYST_CSR &&& not32 (shl32 1 0)) ||| shl32 1 1)
        else
          u32 (u32 (s.mem Reg.SYST_CSR &&& not32 (shl32 1 0)) &&& not32 (shl32 1 1)) := by
  by_cases hp : u32 cfg.period = 0 <;> by_cases hi : u8 cfg.isInterruptEnabled = 0 <;>
    simp [Systick_Init, hp, hi, or_assign_mem, and_assign_mem, store_mem, ENABLEMENT, BIT0, BIT1]

theorem systick_rvr_mem (cfg : Systick_ConfigType) (s : Machine) :
    (Systick_Init cfg s).mem Reg.SYST_RVR
      = if u32 cfg.period ≠ 0 then u32 (u32 (u32 cfg.period * u32 cfg.fSystick))
        else u32 0xFFFFFF := by
  by_cases hp : u32 cfg.period = 0 <;> by_cases hi : u8 cfg.isInterruptEnabled = 0 <;>
    simp [Systick_Init, hp, hi, or_assign_mem, and_assign_mem, store_mem]

theorem systick_cvr_mem (cfg : Systick_ConfigType) (s : Machine) :
    (Systick_Init cfg s).mem Reg.SYST_CVR = 0 := by
  by_cases hp : u32 cfg.period = 0 <;> by_cases hi : u8 cfg.isInterruptEnabled = 0 <;>
    simp [Systick_Init, hp, hi, or_assign_mem, and_assign_mem, store_mem, CLEAR_SYST_CVR, u32]

/-- C26: for every prior state with a 32-bit `CSR` and every configuration
(`period`, `fSystick` being `unsigned int` and `isInterruptEnabled` an
`unsigned char`), after `Systick_Init` the register `RVR` holds
`period * fSystick` when `period` is not 0 and the product is at most
16,777,215, and `0xFFFFFF` when `period` is 0; `CVR` holds 0; bit 0 of `CSR` is
0; bit 1 of `CSR` is 1 exactly when `isInterruptEnabled` is not 0; every other
bit of `CSR` is unchanged. -/
theorem C26_systick_init_postcondition (cfg : Systick_ConfigType) (s : Machine)
    (hper : cfg.period < 2 ^ 32) (hf : cfg.fSystick < 2 ^ 32)
    (hie : cfg.isInterruptEnabled < 256) (hw : s.mem Reg.SYST_CSR < 2 ^ 32) :
    (cfg.period ≠ 0 → cfg.period * cfg.fSystick ≤ 16777215 →
      (Systick_Init cfg s).mem Reg.SYST_RVR = cfg.period * cfg.fSystick) ∧
    (cfg.period = 0 → (Systick_Init cfg s).mem Reg.SYST_RVR = 0xFFFFFF) ∧
    (Systick_Init cfg s).mem Reg.SYST_CVR = 0 ∧
    ((Systick_Init cfg s).mem Reg.SYST_CSR).testBit 0 = false ∧
    ((Systick_Init cfg s).mem Reg.SYST_CSR).testBit 1
      = decide (cfg.isInterruptEnabled ≠ 0) ∧
    (∀ i, i ≠ 0 → i ≠ 1 →
      ((Systick_Init cfg s).mem Reg.SYST_CSR).testBit i
        = (s.mem Reg.SYST_CSR).testBit i) := by
  have hp32 : u32 cfg.period = cfg.period := u32_of_lt hper
  have hf32 : u32 cfg.fSystick = cfg.fSystick := u32_of_lt hf
  have hi8 : u8 cfg.isInterruptEnabled = cfg.isInterruptEnabled := Nat.mod_eq_of_lt hie
  refine ⟨?_, ?_, systick_cvr_mem cfg s, ?_, ?_, ?_⟩
  · intro hp hprod
    have hlt : cfg.period * cfg.fSystick < 2 ^ 32 := by omega
    rw [systick_rvr_mem, hp32, hf32, if_pos hp, u32_u32, u32_of_lt hlt]
  · intro hp
    rw [systick_rvr_mem, hp32, if_neg (by simpa using hp)]
    decide
  · rw [systick_csr_mem]
    split
    · rw [set_bit_word _ _ _ (by norm_num), clear_bit_word _ _ _ (by norm_num)]
      simp
    · rw [clear_bit_word _ _ _ (by norm_num), clear_bit_word _ _ _ (by norm_num)]
      simp
  · rw [systick_csr_mem, hi8]
    by_cases h : cfg.isInterruptEnabled = 0
    · rw [if_neg (by simpa using h), clear_bit_word _ _ _ (by norm_num)]
      simp [h]
    · rw [if_pos h, set_bit_word _ _ _ (by norm_num)]
      simp [h]
  · intro i h0 h1
    rw [systick_csr_mem]
    split
    · rw [set_bit_word _ _ _ (by norm_num), clear_bit_word _ _ _ (by norm_num)]
      simp [h0, h1, testBit_u32_self hw]
    · rw [clear_bit_word _ _ _ (by norm_num), clear_bit_word _ _ _ (by norm_num)]
      simp [h0, h1, testBit_u32_self hw]

/-- Instance of C26: with `CSR = 0x10007`, a 48000 kHz clock, a period of 1 ms
and the interrupt requested, `RVR = 48000`, `CVR = 0` and `CSR = 0x10006`;
with a period of 0 and no interrupt, `RVR = 0xFFFFFF` and `CSR = 0x10004`. -/
theorem C26_systick_init_postcondition_witness :
    (Systick_Init ⟨48000, 1, 1⟩ (Machine.holding Reg.SYST_CSR 0x10007)).mem Reg.SYST_RVR
      = 1 * 48000 ∧
    (Systick_Init ⟨48000, 1, 1⟩ (Machine.holding Reg.SYST_CSR 0x10007)).mem Reg.SYST_CVR = 0 ∧
    (Systick_Init ⟨48000, 1, 1⟩ (Machine.holding Reg.SYST_CSR 0x10007)).mem Reg.SYST_CSR
      = 0x10006 ∧
    (Systick_Init ⟨48000, 0, 0⟩ (Machine.holding Reg.SYST_CSR 0x10007)).mem Reg.SYST_RVR
      = 0xFFFFFF ∧
    (Systick_Init ⟨48000, 0, 0⟩ (Machine.holding Reg.SYST_CSR 0x10007)).mem Reg.SYST_CSR
      = 0x10004 :=
  have h := C26_systick_init_postcondition ⟨48000, 1, 1⟩
    (Machine.holding Reg.SYST_CSR 0x10007) (by decide) (by decide) (by decide) (by decide)
  have h0 := C26_systick_init_postcondition ⟨48000, 0, 0⟩
    (Machine.holding Reg.SYST_CSR 0x10007) (by decide) (by decide) (by decide) (by decide)
  ⟨h.1 (by decide) (by decide), h.2.2.1, by decide, h0.2.1 rfl, by decide⟩

/-! ## Delay_Timer -/

theorem check_bit16_eq (v : Nat) : (CHECK_BIT (u32 v) BIT16 ≠ 0) ↔ countFlag v = true := by
  simp [CHECK_BIT, BIT16, countFlag, Nat.testBit, Nat.and_comm]

theorem delayLoop_cons_flag (ms count v : Nat) (vs : List Nat) (s : Machine)
    (hv : countFlag v = true) :
    delayLoop ms count (v :: vs) s
      = if u32 (count + 1) = ms then
          ({ mem := fun x => if x = Reg.SYST_CSR then u32 v else s.mem x
             trace := s.trace ++ [Event.read Reg.SYST_CSR (u32 v)] }, true)
        else delayLoop ms (u32 (count + 1)) vs
          { mem := fun x => if x = Reg.SYST_CSR then u32 v else s.mem x
            trace := s.trace ++ [Event.read Reg.SYST_CSR (u32 v)] } := by
  have h := (check_bit16_eq v).mpr hv
  simp only [delayLoop, if_pos h]

theorem delayLoop_cons_noflag (ms count v : Nat) (vs : List Nat) (s : Machine)
    (hv : countFlag v = false) :
    delayLoop ms count (v :: vs) s
      = if count = ms then
          ({ mem := fun x => if x = Reg.SYST_CSR then u32 v else s.mem x
             trace := s.trace ++ [Event.read Reg.SYST_CSR (u32 v)] }, true)
        else delayLoop ms count vs
          { mem := fun x => if x = Reg.SYST_CSR then u32 v else s.mem x
            trace := s.trace ++ [Event.read Reg.SYST_CSR (u32 v)] } := by
  have h : ¬ (CHECK_BIT (u32 v) BIT16 ≠ 0) := by
    rw [check_bit16_eq, hv]
    exact Bool.false_ne_true
  simp only [delayLoop, if_neg h]

/-- The loop is still running when the count cannot reach `ms` on the supplied
values. -/
theorem delayLoop_spinning (ms : Nat) (vs : List Nat) (count : Nat) (s : Machine)
    (h : count + vs.countP countFlag < ms) : (delayLoop ms count vs s).2 = false := by
  induction vs generalizing count s with
  | nil => rfl
  | cons v vs ih =>
    by_cases hv : countFlag v = true
    · rw [List.countP_cons_of_pos _ _ hv] at h
      have hle : u32 (count + 1) ≤ count + 1 := Nat.mod_le _ _
      rw [delayLoop_cons_flag ms count v vs s hv, if_neg (by omega)]
      exact ih _ _ (by omega)
    · have hv0 : countFlag v = false := by simpa using hv
      rw [List.countP_cons_of_neg _ _ hv] at h
      rw [delayLoop_cons_noflag ms count v vs s hv0, if_neg (by omega)]
      exact ih _ _ h

/-- The loop ends at the read that brings the count to `ms`. -/
theorem delayLoop_returns (ms : Nat) (hms : ms < 2 ^ 32) (pre : List Nat) (v : Nat)
    (post : List Nat) (count : Nat) (s : Machine)
    (hcount : count + pre.countP countFlag + 1 = ms) (hv : countFlag v = true) :
    (delayLoop ms count (pre ++ v :: post) s).2 = true ∧
    (delayLoop ms count (pre ++ v :: post) s).1.trace
      = s.trace ++ (pre ++ [v]).map (fun x => Event.read Reg.SYST_CSR (u32 x)) := by
  induction pre generalizing count s with
  | nil =>
    simp only [List.countP_nil, Nat.add_zero] at hcount
    have h1 : u32 (count + 1) = ms := by rw [hcount]; exact u32_of_lt hms
    rw [List.nil_append, delayLoop_cons_flag ms count v post s hv, if_pos h1]
    simp
  | cons a pre ih =>
    by_cases ha : countFlag a = true
    · rw [List.countP_cons_of_pos _ _ ha] at hcount
      have h1 : u32 (count + 1) = count + 1 := u32_of_lt (by omega)
      rw [List.cons_append, delayLoop_cons_flag ms count a _ s ha, h1, if_neg (by omega)]
      have h2 := ih (count + 1)
        { mem := fun x => if x = Reg.SYST_CSR then u32 a else s.mem x
          trace := s.trace ++ [Event.read Reg.SYST_CSR (u32 a)] } (by omega)
      refine ⟨h2.1, ?_⟩
      rw [h2.2]
      simp
    · have ha0 : countFlag a = false := by simpa using ha
      rw [List.countP_cons_of_neg _ _ ha] at hcount
      rw [List.cons_append, delayLoop_cons_noflag ms count a _ s ha0, if_neg (by omega)]
      have h2 := ih count
        { mem := fun x => if x = Reg.SYST_CSR then u32 a else s.mem x
          trace := s.trace ++ [Event.read Reg.SYST_CSR (u32 a)] } hcount
      refine ⟨h2.1, ?_⟩
      rw [h2.2]
      simp

theorem countP_take_le (p : Nat → Bool) (l : List Nat) (k : Nat) :
    (l.take k).countP p ≤ l.countP p :=
  List.Sublist.countP_le p (List.take_sublist k l)

/-- C27: let the hardware supply the reads of the SysTick `CSR` as a sequence
in which `v` is the `ms`-th value with bit 16 set (`pre`, the values before it,
holds `ms - 1` such values), with `ms ≥ 1` an `unsigned int`. Then
`Delay_Timer ms` returns, its accesses are exactly the reads of `pre` and of
`v`, one per loop iteration, and it has not returned after any
`k ≤ pre.length` reads. -/
theorem C27_delay_timer_counts_ticks (ms : Nat) (pre post : List Nat) (v : Nat)
    (s : Machine) (hms : ms < 2 ^ 32)
    (hpre : pre.countP countFlag + 1 = ms) (hv : countFlag v = true) :
    (Delay_Timer ms (pre ++ v :: post) s).2 = true ∧
    (Delay_Timer ms (pre ++ v :: post) s).1.since s
      = (pre ++ [v]).map (fun x => Event.read Reg.SYST_CSR (u32 x)) ∧
    (∀ k, k ≤ pre.length → (Delay_Timer ms ((pre ++ v :: post).take k) s).2 = false) := by
  have h32 : u32 ms = ms := u32_of_lt hms
  have h := delayLoop_returns ms hms pre v post 0 s (by omega) hv
  unfold Delay_Timer
  rw [h32]
  refine ⟨h.1, since_of_trace_eq h.2, ?_⟩
  intro k hk
  rw [List.take_append_of_le_length hk]
  apply delayLoop_spinning
  have := countP_take_le countFlag pre k
  omega

/-- Instance of C27 with `ms = 2`: on the reads `0, 0x10000, 4, 0x10001, 5`
the function returns after the fourth read and has not returned after three. -/
theorem C27_delay_timer_counts_ticks_witness :
    (Delay_Timer 2 ([0, 0x10000, 4] ++ 0x10001 :: [5]) Machine.reset).2 = true ∧
    (Delay_Timer 2 ([0, 0x10000, 4] ++ 0x10001 :: [5]) Machine.reset).1.trace
      = [Event.read Reg.SYST_CSR 0, Event.read Reg.SYST_CSR 0x10000,
         Event.read Reg.SYST_CSR 4, Event.read Reg.SYST_CSR 0x10001] ∧
    (Delay_Timer 2 (([0, 0x10000, 4] ++ 0x10001 :: [5]).take 3) Machine.reset).2 = false :=
  have h := C27_delay_timer_counts_ticks 2 [0, 0x10000, 4] [5] 0x10001 Machine.reset
    (by decide) (by decide) (by decide)
  ⟨h.1, h.2.1, h.2.2 3 (by decide)⟩

/-- C28 fails on the code: `Delay_Timer 0` increments `count` before comparing
it with `ms`. When the first value read from `CSR` has bit 16 set, `count` is 1
after the first read and the function has not returned, neither then nor after
the following reads; it returns after the first read only when bit 16 of that
read is clear. -/
theorem C28_delay_timer_zero_waits_on_count_flag :
    (Delay_Timer 0 [0x10000] Machine.reset).2 = false ∧
    (Delay_Timer 0 [0x10000, 0, 0x10000, 0] Machine.reset).2 = false ∧
    (Delay_Timer 0 [0x10000, 0, 0x10000, 0] Machine.reset).1.trace
      = [Event.read Reg.SYST_CSR 0x10000, Event.read Reg.SYST_CSR 0,
         Event.read Reg.SYST_CSR 0x10000, Event.read Reg.SYST_CSR 0] ∧
    (Delay_Timer 0 [0, 0x10000] Machine.reset).2 = true ∧
    (Delay_Timer 0 [0, 0x10000] Machine.reset).1.trace = [Event.read Reg.SYST_CSR 0] := by
  decide

/-! ## Port_Init: the configured word -/

theorem port_init_mem (cfg : Port_ConfigType) (s : Machine) (h : cfg.pinPortIdx < 32)
    (x : Reg) :
    (Port_Init cfg s).2.mem x
      = if x = Reg.PORT_PCR cfg.base cfg.pinPortIdx then
          u32 (portRegValue cfg (s.mem (Reg.PORT_PCR cfg.base cfg.pinPortIdx)))
        else s.mem x := by
  rw [port_init_in_bounds cfg s h]
  simp [load, store]

theorem port_init_trace (cfg : Port_ConfigType) (s : Machine) (h : cfg.pinPortIdx < 32) :
    (Port_Init cfg s).2.trace
      = s.trace ++
        [Event.read (Reg.PORT_PCR cfg.base cfg.pinPortIdx)
           (s.mem (Reg.PORT_PCR cfg.base cfg.pinPortIdx)),
         Event.write (Reg.PORT_PCR cfg.base cfg.pinPortIdx)
           (u32 (portRegValue cfg (s.mem (Reg.PORT_PCR cfg.base cfg.pinPortIdx))))] := by
  rw [port_init_in_bounds cfg s h]
  simp [load, store]

theorem mux_mask_testBit (i : Nat) :
    (not32 (shl32 1 8 ||| shl32 1 9 ||| shl32 1 10)).testBit i
      = (decide (i < 32) && !(decide (i = 8) || decide (i = 9) || decide (i = 10))) := by
  rw [testBit_not32, testBit_u32, Nat.testBit_or, Nat.testBit_or,
    bit_testBit 8 i (by norm_num), bit_testBit 9 i (by norm_num),
    bit_testBit 10 i (by norm_num)]
  by_cases h : i < 32 <;> simp [h]

theorem int_mask_testBit (i : Nat) :
    (not32 (shl32 1 16 ||| shl32 1 17 ||| shl32 1 18 ||| shl32 1 19)).testBit i
      = (decide (i < 32) &&
          !(decide (i = 16) || decide (i = 17) || decide (i = 18) || decide (i = 19))) := by
  rw [testBit_not32, testBit_u32, Nat.testBit_or, Nat.testBit_or, Nat.testBit_or,
    bit_testBit 16 i (by norm_num), bit_testBit 17 i (by norm_num),
    bit_testBit 18 i (by norm_num), bit_testBit 19 i (by norm_num)]
  by_cases h : i < 32 <;> simp [h]

/-- Bits of the pull step. -/
theorem pull_step_testBit (p : Port_pull_config_t) (w i : Nat) :
    (match p with
      | Port_pull_config_t.PORT_NO_PULL_UP_DOWN => w &&& not32 (shl32 1 1)
      | Port_pull_config_t.PORT_PULL_DOWN => (w &&& not32 (shl32 1 0)) ||| shl32 1 1
      | Port_pull_config_t.PORT_PULL_UP => (w ||| shl32 1 0) ||| shl32 1 1).testBit i
      = (match p with
        | Port_pull_config_t.PORT_NO_PULL_UP_DOWN =>
          w.testBit i && (decide (i < 32) && !decide (i = 1))
        | Port_pull_config_t.PORT_PULL_DOWN =>
          (w.testBit i && (decide (i < 32) && !decide (i = 0))) || decide (i = 1)
        | Port_pull_config_t.PORT_PULL_UP =>
          (w.testBit i || decide (i = 0)) || decide (i = 1)) := by
  cases p <;>
    simp only [Nat.testBit_and, Nat.testBit_or, not_bit_testBit 1 i (by norm_num),
      not_bit_testBit 0 i (by norm_num), bit_testBit 0 i (by norm_num),
      bit_testBit 1 i (by norm_num)]

/-- Bits of the word `Port_Init` computes from the value `w` it read. -/
theorem portRegValue_testBit (cfg : Port_ConfigType) (w i : Nat) :
    (portRegValue cfg w).testBit i
      = (((((match cfg.pullConfig with
              | Port_pull_config_t.PORT_NO_PULL_UP_DOWN =>
                w.testBit i && (decide (i < 32) && !decide (i = 1))
              | Port_pull_config_t.PORT_PULL_DOWN =>
                (w.testBit i && (decide (i < 32) && !decide (i = 0))) || decide (i = 1)
              | Port_pull_config_t.PORT_PULL_UP =>
                (w.testBit i || decide (i = 0)) || decide (i = 1))
            && (decide (i < 32) && !decide (i = 6)))
          || decide (cfg.driveSelect = Port_drive_strength_t.PORT_HIGH_DRV_STRENGTH ∧ i = 6))
          && (decide (i < 32) && !(decide (i = 8) || decide (i = 9) || decide (i = 10)))
          || (decide (i < 32) && (decide (8 ≤ i) && cfg.mux.val.testBit (i - 8))))
          && (decide (i < 32) &&
              !(decide (i = 16) || decide (i = 17) || decide (i = 18) || decide (i = 19)))
          || (decide (i < 32) && (decide (16 ≤ i) && cfg.intConfig.val.testBit (i - 16)))) := by
  obtain ⟨base, idx, p, d, m, ic⟩ := cfg
  cases d <;>
    simp only [portRegValue, ENABLEMENT, BIT0, BIT1, BIT6, BIT8, BIT9, BIT10, BIT16, BIT17,
      BIT18, BIT19, Port_drive_strength_t.val, Nat.testBit_and, Nat.testBit_or,
      pull_step_testBit, mux_mask_testBit, int_mask_testBit, shl32_testBit m.val,
      shl32_testBit ic.val, not_bit_testBit 6 i (by norm_num), bit_testBit 6 i (by norm_num),
      if_true, if_false, Nat.zero_ne_one, Nat.one_ne_zero] <;>
    simp

theorem port_mux_val_lt (m : Port_mux_t) : m.val < 8 := by
  cases m <;> decide

theorem port_interrupt_config_val_lt (c : Port_interrupt_config_t) : c.val < 16 := by
  cases c <;> decide

theorem testBit_of_lt_16 {d j : Nat} (hd : d < 16) (hj : 4 ≤ j) : d.testBit j = false :=
  Nat.testBit_lt_two_pow (lt_of_lt_of_le hd (by
    calc 16 = 2 ^ 4 := by norm_num
      _ ≤ 2 ^ j := Nat.pow_le_pow_right (by norm_num) hj))

theorem fifteen_testBit (j : Nat) : (0xF : Nat).testBit j = decide (j < 4) :=
  Nat.testBit_two_pow_sub_one 4 j

/-! ## Claims on the configured pin control word -/

/-- C23: for every 32-bit prior content of `PCR[pinPortIdx]` with
`pinPortIdx < 32` and every configuration, after `Port_Init` bits 8 to 10 of
that word equal `mux`, bits 16 to 19 equal `intConfig` and bit 6 equals
`driveSelect`, whatever those bits held before; every bit outside
0, 1, 6, 8 to 10 and 16 to 19 is unchanged, and so is every other register. -/
theorem C23_port_init_overwrites_fields (cfg : Port_ConfigType) (s : Machine)
    (hidx : cfg.pinPortIdx < 32)
    (hw : s.mem (Reg.PORT_PCR cfg.base cfg.pinPortIdx) < 2 ^ 32) :
    ((Port_Init cfg s).2.mem (Reg.PORT_PCR cfg.base cfg.pinPortIdx) >>> 8) &&& 7
      = cfg.mux.val ∧
    ((Port_Init cfg s).2.mem (Reg.PORT_PCR cfg.base cfg.pinPortIdx) >>> 16) &&& 0xF
      = cfg.intConfig.val ∧
    ((Port_Init cfg s).2.mem (Reg.PORT_PCR cfg.base cfg.pinPortIdx)).testBit 6
      = decide (cfg.driveSelect.val = 1) ∧
    (∀ i, i ≠ 0 → i ≠ 1 → i ≠ 6 → ¬ (8 ≤ i ∧ i ≤ 10) → ¬ (16 ≤ i ∧ i ≤ 19) →
      ((Port_Init cfg s).2.mem (Reg.PORT_PCR cfg.base cfg.pinPortIdx)).testBit i
        = (s.mem (Reg.PORT_PCR cfg.base cfg.pinPortIdx)).testBit i) ∧
    (∀ r, r ≠ Reg.PORT_PCR cfg.base cfg.pinPortIdx → (Port_Init cfg s).2.mem r = s.mem r) := by
  have hm := port_mux_val_lt cfg.mux
  have hc := port_interrupt_config_val_lt cfg.intConfig
  refine ⟨?_, ?_, ?_, ?_, ?_⟩
  · apply Nat.eq_of_testBit_eq
    intro j
    rw [Nat.testBit_and, Nat.testBit_shiftRight, port_init_mem cfg s hidx, if_pos rfl,
      testBit_u32, portRegValue_testBit, seven_testBit]
    by_cases hj : j < 3
    · interval_cases j <;> simp
    · simp [hj, testBit_of_lt_8 hm (Nat.le_of_not_lt hj)]
  · apply Nat.eq_of_testBit_eq
    intro j
    rw [Nat.testBit_and, Nat.testBit_shiftRight, port_init_mem cfg s hidx, if_pos rfl,
      testBit_u32, portRegValue_testBit, fifteen_testBit]
    by_cases hj : j < 4
    · interval_cases j <;> simp
    · simp [hj, testBit_of_lt_16 hc (Nat.le_of_not_lt hj)]
  · rw [port_init_mem cfg s hidx, if_pos rfl, testBit_u32, portRegValue_testBit]
    cases cfg.driveSelect <;> simp [Port_drive_strength_t.val]
  · intro i h0 h1 h6 h8 h16
    rw [port_init_mem cfg s hidx, if_pos rfl, testBit_u32, portRegValue_testBit]
    have e8 : i ≠ 8 := by omega
    have e9 : i ≠ 9 := by omega
    have e10 : i ≠ 10 := by omega
    have e16 : i ≠ 16 := by omega
    have e17 : i ≠ 17 := by omega
    have e18 : i ≠ 18 := by omega
    have e19 : i ≠ 19 := by omega
    have hmux : (decide (8 ≤ i) && cfg.mux.val.testBit (i - 8)) = false := by
      by_cases h : 8 ≤ i
      · simp [testBit_of_lt_8 hm (show 3 ≤ i - 8 by omega)]
      · simp [h]
    have hint : (decide (16 ≤ i) && cfg.intConfig.val.testBit (i - 16)) = false := by
      by_cases h : 16 ≤ i
      · simp [testBit_of_lt_16 hc (show 4 ≤ i - 16 by omega)]
      · simp [h]
    rw [hmux, hint]
    by_cases h32 : i < 32
    · cases cfg.pullConfig <;> simp [h0, h1, h6, e8, e9, e10, e16, e17, e18, e19, h32]
    · simp [h32, testBit_high hw (Nat.le_of_not_lt h32)]
  · intro r hr
    rw [port_init_mem cfg s hidx, if_neg hr]

/-- Instance of C23: with `PCR[3]` of port A holding `0xFFFFFFFF`, pull-up,
high drive, mux `PORT_MUX_AS_GPIO` (1) and interrupt on rising edge (9) leave
`0xFFF9F9FF`: mux field 1, interrupt field 9, bit 6 set, bit 31 kept. -/
theorem C23_port_init_overwrites_fields_witness :
    (3 : Nat) < 32 ∧ (0xFFFFFFFF : Nat) < 2 ^ 32 ∧
    ((Port_Init ⟨PORTA_BASE, 3, Port_pull_config_t.PORT_PULL_UP,
        Port_drive_strength_t.PORT_HIGH_DRV_STRENGTH, Port_mux_t.PORT_MUX_AS_GPIO,
        Port_interrupt_config_t.PORT_INT_RISING_EDGE⟩
        (Machine.holding (Reg.PORT_PCR PORTA_BASE 3) 0xFFFFFFFF)).2.mem
      (Reg.PORT_PCR PORTA_BASE 3) >>> 8) &&& 7 = 1 ∧
    ((Port_Init ⟨PORTA_BASE, 3, Port_pull_config_t.PORT_PULL_UP,
        Port_drive_strength_t.PORT_HIGH_DRV_STRENGTH, Port_mux_t.PORT_MUX_AS_GPIO,
        Port_interrupt_config_t.PORT_INT_RISING_EDGE⟩
        (Machine.holding (Reg.PORT_PCR PORTA_BASE 3) 0xFFFFFFFF)).2.mem
      (Reg.PORT_PCR PORTA_BASE 3) >>> 16) &&& 0xF = 9 ∧
    (Port_Init ⟨PORTA_BASE, 3, Port_pull_config_t.PORT_PULL_UP,
        Port_drive_strength_t.PORT_HIGH_DRV_STRENGTH, Port_mux_t.PORT_MUX_AS_GPIO,
        Port_interrupt_config_t.PORT_INT_RISING_EDGE⟩
        (Machine.holding (Reg.PORT_PCR PORTA_BASE 3) 0xFFFFFFFF)).2.mem
      (Reg.PORT_PCR PORTA_BASE 3) = 0xFFF9F9FF :=
  have h := C23_port_init_overwrites_fields
    ⟨PORTA_BASE, 3, Port_pull_config_t.PORT_PULL_UP,
      Port_drive_strength_t.PORT_HIGH_DRV_STRENGTH, Port_mux_t.PORT_MUX_AS_GPIO,
      Port_interrupt_config_t.PORT_INT_RISING_EDGE⟩
    (Machine.holding (Reg.PORT_PCR PORTA_BASE 3) 0xFFFFFFFF) (by decide) (by decide)
  ⟨by decide, by decide, h.1, h.2.1, by decide⟩

/-- C24: for every prior content of `PCR[pinPortIdx]` with `pinPortIdx < 32`,
after `Port_Init` bit 1 is 0 and bit 0 is unchanged when `pullConfig` is
`PORT_NO_PULL_UP_DOWN`, bits 1 and 0 are 1 and 0 when it is `PORT_PULL_DOWN`,
and bits 1 and 0 are 1 and 1 when it is `PORT_PULL_UP`. -/
theorem C24_port_init_pull_selection (cfg : Port_ConfigType) (s : Machine)
    (hidx : cfg.pinPortIdx < 32) :
    (cfg.pullConfig = Port_pull_config_t.PORT_NO_PULL_UP_DOWN →
      ((Port_Init cfg s).2.mem (Reg.PORT_PCR cfg.base cfg.pinPortIdx)).testBit 1 = false ∧
      ((Port_Init cfg s).2.mem (Reg.PORT_PCR cfg.base cfg.pinPortIdx)).testBit 0
        = (s.mem (Reg.PORT_PCR cfg.base cfg.pinPortIdx)).testBit 0) ∧
    (cfg.pullConfig = Port_pull_config_t.PORT_PULL_DOWN →
      ((Port_Init cfg s).2.mem (Reg.PORT_PCR cfg.base cfg.pinPortIdx)).testBit 1 = true ∧
      ((Port_Init cfg s).2.mem (Reg.PORT_PCR cfg.base cfg.pinPortIdx)).testBit 0 = false) ∧
    (cfg.pullConfig = Port_pull_config_t.PORT_PULL_UP →
      ((Port_Init cfg s).2.mem (Reg.PORT_PCR cfg.base cfg.pinPortIdx)).testBit 1 = true ∧
      ((Port_Init cfg s).2.mem (Reg.PORT_PCR cfg.base cfg.pinPortIdx)).testBit 0 = true) := by
  refine ⟨?_, ?_, ?_⟩ <;> intro hp <;> constructor <;>
    (rw [port_init_mem cfg s hidx, if_pos rfl, testBit_u32, portRegValue_testBit, hp]
     simp)

/-- Instance of C24: on `PCR[3]` of port A holding `0x3`, no pull leaves bits
1, 0 at 0, 1; pull-down leaves 1, 0; on a cleared word pull-up leaves 1, 1. -/
theorem C24_port_init_pull_selection_witness :
    ((Port_Init ⟨PORTA_BASE, 3, Port_pull_config_t.PORT_NO_PULL_UP_DOWN,
        Port_drive_strength_t.PORT_LOW_DRV_STRENGTH, Port_mux_t.PORT_MUX_AS_GPIO,
        Port_interrupt_config_t.PORT_DMA_INT_DISABLED⟩
        (Machine.holding (Reg.PORT_PCR PORTA_BASE 3) 0x3)).2.mem
      (Reg.PORT_PCR PORTA_BASE 3)).testBit 1 = false ∧
    (Port_Init ⟨PORTA_BASE, 3, Port_pull_config_t.PORT_NO_PULL_UP_DOWN,
        Port_drive_strength_t.PORT_LOW_DRV_STRENGTH, Port_mux_t.PORT_MUX_AS_GPIO,
        Port_interrupt_config_t.PORT_DMA_INT_DISABLED⟩
        (Machine.holding (Reg.PORT_PCR PORTA_BASE 3) 0x3)).2.mem
      (Reg.PORT_PCR PORTA_BASE 3) = 0x101 ∧
    (Port_Init ⟨PORTA_BASE, 3, Port_pull_config_t.PORT_PULL_DOWN,
        Port_drive_strength_t.PORT_LOW_DRV_STRENGTH, Port_mux_t.PORT_MUX_AS_GPIO,
        Port_interrupt_config_t.PORT_DMA_INT_DISABLED⟩
        (Machine.holding (Reg.PORT_PCR PORTA_BASE 3) 0x3)).2.mem
      (Reg.PORT_PCR PORTA_BASE 3) = 0x102 ∧
    (Port_Init ⟨PORTA_BASE, 3, Port_pull_config_t.PORT_PULL_UP,
        Port_drive_strength_t.PORT_LOW_DRV_STRENGTH, Port_mux_t.PORT_MUX_AS_GPIO,
        Port_interrupt_config_t.PORT_DMA_INT_DISABLED⟩
        Machine.reset).2.mem
      (Reg.PORT_PCR PORTA_BASE 3) = 0x103 :=
  have h := C24_port_init_pull_selection
    ⟨PORTA_BASE, 3, Port_pull_config_t.PORT_NO_PULL_UP_DOWN,
      Port_drive_strength_t.PORT_LOW_DRV_STRENGTH, Port_mux_t.PORT_MUX_AS_GPIO,
      Port_interrupt_config_t.PORT_DMA_INT_DISABLED⟩
    (Machine.holding (Reg.PORT_PCR PORTA_BASE 3) 0x3) (by decide)
  ⟨(h.1 rfl).1, by decide, by decide, by decide⟩

/-! ## Clock_SetPccConfig: exact effect with the gate requested enabled -/

/-- Bits of the word left in the addressed PCC register when the gate is
requested enabled, for any requested source. -/
theorem pcc_enabled_bits (n : clock_names_t) (c : peripheral_clock_source_t) (s : Machine)
    (i : Nat) :
    ((Clock_SetPccConfig ⟨n, CLK_GATE_ENABLE, c⟩ s).mem (Reg.PCCn n.val)).testBit i
      = (decide (i < 32) &&
          ((!decide (i = 30) && (s.mem (Reg.PCCn n.val)).testBit i)
            || (decide (24 ≤ i) && decide (i < 27) && c.val.testBit (i - 24))
            || decide (i = 30))) := by
  by_cases hc : c = CLK_SRC_OFF
  · subst hc
    rw [pcc_enabled_off_mem, pcc_step3_bits, pcc_step1_bits]
    have h0 : peripheral_clock_source_t.CLK_SRC_OFF.val.testBit (i - 24) = false :=
      Nat.zero_testBit _
    rw [h0]
    by_cases h1 : i < 32 <;> simp [h1]
  · have h : c.val ≠ CLK_SRC_OFF.val := by cases c <;> simp_all [peripheral_clock_source_t.val]
    have hm : (Clock_SetPccConfig ⟨n, CLK_GATE_ENABLE, c⟩ s).mem (Reg.PCCn n.val)
        = u32 (u32 (u32 (s.mem (Reg.PCCn n.val) &&& not32 (shl32 ENABLEMENT PCC_CGC_SHIFT))
            ||| shl32 c.val PCC_PCS_SHIFT) ||| shl32 ENABLEMENT PCC_CGC_SHIFT) := by
      simp [Clock_SetPccConfig, and_assign_mem, or_assign_mem, h]
    rw [hm, pcc_step3_bits, pcc_step2_bits, pcc_step1_bits]
    by_cases h1 : i < 32 <;> simp [h1]

theorem gate_mask_literal_testBit (i : Nat) :
    (0xBFFFFFFF : Nat).testBit i = (decide (i < 32) && !decide (i = 30)) := by
  have h : (0xBFFFFFFF : Nat) = not32 (shl32 ENABLEMENT PCC_CGC_SHIFT) := by decide
  rw [h, gate_mask_testBit]

/-- The word left in the addressed PCC register when the gate is requested
enabled. -/
theorem pcc_enabled_word (n : clock_names_t) (c : peripheral_clock_source_t) (s : Machine) :
    (Clock_SetPccConfig ⟨n, CLK_GATE_ENABLE, c⟩ s).mem (Reg.PCCn n.val)
      = (s.mem (Reg.PCCn n.val) &&& 0xBFFFFFFF) ||| (c.val <<< 24) ||| 2 ^ 30 := by
  apply Nat.eq_of_testBit_eq
  intro i
  rw [pcc_enabled_bits, Nat.testBit_or, Nat.testBit_or, Nat.testBit_and,
    gate_mask_literal_testBit, Nat.testBit_shiftLeft, Nat.testBit_two_pow]
  have hc := peripheral_clock_source_val_lt c
  by_cases h30 : i = 30
  · subst h30
    simp
  · have h30b : ¬ 30 = i := fun h => h30 h.symm
    by_cases h32 : i < 32
    · by_cases h24 : 24 ≤ i
      · by_cases h27 : i < 27
        · simp [h30, h30b, h32, h24, h27, Bool.and_comm]
        · have hz : c.val.testBit (i - 24) = false := testBit_of_lt_8 hc (by omega)
          simp [h30, h30b, h32, hz, Bool.and_comm]
      · simp [h30, h30b, h32, h24, Bool.and_comm]
    · have hz : c.val.testBit (i - 24) = false := testBit_of_lt_8 hc (by omega)
      simp [h30, h30b, h32, hz]

/-- The source-select field after a call with the gate requested enabled is
the OR of the prior field and the requested source. -/
theorem pcc_enabled_field (n : clock_names_t) (c : peripheral_clock_source_t) (s : Machine) :
    pcsField ((Clock_SetPccConfig ⟨n, CLK_GATE_ENABLE, c⟩ s).mem (Reg.PCCn n.val))
      = pcsField (s.mem (Reg.PCCn n.val)) ||| c.val := by
  apply Nat.eq_of_testBit_eq
  intro j
  rw [Nat.testBit_or, pcsField_testBit, pcsField_testBit, pcc_enabled_bits]
  have hc := peripheral_clock_source_val_lt c
  by_cases hj : j < 3
  · have h1 : 24 + j < 32 := by omega
    have h2 : 24 + j ≠ 30 := by omega
    have h3 : 24 + j < 27 := by omega
    simp [hj, h1, h2, h3]
  · simp [hj, testBit_of_lt_8 hc (Nat.le_of_not_lt hj)]

/-! ## Claim on the exact effect of Clock_SetPccConfig -/

/-- C31 as stated fails in its last part: with the source-select field of
`PCCn[73]` at 4 beforehand, applying source 1 and then source 2 (gate enabled)
to `PORTA_CLK` leaves the field at 7, not at `1 OR 2 = 3`. -/
theorem C31_source_field_keeps_prior_bits :
    pcsField ((Machine.holding (Reg.PCCn 73) 0x04000000).mem (Reg.PCCn 73)) = 4 ∧
    pcsField ((Clock_SetPccConfig ⟨PORTA_CLK, CLK_GATE_ENABLE, CLK_SRC_OP_2⟩
        (Clock_SetPccConfig ⟨PORTA_CLK, CLK_GATE_ENABLE, CLK_SRC_OP_1⟩
          (Machine.holding (Reg.PCCn 73) 0x04000000))).mem (Reg.PCCn 73)) = 7 ∧
    CLK_SRC_OP_1.val ||| CLK_SRC_OP_2.val = 3 := by
  decide

/-- C31, amended: for every prior word `w` of the addressed PCC register and
every configuration with the gate requested enabled, the resulting word is
`(w AND NOT 2^30) OR (clkSrc << 24) OR 2^30`, so the resulting bits 24 to 26
are the OR of the prior source field and `clkSrc`; applying source `a` and then
source `b` to the same clock leaves the source field equal to the prior field
OR `a` OR `b`, which is `a OR b` when the prior field is 0. -/
theorem C31_pcc_enabled_exact_effect (n : clock_names_t) (a b : peripheral_clock_source_t)
    (s : Machine) :
    (Clock_SetPccConfig ⟨n, CLK_GATE_ENABLE, a⟩ s).mem (Reg.PCCn n.val)
      = (s.mem (Reg.PCCn n.val) &&& 0xBFFFFFFF) ||| (a.val <<< 24) ||| 2 ^ 30 ∧
    pcsField ((Clock_SetPccConfig ⟨n, CLK_GATE_ENABLE, a⟩ s).mem (Reg.PCCn n.val))
      = pcsField (s.mem (Reg.PCCn n.val)) ||| a.val ∧
    pcsField ((Clock_SetPccConfig ⟨n, CLK_GATE_ENABLE, b⟩
        (Clock_SetPccConfig ⟨n, CLK_GATE_ENABLE, a⟩ s)).mem (Reg.PCCn n.val))
      = pcsField (s.mem (Reg.PCCn n.val)) ||| a.val ||| b.val ∧
    (pcsField (s.mem (Reg.PCCn n.val)) = 0 →
      pcsField ((Clock_SetPccConfig ⟨n, CLK_GATE_ENABLE, b⟩
          (Clock_SetPccConfig ⟨n, CLK_GATE_ENABLE, a⟩ s)).mem (Reg.PCCn n.val))
        = a.val ||| b.val) := by
  have h2 : pcsField ((Clock_SetPccConfig ⟨n, CLK_GATE_ENABLE, b⟩
      (Clock_SetPccConfig ⟨n, CLK_GATE_ENABLE, a⟩ s)).mem (Reg.PCCn n.val))
      = pcsField (s.mem (Reg.PCCn n.val)) ||| a.val ||| b.val := by
    rw [pcc_enabled_field, pcc_enabled_field]
  refine ⟨pcc_enabled_word n a s, pcc_enabled_field n a s, h2, ?_⟩
  intro h0
  rw [h2, h0, Nat.zero_or]

/-- Instance of C31: from the reset state, source 1 and then source 2 on
`PORTA_CLK` leave the word `0x43000000`, source field 3. -/
theorem C31_pcc_enabled_exact_effect_witness :
    (Clock_SetPccConfig ⟨PORTA_CLK, CLK_GATE_ENABLE, CLK_SRC_OP_1⟩ Machine.reset).mem
        (Reg.PCCn 73) = 0x41000000 ∧
    pcsField ((Clock_SetPccConfig ⟨PORTA_CLK, CLK_GATE_ENABLE, CLK_SRC_OP_2⟩
        (Clock_SetPccConfig ⟨PORTA_CLK, CLK_GATE_ENABLE, CLK_SRC_OP_1⟩
          Machine.reset)).mem (Reg.PCCn 73)) = 3 :=
  have h := C31_pcc_enabled_exact_effect PORTA_CLK CLK_SRC_OP_1 CLK_SRC_OP_2 Machine.reset
  ⟨h.1, h.2.2.2 (by decide)⟩

/-! ## Divider configuration accumulates -/

/-- The word left in a divider register by two successive pairs of
`|= d1 << 0`, `|= d2 << 8`. -/
theorem div_word_twice {w x1 x2 y1 y2 : Nat} (hw : w < 2 ^ 32)
    (hx1 : x1 < 8) (hx2 : x2 < 8) (hy1 : y1 < 8) (hy2 : y2 < 8) :
    u32 (u32 (u32 (u32 (w ||| shl32 x1 0) ||| shl32 x2 8) ||| shl32 y1 0) ||| shl32 y2 8)
      = w ||| x1 ||| y1 ||| ((x2 ||| y2) <<< 8) := by
  apply Nat.eq_of_testBit_eq
  intro i
  rw [div_word_testBit, div_word_testBit, Nat.testBit_or, Nat.testBit_or, Nat.testBit_or,
    Nat.testBit_shiftLeft, Nat.testBit_or]
  by_cases h32 : i < 32
  · by_cases h8 : 8 ≤ i
    · cases w.testBit i <;> cases x1.testBit i <;> cases y1.testBit i <;>
        cases x2.testBit (i - 8) <;> cases y2.testBit (i - 8) <;> simp [h32, h8]
    · cases w.testBit i <;> cases x1.testBit i <;> cases y1.testBit i <;> simp [h32, h8]
  · have h8 : 8 ≤ i := by omega
    have a1 : w.testBit i = false := testBit_high hw (Nat.le_of_not_lt h32)
    have a2 : x1.testBit i = false := testBit_of_lt_8 hx1 (by omega)
    have a3 : y1.testBit i = false := testBit_of_lt_8 hy1 (by omega)
    have a4 : x2.testBit (i - 8) = false := testBit_of_lt_8 hx2 (by omega)
    have a5 : y2.testBit (i - 8) = false := testBit_of_lt_8 hy2 (by omega)
    simp [h32, a1, a2, a3, a4, a5]

/-- Two successive divider updates give the same word in either order. -/
theorem div_word_comm (w x1 x2 y1 y2 : Nat) :
    u32 (u32 (u32 (u32 (w ||| shl32 x1 0) ||| shl32 x2 8) ||| shl32 y1 0) ||| shl32 y2 8)
      = u32 (u32 (u32 (u32 (w ||| shl32 y1 0) ||| shl32 y2 8) ||| shl32 x1 0) ||| shl32 x2 8) := by
  apply Nat.eq_of_testBit_eq
  intro i
  rw [div_word_testBit, div_word_testBit, div_word_testBit, div_word_testBit]
  cases decide (i < 32) <;> cases decide (8 ≤ i) <;> cases w.testBit i <;>
    cases x1.testBit i <;> cases y1.testBit i <;>
    cases x2.testBit (i - 8) <;> cases y2.testBit (i - 8) <;> rfl

/-- Repeating a divider update changes nothing. -/
theorem div_word_idem (w x1 x2 : Nat) :
    u32 (u32 (u32 (u32 (w ||| shl32 x1 0) ||| shl32 x2 8) ||| shl32 x1 0) ||| shl32 x2 8)
      = u32 (u32 (w ||| shl32 x1 0) ||| shl32 x2 8) := by
  apply Nat.eq_of_testBit_eq
  intro i
  rw [div_word_testBit, div_word_testBit]
  cases decide (i < 32) <;> cases decide (8 ≤ i) <;> cases w.testBit i <;>
    cases x1.testBit i <;> cases x2.testBit (i - 8) <;> rfl

/-- A divider update keeps every 1 bit of a 32-bit prior word. -/
theorem div_word_keeps {w : Nat} (hw : w < 2 ^ 32) (x1 x2 i : Nat)
    (h : w.testBit i = true) :
    (u32 (u32 (w ||| shl32 x1 0) ||| shl32 x2 8)).testBit i = true := by
  rw [div_word_testBit, h]
  by_cases h32 : i < 32
  · simp [h32]
  · rw [testBit_high hw (Nat.le_of_not_lt h32)] at h
    exact absurd h (by decide)

/-- C32: for every 32-bit prior content of `FIRCDIV` and every two
configurations `X` and `Y`, `Clock_SetScgFircConfig X` followed by
`Clock_SetScgFircConfig Y` leaves `FIRCDIV` equal to the prior content OR
`X.div1` OR `Y.div1` OR `(X.div2 OR Y.div2) << 8`; the memory is the same as
after applying them in the opposite order; one call never turns a 1 bit of the
register into 0; and applying the same configuration twice leaves the same
memory as applying it once. The same holds for `Clock_SetScgSircConfig` on
`SIRCDIV`. -/
theorem C32_divider_config_accumulates (X Y : Scg_Firc_ConfigType)
    (XS YS : Scg_Sirc_ConfigType) (s : Machine)
    (hw : s.mem Reg.SCG_FIRCDIV < 2 ^ 32) (hwS : s.mem Reg.SCG_SIRCDIV < 2 ^ 32) :
    ((Clock_SetScgFircConfig Y (Clock_SetScgFircConfig X s)).mem Reg.SCG_FIRCDIV
        = s.mem Reg.SCG_FIRCDIV ||| X.div1.val ||| Y.div1.val
            ||| ((X.div2.val ||| Y.div2.val) <<< 8) ∧
      (∀ r, (Clock_SetScgFircConfig Y (Clock_SetScgFircConfig X s)).mem r
        = (Clock_SetScgFircConfig X (Clock_SetScgFircConfig Y s)).mem r) ∧
      (∀ i, (s.mem Reg.SCG_FIRCDIV).testBit i = true →
        ((Clock_SetScgFircConfig X s).mem Reg.SCG_FIRCDIV).testBit i = true) ∧
      (∀ r, (Clock_SetScgFircConfig X (Clock_SetScgFircConfig X s)).mem r
        = (Clock_SetScgFircConfig X s).mem r)) ∧
    ((Clock_SetScgSircConfig YS (Clock_SetScgSircConfig XS s)).mem Reg.SCG_SIRCDIV
        = s.mem Reg.SCG_SIRCDIV ||| XS.div1.val ||| YS.div1.val
            ||| ((XS.div2.val ||| YS.div2.val) <<< 8) ∧
      (∀ r, (Clock_SetScgSircConfig YS (Clock_SetScgSircConfig XS s)).mem r
        = (Clock_SetScgSircConfig XS (Clock_SetScgSircConfig YS s)).mem r) ∧
      (∀ i, (s.mem Reg.SCG_SIRCDIV).testBit i = true →
        ((Clock_SetScgSircConfig XS s).mem Reg.SCG_SIRCDIV).testBit i = true) ∧
      (∀ r, (Clock_SetScgSircConfig XS (Clock_SetScgSircConfig XS s)).mem r
        = (Clock_SetScgSircConfig XS s).mem r)) := by
  refine ⟨⟨?_, ?_, ?_, ?_⟩, ⟨?_, ?_, ?_, ?_⟩⟩
  · rw [firc_mem, if_pos rfl, firc_mem, if_pos rfl]
    exact div_word_twice hw (scg_async_clock_div_val_lt _) (scg_async_clock_div_val_lt _)
      (scg_async_clock_div_val_lt _) (scg_async_clock_div_val_lt _)
  · intro r
    simp only [firc_mem, eq_self_iff_true, if_true]
    split_ifs
    · exact div_word_comm _ _ _ _ _
    · rfl
  · intro i h
    rw [firc_mem, if_pos rfl]
    exact div_word_keeps hw _ _ i h
  · intro r
    simp only [firc_mem, eq_self_iff_true, if_true]
    split_ifs
    · exact div_word_idem _ _ _
    · rfl
  · rw [sirc_mem, if_pos rfl, sirc_mem, if_pos rfl]
    exact div_word_twice hwS (scg_async_clock_div_val_lt _) (scg_async_clock_div_val_lt _)
      (scg_async_clock_div_val_lt _) (scg_async_clock_div_val_lt _)
  · intro r
    simp only [sirc_mem, eq_self_iff_true, if_true]
    split_ifs
    · exact div_word_comm _ _ _ _ _
    · rfl
  · intro i h
    rw [sirc_mem, if_pos rfl]
    exact div_word_keeps hwS _ _ i h
  · intro r
    simp only [sirc_mem, eq_self_iff_true, if_true]
    split_ifs
    · exact div_word_idem _ _ _
    · rfl

/-- Instance of C32: with `FIRCDIV` at `0x00010040`, divide-by-1/divide-by-2
followed by divide-by-2/divide-by-4 leaves `0x00010343`, and with `SIRCDIV` at
`0x00000400`, divide-by-4/divide-by-1 followed by divide-by-1/divide-by-2
leaves `0x00000703`. -/
theorem C32_divider_config_accumulates_witness :
    (Machine.holding Reg.SCG_FIRCDIV 0x00010040).mem Reg.SCG_FIRCDIV < 2 ^ 32 ∧
    (Clock_SetScgFircConfig
        ⟨scg_async_clock_div_t.SCG_CLOCK_DIV_BY_2, scg_async_clock_div_t.SCG_CLOCK_DIV_BY_4⟩
        (Clock_SetScgFircConfig
          ⟨scg_async_clock_div_t.SCG_CLOCK_DIV_BY_1, scg_async_clock_div_t.SCG_CLOCK_DIV_BY_2⟩
          (Machine.holding Reg.SCG_FIRCDIV 0x00010040))).mem Reg.SCG_FIRCDIV = 0x00010343 :=
  ⟨by decide,
    (C32_divider_config_accumulates
      ⟨scg_async_clock_div_t.SCG_CLOCK_DIV_BY_1, scg_async_clock_div_t.SCG_CLOCK_DIV_BY_2⟩
      ⟨scg_async_clock_div_t.SCG_CLOCK_DIV_BY_2, scg_async_clock_div_t.SCG_CLOCK_DIV_BY_4⟩
      ⟨scg_async_clock_div_t.SCG_CLOCK_DIV_BY_4, scg_async_clock_div_t.SCG_CLOCK_DIV_BY_1⟩
      ⟨scg_async_clock_div_t.SCG_CLOCK_DIV_BY_1, scg_async_clock_div_t.SCG_CLOCK_DIV_BY_2⟩
      (Machine.holding Reg.SCG_FIRCDIV 0x00010040) (by decide) (by decide)).1.1⟩

/-! ## Interrupt-number decompositions -/

theorem nvic_enable_trace (id : Nat) (s : Machine) :
    (NVIC_EnableInterrupt id s).trace
      = s.trace ++ [Event.write (Reg.ISER (id / 32)) (2 ^ (id % 32))] := by
  rw [NVIC_EnableInterrupt, store_trace, nvic_mask]

theorem nvic_disable_trace (id : Nat) (s : Machine) :
    (NVIC_DisableInterrupt id s).trace
      = s.trace ++ [Event.write (Reg.ICER (id / 32)) (2 ^ (id % 32))] := by
  rw [NVIC_DisableInterrupt, store_trace, nvic_mask]

theorem nvic_clear_pending_trace (id : Nat) (s : Machine) :
    (NVIC_ClearPendingFlag id s).trace
      = s.trace ++ [Event.write (Reg.ICPR (id / 32)) (2 ^ (id % 32))] := by
  rw [NVIC_ClearPendingFlag, store_trace, nvic_mask]

/-- Equal bank and equal mask force equal interrupt numbers. -/
theorem bank_bit_injective {a b : Nat} (hbank : a / 32 = b / 32)
    (hmask : 2 ^ (a % 32) = 2 ^ (b % 32)) : a = b := by
  have hbit : a % 32 = b % 32 := Nat.pow_right_injective (le_refl 2) hmask
  omega

set_option maxRecDepth 100000 in
/-- A non-zero priority byte shifted into two different lanes gives two
different 32-bit words. -/
theorem lane_word_injective :
    ∀ la, la < 4 → ∀ lb, lb < 4 → ∀ p, p < 256 → 1 ≤ p →
      u32 (shl32 ((p % 256) &&& 0xFF) (la * 8 + 4))
        = u32 (shl32 ((p % 256) &&& 0xFF) (lb * 8 + 4)) → la = lb := by
  decide

/-- C33: for every interrupt number `a` (in particular 0 to 255),
`32 * (a / 32) + a % 32 = a` and `4 * (a / 4) + a % 4 = a`; so for distinct
interrupt numbers `a` and `b` the pairs (bank, bit) differ and the pairs (word,
byte lane) differ, the writes of `NVIC_EnableInterrupt`,
`NVIC_DisableInterrupt` and `NVIC_ClearPendingFlag` for `a` and `b` differ in
register or in mask, and the writes of `NVIC_SetPriority` of a non-zero eight
bit priority for `a` and `b` differ in register or in value. -/
theorem C33_interrupt_id_decomposition_injective (a b p : Nat) (s : Machine)
    (hab : a ≠ b) (hp1 : 1 ≤ p) (hp : p ≤ 255) :
    32 * (a / 32) + a % 32 = a ∧
    4 * (a / 4) + a % 4 = a ∧
    (a / 32, a % 32) ≠ (b / 32, b % 32) ∧
    (a / 4, a % 4) ≠ (b / 4, b % 4) ∧
    (NVIC_EnableInterrupt a s).trace ≠ (NVIC_EnableInterrupt b s).trace ∧
    (NVIC_DisableInterrupt a s).trace ≠ (NVIC_DisableInterrupt b s).trace ∧
    (NVIC_ClearPendingFlag a s).trace ≠ (NVIC_ClearPendingFlag b s).trace ∧
    (NVIC_SetPriority a p s).trace ≠ (NVIC_SetPriority b p s).trace := by
  refine ⟨by omega, by omega, ?_, ?_, ?_, ?_, ?_, ?_⟩
  · intro h
    have h1 := congrArg Prod.fst h
    have h2 := congrArg Prod.snd h
    simp only at h1 h2
    omega
  · intro h
    have h1 := congrArg Prod.fst h
    have h2 := congrArg Prod.snd h
    simp only at h1 h2
    omega
  · rw [nvic_enable_trace, nvic_enable_trace]
    intro h
    have h1 := List.append_cancel_left h
    simp only [List.cons.injEq, Event.write.injEq, Reg.ISER.injEq, and_true] at h1
    exact hab (bank_bit_injective h1.1 h1.2)
  · rw [nvic_disable_trace, nvic_disable_trace]
    intro h
    have h1 := List.append_cancel_left h
    simp only [List.cons.injEq, Event.write.injEq, Reg.ICER.injEq, and_true] at h1
    exact hab (bank_bit_injective h1.1 h1.2)
  · rw [nvic_clear_pending_trace, nvic_clear_pending_trace]
    intro h
    have h1 := List.append_cancel_left h
    simp only [List.cons.injEq, Event.write.injEq, Reg.ICPR.injEq, and_true] at h1
    exact hab (bank_bit_injective h1.1 h1.2)
  · rw [NVIC_SetPriority, NVIC_SetPriority, store_trace, store_trace]
    intro h
    have h1 := List.append_cancel_left h
    simp only [List.cons.injEq, Event.write.injEq, Reg.IPR.injEq, and_true] at h1
    have h2 : a % 4 = b % 4 :=
      lane_word_injective (a % 4) (Nat.mod_lt _ (by norm_num)) (b % 4)
        (Nat.mod_lt _ (by norm_num)) p (by omega) hp1 h1.2
    have h3 := h1.1
    omega

/-- Instance of C33: interrupts 33 and 65 share bit 1 but not the bank, and
interrupts 5 and 6 share priority word 1 but not the lane. -/
theorem C33_interrupt_id_decomposition_injective_witness :
    (NVIC_EnableInterrupt 33 Machine.reset).trace
      ≠ (NVIC_EnableInterrupt 65 Machine.reset).trace ∧
    (NVIC_SetPriority 5 3 Machine.reset).trace
      ≠ (NVIC_SetPriority 6 3 Machine.reset).trace :=
  ⟨(C33_interrupt_id_decomposition_injective 33 65 3 Machine.reset
      (by decide) (by decide) (by decide)).2.2.2.2.1,
   (C33_interrupt_id_decomposition_injective 5 6 3 Machine.reset
      (by decide) (by decide) (by decide)).2.2.2.2.2.2.2⟩

/-! ## A documented priority fits its lane -/

/-- For a priority of at most 15 in any of the four lanes, the composed word is
the untruncated shift and reads back as the priority. -/
theorem lane_word_exact :
    ∀ l, l < 4 → ∀ p, p < 16 →
      (p % 256) &&& 0xFF = p ∧
      u32 (shl32 ((p % 256) &&& 0xFF) (l * 8 + 4)) = p <<< (l * 8 + 4) ∧
      p * 2 ^ (l * 8 + 4) < 2 ^ 32 ∧
      (u32 (shl32 ((p % 256) &&& 0xFF) (l * 8 + 4)) >>> (l * 8 + 4)) &&& 0xF = p := by
  decide

/-- C34: for every interrupt number `id` of at most 122 and every priority `p`
of at most 15, `NVIC_SetPriority id p` writes to `IPR[id / 4]` a word that is
exactly `p * 2 ^ ((id % 4) * 8 + 4)`, below `2 ^ 32`, so no bit is lost to
32-bit truncation, lane 3 with shift 28 included; the word has 1 bits only
within bits `(id % 4) * 8 + 4` to `(id % 4) * 8 + 7`; and the word shifted
right by `(id % 4) * 8 + 4` and masked with `0xF` equals `p`. -/
theorem C34_documented_priority_fits_lane (id p : Nat) (s : Machine)
    (hid : id ≤ 122) (hp : p ≤ 15) :
    (NVIC_SetPriority id p s).trace
      = s.trace ++ [Event.write (Reg.IPR (id / 4))
          ((NVIC_SetPriority id p s).mem (Reg.IPR (id / 4)))] ∧
    id / 4 < 60 ∧
    (NVIC_SetPriority id p s).mem (Reg.IPR (id / 4)) = p * 2 ^ ((id % 4) * 8 + 4) ∧
    p * 2 ^ ((id % 4) * 8 + 4) < 2 ^ 32 ∧
    (∀ i, ((NVIC_SetPriority id p s).mem (Reg.IPR (id / 4))).testBit i = true →
      (id % 4) * 8 + 4 ≤ i ∧ i ≤ (id % 4) * 8 + 7) ∧
    ((NVIC_SetPriority id p s).mem (Reg.IPR (id / 4)) >>> ((id % 4) * 8 + 4)) &&& 0xF = p := by
  have hl : id % 4 < 4 := Nat.mod_lt _ (by norm_num)
  obtain ⟨h1, h2, h3, h4⟩ := lane_word_exact (id % 4) hl p (by omega)
  have hm : (NVIC_SetPriority id p s).mem (Reg.IPR (id / 4))
      = u32 (shl32 ((p % 256) &&& 0xFF) ((id % 4) * 8 + 4)) := by
    rw [NVIC_SetPriority, store_mem, if_pos rfl]
  refine ⟨?_, by omega, ?_, h3, ?_, ?_⟩
  · rw [hm, NVIC_SetPriority, store_trace]
  · rw [hm, h2, Nat.shiftLeft_eq]
  · intro i hi
    rw [hm, testBit_u32] at hi
    simp only [Bool.and_eq_true, decide_eq_true_eq] at hi
    rw [h1] at hi
    have hx : p < 2 ^ 4 := by omega
    have h5 := field_bits hx hi.2
    omega
  · rw [hm]
    exact h4

/-- Instance of C34: interrupt 7 (lane 3) with priority 15 writes
`0xF0000000` to `IPR[1]`, which reads back as 15. -/
theorem C34_documented_priority_fits_lane_witness :
    (NVIC_SetPriority 7 15 Machine.reset).mem (Reg.IPR 1) = 0xF0000000 ∧
    ((NVIC_SetPriority 7 15 Machine.reset).mem (Reg.IPR 1) >>> 28) &&& 0xF = 15 :=
  ⟨(C34_documented_priority_fits_lane 7 15 Machine.reset (by decide) (by decide)).2.2.1,
   (C34_documented_priority_fits_lane 7 15 Machine.reset (by decide) (by decide)).2.2.2.2.2⟩

end Mcal
